import Mathlib

/-!
# LLC2 connection actions (net/llc/llc_c_ac.c)

A shallow embedding of the connection component actions of the LLC type-2
engine.  Every action of the C file takes the connection (`struct sock *sk`,
whose control block is `llc_sk(sk)`) and the current event (`struct sk_buff
*skb`) and returns 0 on success and 1 otherwise.  Here an action is a function
from the connection and the event to the return code together with the updated
connection and event.

Machine integers are natural numbers; every store into an 8-bit field goes
through `to_u8`, the C conversion to `u8`.
-/

namespace LLC

/-! ## Machine integers -/

/-- Conversion of a C `int` value to `u8` (a store into an 8-bit unsigned object). -/
def to_u8 (z : Int) : Nat := (z % 256).toNat

/-- Conversion of a C `int` value to `u16`. -/
def to_u16 (z : Int) : Nat := (z % 65536).toNat

/-- Conversion of a non-negative value to `unsigned long`, `bits` bits wide
(`BITS_PER_LONG`: 32 on i386, 64 on ia64). -/
def to_ulong (bits z : Nat) : Nat := z % 2 ^ bits

/-! ## Data model -/

/-- The callback stored in `timer_list.function`. -/
inductive timer_fn where
  | unset
  | llc_conn_pf_cycle_tmr_cb
  | llc_conn_ack_tmr_cb
  | llc_conn_rej_tmr_cb
  | llc_conn_busy_tmr_cb
  deriving DecidableEq, Repr

/-- Kernel `struct timer_list`: `pending` is true while the timer sits in the
kernel timer wheel (set by `add_timer`, cleared by `del_timer` and by expiry).
The `data` member always holds the owning sock and is not represented. -/
structure timer_list where
  pending : Bool := false
  expires : Nat := 0
  function : timer_fn := timer_fn.unset
  deriving DecidableEq, Repr

/-- Kernel `add_timer`. -/
def add_timer (t : timer_list) : timer_list := { t with pending := true }

/-- Kernel `del_timer`. -/
def del_timer (t : timer_list) : timer_list := { t with pending := false }

/-- Modelled from the spec: `struct llc_timer` of net/llc_conn.h (the header is
not among the sources): each timer has `expireSeconds`, `running` and the
underlying countdown handle. -/
structure llc_timer where
  timer : timer_list := {}
  expire : Nat := 0
  running : Nat := 0
  deriving DecidableEq, Repr

/-- The first four bytes of a received LLC header (`struct llc_pdu_sn`, also
read as `struct llc_pdu_un`): DSAP, SSAP and the control field. -/
structure llc_pdu_sn where
  dsap : Nat := 0
  ssap : Nat := 0
  ctrl_1 : Nat := 0
  ctrl_2 : Nat := 0
  deriving DecidableEq, Repr

/-- SAP and station address pair (`struct llc_addr`). -/
structure llc_addr where
  lsap : Nat := 0
  mac : Nat := 0
  deriving DecidableEq, Repr

/-- The members of `struct net_device` the actions read. -/
structure net_device where
  flags : Nat := 0
  dev_addr : Nat := 0
  deriving DecidableEq, Repr

/-- The payload of a service primitive (`union llc_u_prim_data`); the `sk`
member of every variant is the connection itself. -/
inductive llc_u_prim_data where
  | empty
  | conn (pri status link : Nat) (dev : net_device)
  | disc (reason link : Nat)
  | res (reason link : Nat)
  deriving DecidableEq, Repr

/-- Primitive record `struct llc_prim_if_block`; its `sap` member is the owning
SAP itself. -/
structure llc_prim_if_block where
  prim : Nat := 0
  data : llc_u_prim_data := llc_u_prim_data.empty
  deriving DecidableEq, Repr

/-- The members of `struct llc_sap` the actions use. -/
structure llc_sap where
  laddr : llc_addr := {}
  llc_ind_prim : llc_prim_if_block := {}
  llc_cfm_prim : llc_prim_if_block := {}
  deriving DecidableEq, Repr

/-- Modelled from the spec: the connection control block `struct llc_opt` of
net/llc_conn.h (the header is not among the sources).  The fields are the ones
llc_c_ac.c accesses; the sequence counters, window, adaptive-ack counters and
flags are 8-bit unsigned objects (they are exchanged with `u8` locals, `u8`
parameters and `u8 *` arguments throughout the file: `k` with `u8 unacked_pdu`,
`vS` and `X` with `llc_circular_between`, `f_flag` with `llc_pdu_decode_pf_bit`),
`n2` is wider.  The unacknowledged queue holds
the send sequence numbers of the outstanding I-PDUs, oldest first, and
`rx_pdu_hdr` (a `u32` copy of a header) holds the four header bytes. -/
structure llc_opt where
  state : Nat := 0
  sap : llc_sap := {}
  laddr : llc_addr := {}
  daddr : llc_addr := {}
  dev : net_device := {}
  link : Nat := 0
  retry_count : Nat := 0
  ack_must_be_send : Nat := 0
  first_pdu_Ns : Nat := 0
  npta : Nat := 0
  ack_timer : llc_timer := {}
  pf_cycle_timer : llc_timer := {}
  rej_sent_timer : llc_timer := {}
  busy_state_timer : llc_timer := {}
  vS : Nat := 0
  vR : Nat := 0
  n2 : Nat := 0
  k : Nat := 2
  p_flag : Nat := 0
  f_flag : Nat := 0
  s_flag : Nat := 0
  data_flag : Nat := 0
  remote_busy_flag : Nat := 0
  cause_flag : Nat := 0
  pdu_unack_q : List Nat := []
  X : Nat := 0
  ack_pf : Nat := 0
  failed_data_req : Nat := 0
  dec_cntr : Nat := 0
  inc_cntr : Nat := 0
  dec_step : Nat := 0
  connect_step : Nat := 0
  last_nr : Nat := 0
  rx_pdu_hdr : llc_pdu_sn := {}
  deriving DecidableEq, Repr

/-- Kernel `skb_queue_len` on the unacknowledged queue. -/
def skb_queue_len (q : List Nat) : Nat := q.length

/-! ## Events, frames and the connection -/

/-- A pointer to a primitive record as stored in the event: `NULL`, the marker
`(void *)1`, `&sap->llc_ind_prim` or `&sap->llc_cfm_prim`. -/
inductive prim_ptr where
  | null
  | one
  | llc_ind_prim
  | llc_cfm_prim
  deriving DecidableEq, Repr

/-- The members of `struct llc_conn_state_ev` (the event record kept in the
control buffer of the skb) that the actions access. -/
structure llc_conn_state_ev where
  type : Nat := 0
  status : Nat := 0
  flag : Nat := 0
  ind_prim : prim_ptr := prim_ptr.null
  cfm_prim : prim_ptr := prim_ptr.null
  tmr_timer_specific : Nat := 0
  deriving DecidableEq, Repr

/-- The current event: the event record and, for a PDU event, the received
LLC header. -/
structure sk_buff where
  ev : llc_conn_state_ev := {}
  pdu : llc_pdu_sn := {}
  dev : net_device := {}
  backlog_type : Nat := 0
  deriving DecidableEq, Repr

/-- The control field handed to the PDU codec: which `llc_pdu_init_as_*`
builder an action calls, with its arguments. -/
inductive pdu_init where
  | i_cmd (p_bit ns nr : Nat)
  | rr_cmd (p_bit nr : Nat)
  | rr_rsp (f_bit nr : Nat)
  | rnr_cmd (p_bit nr : Nat)
  | rnr_rsp (f_bit nr : Nat)
  | rej_cmd (p_bit nr : Nat)
  | rej_rsp (f_bit nr : Nat)
  | disc_cmd (p_bit : Nat)
  | sabme_cmd (p_bit : Nat)
  | ua_rsp (f_bit : Nat)
  | dm_rsp (f_bit : Nat)
  | frmr_rsp (prev_pdu : llc_pdu_sn) (f_bit vs vr vzyxw : Nat)
  deriving DecidableEq, Repr

/-- An outgoing frame as the actions build it: the arguments of
`llc_pdu_header_init`, of the `llc_pdu_init_as_*` builder and of
`lan_hdrs_init`. -/
structure frame where
  dev : net_device := {}
  hdr_type : Nat := 0
  ssap : Nat := 0
  dsap : Nat := 0
  cr : Nat := 0
  body : pdu_init := pdu_init.rr_rsp 0 0
  sa : Nat := 0
  da : Nat := 0
  deriving DecidableEq, Repr

/-- The connection (`struct sock` with its `llc_opt`): the control block, the
frames handed to `llc_conn_send_pdu` (oldest first), the lock owner count and
the backlog queue. -/
structure sock where
  llc : llc_opt := {}
  tx : List frame := []
  lock_users : Nat := 0
  backlog : List sk_buff := []
  deriving DecidableEq, Repr

/-- External `llc_conn_send_pdu(sk, skb)`: the frame is handed to transmission. -/
def llc_conn_send_pdu (sk : sock) (f : frame) : sock := { sk with tx := sk.tx ++ [f] }

/-! ## Constants and codec of the absent headers -/

/-- Modelled from the spec: PDU format I passed to `llc_pdu_header_init`
(net/llc_pdu.h is not among the sources). -/
def LLC_PDU_TYPE_I : Nat := 0

/-- Modelled from the spec: PDU format S (supervisory), control byte 0 bits 0-1 = `01`. -/
def LLC_PDU_TYPE_S : Nat := 1

/-- Modelled from the spec: PDU format U (unnumbered), control byte 0 bits 0-1 = `11`. -/
def LLC_PDU_TYPE_U : Nat := 3

/-- Modelled from the spec: command role in the command/response bit of the SSAP octet. -/
def LLC_PDU_CMD : Nat := 0

/-- Modelled from the spec: response role in the command/response bit of the SSAP octet. -/
def LLC_PDU_RSP : Nat := 1

/-- Modelled from the spec: the bits of a U-format control byte that carry the
command/response code (everything but the format bits and the P/F bit). -/
def LLC_U_PDU_CMD_MASK : Nat := 0xEC

/-- Modelled from the spec: U-format code of the SABME command. -/
def LLC_2_PDU_CMD_SABME : Nat := 0x6C

/-- Modelled from the spec: U-format code of the DISC command. -/
def LLC_2_PDU_CMD_DISC : Nat := 0x40

/-- Modelled from the spec: U-format code of the DM response. -/
def LLC_2_PDU_RSP_DM : Nat := 0x0C

/-- Modelled from the spec: U-format code of the FRMR response. -/
def LLC_2_PDU_RSP_FRMR : Nat := 0x84

/-- Modelled from the spec: event kind "inbound PDU" (net/llc_c_ev.h is not among the sources). -/
def LLC_CONN_EV_TYPE_PDU : Nat := 4

/-- Modelled from the spec: event kind "ack timer expired". -/
def LLC_CONN_EV_TYPE_ACK_TMR : Nat := 5

/-- Modelled from the spec: event kind "poll timer expired". -/
def LLC_CONN_EV_TYPE_P_TMR : Nat := 6

/-- Modelled from the spec: event kind "reject timer expired". -/
def LLC_CONN_EV_TYPE_REJ_TMR : Nat := 7

/-- Modelled from the spec: event kind "busy timer expired". -/
def LLC_CONN_EV_TYPE_BUSY_TMR : Nat := 8

/-- Modelled from the spec: primitive code of DATA (net/llc_sap.h is not among the sources). -/
def LLC_DATA_PRIM : Nat := 2

/-- Modelled from the spec: primitive code of DISCONNECT. -/
def LLC_DISC_PRIM : Nat := 3

/-- Modelled from the spec: primitive code of RESET. -/
def LLC_RESET_PRIM : Nat := 4

/-- Modelled from the spec: disconnect reason "received DM response". -/
def LLC_DISC_REASON_RX_DM_RSP_PDU : Nat := 0

/-- Modelled from the spec: disconnect reason "received DISC command". -/
def LLC_DISC_REASON_RX_DISC_CMD_PDU : Nat := 1

/-- Modelled from the spec: disconnect reason "ack-timer exhausted". -/
def LLC_DISC_REASON_ACK_TMR_EXP : Nat := 2

/-- Modelled from the spec: reset cause "remote". -/
def LLC_RESET_REASON_REMOTE : Nat := 1

/-- Modelled from the spec: reset cause "local". -/
def LLC_RESET_REASON_LOCAL : Nat := 2

/-- Modelled from the spec: the loopback bit of `net_device.flags`
(linux/if.h is not among the sources). -/
def IFF_LOOPBACK : Nat := 0x8

/-- Modelled from the spec: a frame is a response when the command/response bit
of its SSAP octet is set, a command otherwise. -/
def pdu_is_rsp (pdu : llc_pdu_sn) : Bool := pdu.ssap &&& LLC_PDU_RSP != 0

/-- Modelled from the spec: a frame is U-format when bits 0-1 of its first
control byte are `11`. -/
def pdu_is_u (pdu : llc_pdu_sn) : Bool := pdu.ctrl_1 &&& 3 == LLC_PDU_TYPE_U

/-- Modelled from the spec: the macro `LLC_PDU_IS_RSP` of net/llc_pdu.h, which
like the actions yields 0 on success: 0 for a response, 1 for a command.  The
source negates these macros wherever it tests for the named class (a DM or FRMR
response in `llc_conn_ac_disc_ind` and `llc_conn_ac_rst_ind`, the final bit of a
response in `llc_conn_ac_upd_p_flag`, the poll bit of a command in
`llc_conn_ac_send_frmr_rsp_f_set_x`). -/
def LLC_PDU_IS_RSP (pdu : llc_pdu_sn) : Nat := if pdu_is_rsp pdu then 0 else 1

/-- Modelled from the spec: the macro `LLC_PDU_IS_CMD` of net/llc_pdu.h:
0 for a command, 1 for a response. -/
def LLC_PDU_IS_CMD (pdu : llc_pdu_sn) : Nat := if pdu_is_rsp pdu then 1 else 0

/-- Modelled from the spec: the macro `LLC_PDU_TYPE_IS_U` of net/llc_pdu.h:
0 for a U-format frame, 1 otherwise. -/
def LLC_PDU_TYPE_IS_U (pdu : llc_pdu_sn) : Nat := if pdu_is_u pdu then 0 else 1

/-- Modelled from the spec: the macro `LLC_U_PDU_CMD`, the command code of a
U-format control byte. -/
def LLC_U_PDU_CMD (pdu : llc_pdu_sn) : Nat := pdu.ctrl_1 &&& LLC_U_PDU_CMD_MASK

/-- Modelled from the spec: the macro `LLC_U_PDU_RSP`, the response code of a
U-format control byte. -/
def LLC_U_PDU_RSP (pdu : llc_pdu_sn) : Nat := pdu.ctrl_1 &&& LLC_U_PDU_CMD_MASK

/-- Modelled from the spec: `llc_pdu_decode_pf_bit` of the PDU codec: bit 0 of
the second control byte for I and S formats, the embedded P/F bit (bit 4) of
the control byte for the U format. -/
def llc_pdu_decode_pf_bit (pdu : llc_pdu_sn) : Nat :=
  if pdu_is_u pdu then (pdu.ctrl_1 &&& 0x10) >>> 4 else pdu.ctrl_2 &&& 1

/-- Modelled from the spec: the macro `PDU_SUPV_GET_Nr`, N(R) in bits 1-7 of
the second control byte. -/
def PDU_SUPV_GET_Nr (pdu : llc_pdu_sn) : Nat := (pdu.ctrl_2 &&& 0xFE) >>> 1

/-- Modelled from the spec: the macro `PDU_GET_NEXT_Vr`, the successor of a
receive sequence number on the modulo-128 counter. -/
def PDU_GET_NEXT_Vr (sn : Nat) : Nat := to_u8 ((sn : Int) + 1) % 128

/-- Modelled from the spec: `llc_conn_remove_acked_pdus` (net/llc/llc_conn.c is
not among the sources): removes from the front of the unacknowledged queue the
entries whose sequence number is covered by the received N(R), N(R) itself
included (with queue 10,11,12,13 and N(R) = 12 the entries 10,11,12 go); it
returns the number of entries removed and stores the number of entries that
remain through its `u16 *` argument. -/
def llc_conn_remove_acked_pdus (llc : llc_opt) (nr : Nat) : Int × Nat × llc_opt :=
  match llc.pdu_unack_q with
  | [] => (0, 0, llc)
  | ns :: rest =>
    let covered := (nr + 1 + 128 - ns % 128) % 128
    let nbr_acked := min covered (ns :: rest).length
    let q := (ns :: rest).drop nbr_acked
    ((nbr_acked : Int), to_u16 (skb_queue_len q), { llc with pdu_unack_q := q })

/-! ## Sequence-number ring -/

/-- Function `llc_circular_between(a, b, c)`: the two differences are stored back into
the `u8` parameters before they are compared. -/
def llc_circular_between (a b c : Nat) : Nat :=
  let b1 := to_u8 ((b : Int) - (a : Int))
  let c1 := to_u8 ((c : Int) - (a : Int))
  if b1 ≤ c1 then 1 else 0

/-- The forward arc of the 128-slot ring from `a` to `c`, both ends included:
`a`, `a+1`, ... taken modulo 128 until `c` is reached. -/
def forward_arc (a c : Nat) : List Nat :=
  (List.range ((c + 128 - a) % 128 + 1)).map (fun d => (a + d) % 128)

/-! ## Transmit window -/

/-- Action `llc_conn_ac_dec_tx_win_size`: `k` shrinks by the number of outstanding
PDUs (held in a `u8` local), then is floored at 2. -/
def llc_conn_ac_dec_tx_win_size (llc : llc_opt) : Nat × llc_opt :=
  let unacked_pdu := to_u8 (skb_queue_len llc.pdu_unack_q)
  let llc1 := { llc with k := to_u8 ((llc.k : Int) - (unacked_pdu : Int)) }
  let llc2 := if llc1.k < 2 then { llc1 with k := 2 } else llc1
  (0, llc2)

/-- Action `llc_conn_ac_inc_tx_win_size`: `k` grows by one, ceiling 128. -/
def llc_conn_ac_inc_tx_win_size (llc : llc_opt) : Nat × llc_opt :=
  let llc1 := { llc with k := to_u8 ((llc.k : Int) + 1) }
  let llc2 := if llc1.k > 128 then { llc1 with k := 128 } else llc1
  (0, llc2)

/-! ## Adaptive acknowledgment threshold -/

/-- Action `llc_conn_ac_inc_npta_value`: after `inc_cntr` calls `npta` grows by one,
ceiling 127, and both hysteresis counters restart at 2. -/
def llc_conn_ac_inc_npta_value (llc : llc_opt) : Nat × llc_opt :=
  if llc.inc_cntr = 0 then
    let llc1 := { llc with dec_step := 0 }
    let llc2 := { llc1 with inc_cntr := 2, dec_cntr := 2 }
    let llc3 := { llc2 with npta := to_u8 ((llc2.npta : Int) + 1) }
    let llc4 := if llc3.npta > 127 then { llc3 with npta := 127 } else llc3
    (0, llc4)
  else
    (0, { llc with inc_cntr := to_u8 ((llc.inc_cntr : Int) - 1) })

/-- Action `llc_conn_ac_adjust_npta_by_rr`: the outer `else` belongs to the test of
`connect_step` and `remote_busy_flag` and clears `connect_step`. -/
def llc_conn_ac_adjust_npta_by_rr (llc : llc_opt) : Nat × llc_opt :=
  if llc.connect_step = 0 ∧ llc.remote_busy_flag = 0 then
    if llc.dec_step = 0 then
      if llc.dec_cntr = 0 then
        let llc1 := { llc with dec_cntr := 2, inc_cntr := 2 }
        let llc2 :=
          if llc1.npta > 0 then { llc1 with npta := to_u8 ((llc1.npta : Int) - 1) } else llc1
        (0, llc2)
      else
        (0, { llc with dec_cntr := to_u8 ((llc.dec_cntr : Int) - 1) })
    else
      (0, llc)
  else
    (0, { llc with connect_step := 0 })

/-- Action `llc_conn_ac_adjust_npta_by_rnr`. -/
def llc_conn_ac_adjust_npta_by_rnr (llc : llc_opt) : Nat × llc_opt :=
  if llc.remote_busy_flag ≠ 0 then
    if llc.dec_step = 0 then
      if llc.dec_cntr = 0 then
        let llc1 := { llc with dec_cntr := 2, inc_cntr := 2 }
        let llc2 :=
          if llc1.npta > 0 then { llc1 with npta := to_u8 ((llc1.npta : Int) - 1) } else llc1
        (0, llc2)
      else
        (0, { llc with dec_cntr := to_u8 ((llc.dec_cntr : Int) - 1) })
    else
      (0, llc)
  else
    (0, llc)

/-! ## Sequence counters -/

/-- Action `llc_conn_ac_inc_vr_by_1`. -/
def llc_conn_ac_inc_vr_by_1 (sk : sock) : Nat × sock :=
  (0, { sk with llc := { sk.llc with vR := PDU_GET_NEXT_Vr sk.llc.vR } })

/-! ## Acknowledgment batching -/

/-- Action `llc_conn_ac_send_rr_rsp_f_set_ackpf`; `alloc` tells whether
`llc_alloc_frame()` yields a frame in this call. -/
def llc_conn_ac_send_rr_rsp_f_set_ackpf (alloc : Bool) (sk : sock) : Nat × sock :=
  if alloc then
    let llc := sk.llc
    let f_bit := llc.ack_pf
    let nskb : frame :=
      { dev := llc.dev, hdr_type := LLC_PDU_TYPE_S, ssap := llc.sap.laddr.lsap,
        dsap := llc.daddr.lsap, cr := LLC_PDU_RSP, body := pdu_init.rr_rsp f_bit llc.vR,
        sa := llc.dev.dev_addr, da := llc.daddr.mac }
    (0, llc_conn_send_pdu sk nskb)
  else
    (1, sk)

/-- Action `llc_conn_ac_send_ack_if_needed`; the C remainder `%` on `int` is `Int.tmod`.
`alloc` is the outcome of the frame allocation, should the call reach it. -/
def llc_conn_ac_send_ack_if_needed (alloc : Bool) (sk : sock) (skb : sk_buff) : Nat × sock :=
  let pf_bit := llc_pdu_decode_pf_bit skb.pdu
  let llc := sk.llc
  let llc1 := { llc with ack_pf := llc.ack_pf ||| (pf_bit &&& 1) }
  let llc2 :=
    if llc1.ack_must_be_send = 0 then
      { llc1 with first_pdu_Ns := llc1.vR, ack_must_be_send := 1, ack_pf := pf_bit &&& 1 }
    else llc1
  if Int.tmod ((llc2.vR : Int) - (llc2.first_pdu_Ns : Int) + 129) 128 ≥ (llc2.npta : Int) then
    let sk3 := (llc_conn_ac_send_rr_rsp_f_set_ackpf alloc { sk with llc := llc2 }).2
    let llc4 := { sk3.llc with ack_must_be_send := 0, ack_pf := 0 }
    (0, { sk3 with llc := (llc_conn_ac_inc_npta_value llc4).2 })
  else
    (0, { sk with llc := llc2 })

/-- One inbound I-PDU as the receive path processes it: `llc_conn_ac_inc_vr_by_1`
followed by `llc_conn_ac_send_ack_if_needed`. -/
def rx_i_pdu (alloc : Bool) (sk : sock) (skb : sk_buff) : sock :=
  (llc_conn_ac_send_ack_if_needed alloc (llc_conn_ac_inc_vr_by_1 sk).2 skb).2

/-- A run of inbound I-PDUs, each processed by `rx_i_pdu`, oldest first. -/
def rx_i_pdus (alloc : Bool) (sk : sock) (skbs : List sk_buff) : sock :=
  skbs.foldl (rx_i_pdu alloc) sk

/-! ## Acknowledgment progress -/

/-- Action `llc_conn_ac_data_confirm`: marks the event as carrying a data confirm. -/
def llc_conn_ac_data_confirm (skb : sk_buff) : Nat × sk_buff :=
  (0, { skb with ev := { skb.ev with flag := LLC_DATA_PRIM + 1, cfm_prim := prim_ptr.one } })

/-- Action `llc_conn_ac_upd_nr_received`; `jiffies` and `HZ` are the kernel clock and
its rate at the time of the call, `bits` the width of `unsigned long`. -/
def llc_conn_ac_upd_nr_received (bits jiffies HZ : Nat) (sk : sock) (skb : sk_buff) :
    Nat × sock × sk_buff :=
  let pdu := skb.pdu
  let llc0 := { sk.llc with last_nr := PDU_SUPV_GET_Nr pdu }
  let r := llc_conn_remove_acked_pdus llc0 llc0.last_nr
  let acked := r.1
  let unacked := r.2.1
  let llc := r.2.2
  if acked > 0 ∨ (llc.dev.flags &&& IFF_LOOPBACK) ≠ 0 then
    let llc1 : llc_opt := { llc with retry_count := 0 }
    let llc2 : llc_opt := { llc1 with
      ack_timer := { llc1.ack_timer with timer := del_timer llc1.ack_timer.timer, running := 0 } }
    let p : llc_opt × sk_buff :=
      if llc2.failed_data_req ≠ 0 then
        ({ llc2 with failed_data_req := 0 }, (llc_conn_ac_data_confirm skb).2)
      else (llc2, skb)
    let llc3 : llc_opt := p.1
    let llc4 : llc_opt :=
      if unacked ≠ 0 then
        { llc3 with ack_timer := { llc3.ack_timer with
            timer := add_timer { llc3.ack_timer.timer with
              expires := to_ulong bits (jiffies + llc3.ack_timer.expire * HZ),
              function := timer_fn.llc_conn_ack_tmr_cb },
            running := 1 } }
      else llc3
    (0, { sk with llc := llc4 }, p.2)
  else if llc.failed_data_req ≠ 0 then
    let fbit := llc_pdu_decode_pf_bit skb.pdu
    if fbit = 1 then
      (0, { sk with llc := { llc with failed_data_req := 0 } }, (llc_conn_ac_data_confirm skb).2)
    else
      (0, { sk with llc := llc }, skb)
  else
    (0, { sk with llc := llc }, skb)

/-! ## Indications -/

/-- The tail shared by the indication actions: fill the indication primitive of
the SAP and attach it to the event. -/
def attach_ind_prim (sk : sock) (skb : sk_buff) (prim : Nat) (data : llc_u_prim_data) :
    sock × sk_buff :=
  let llc := sk.llc
  let sap := llc.sap
  let blk : llc_prim_if_block := { sap.llc_ind_prim with data := data, prim := prim }
  ({ sk with llc := { llc with sap := { sap with llc_ind_prim := blk } } },
   { skb with ev := { skb.ev with flag := 1, ind_prim := prim_ptr.llc_ind_prim } })

/-- Action `llc_conn_ac_disc_ind`. -/
def llc_conn_ac_disc_ind (sk : sock) (skb : sk_buff) : Nat × sock × sk_buff :=
  let ev := skb.ev
  let pdu := skb.pdu
  let p : Nat × Nat :=
    if ev.type = LLC_CONN_EV_TYPE_PDU then
      if LLC_PDU_IS_RSP pdu = 0 ∧ LLC_PDU_TYPE_IS_U pdu = 0 ∧
          LLC_U_PDU_RSP pdu = LLC_2_PDU_RSP_DM then
        (LLC_DISC_REASON_RX_DM_RSP_PDU, 0)
      else if LLC_PDU_IS_CMD pdu = 0 ∧ LLC_PDU_TYPE_IS_U pdu = 0 ∧
          LLC_U_PDU_CMD pdu = LLC_2_PDU_CMD_DISC then
        (LLC_DISC_REASON_RX_DISC_CMD_PDU, 0)
      else (0, 1)
    else if ev.type = LLC_CONN_EV_TYPE_ACK_TMR then
      (LLC_DISC_REASON_ACK_TMR_EXP, 0)
    else (0, 1)
  let reason := p.1
  let rc := p.2
  if rc = 0 then
    let q := attach_ind_prim sk skb LLC_DISC_PRIM (llc_u_prim_data.disc reason sk.llc.link)
    (rc, q.1, q.2)
  else
    (rc, sk, skb)

/-- Action `llc_conn_ac_rst_ind`; the `switch` on `ev->type` has no default, so any
other type keeps `rc = 1`. -/
def llc_conn_ac_rst_ind (sk : sock) (skb : sk_buff) : Nat × sock × sk_buff :=
  let ev := skb.ev
  let pdu := skb.pdu
  let llc := sk.llc
  let p : Nat × Nat :=
    if ev.type = LLC_CONN_EV_TYPE_PDU then
      if LLC_PDU_IS_RSP pdu = 0 ∧ LLC_PDU_TYPE_IS_U pdu = 0 ∧
          LLC_U_PDU_RSP pdu = LLC_2_PDU_RSP_FRMR then
        (LLC_RESET_REASON_LOCAL, 0)
      else if LLC_PDU_IS_CMD pdu = 0 ∧ LLC_PDU_TYPE_IS_U pdu = 0 ∧
          LLC_U_PDU_CMD pdu = LLC_2_PDU_CMD_SABME then
        (LLC_RESET_REASON_REMOTE, 0)
      else (0, 1)
    else if ev.type = LLC_CONN_EV_TYPE_ACK_TMR ∨ ev.type = LLC_CONN_EV_TYPE_P_TMR ∨
        ev.type = LLC_CONN_EV_TYPE_REJ_TMR ∨ ev.type = LLC_CONN_EV_TYPE_BUSY_TMR then
      if llc.retry_count > llc.n2 then (LLC_RESET_REASON_LOCAL, 0) else (0, 1)
    else (0, 1)
  let reason := p.1
  let rc := p.2
  if rc = 0 then
    let q := attach_ind_prim sk skb LLC_RESET_PRIM (llc_u_prim_data.res reason llc.link)
    (rc, q.1, q.2)
  else
    (rc, sk, skb)

/-! ## Acknowledgment batch as seen inside one call -/

/-- The batch start after the batch-opening step of one
`llc_conn_ac_send_ack_if_needed` call: the current `vR` when no batch was open,
the recorded `first_pdu_Ns` otherwise. -/
def batch_first (llc : llc_opt) : Nat :=
  if llc.ack_must_be_send = 0 then llc.vR else llc.first_pdu_Ns

/-- The accumulated P bit after the batch-opening step of one
`llc_conn_ac_send_ack_if_needed` call. -/
def batch_ack_pf (llc : llc_opt) (skb : sk_buff) : Nat :=
  if llc.ack_must_be_send = 0 then llc_pdu_decode_pf_bit skb.pdu &&& 1
  else llc.ack_pf ||| (llc_pdu_decode_pf_bit skb.pdu &&& 1)

/-- The RR response that flushes a batch: S-format, response role, the given
F bit and N(R) = `vR`. -/
def rr_rsp_frame (llc : llc_opt) (f_bit : Nat) : frame :=
  { dev := llc.dev, hdr_type := LLC_PDU_TYPE_S, ssap := llc.sap.laddr.lsap,
    dsap := llc.daddr.lsap, cr := LLC_PDU_RSP, body := pdu_init.rr_rsp f_bit llc.vR,
    sa := llc.dev.dev_addr, da := llc.daddr.mac }

/-- An action result carries an indication primitive `prim` with payload
`data`: the action returned 0, the event is flagged and points to the
indication record of the SAP, and that record holds `prim` and `data`. -/
def carries_ind (r : Nat × sock × sk_buff) (prim : Nat) (data : llc_u_prim_data) : Prop :=
  r.1 = 0 ∧ r.2.2.ev.flag = 1 ∧ r.2.2.ev.ind_prim = prim_ptr.llc_ind_prim ∧
  r.2.1.llc.sap.llc_ind_prim.prim = prim ∧ r.2.1.llc.sap.llc_ind_prim.data = data

/-- The event is an inbound PDU whose frame is a U-format response with the
given code. -/
def is_u_rsp_event (skb : sk_buff) (code : Nat) : Prop :=
  skb.ev.type = LLC_CONN_EV_TYPE_PDU ∧ pdu_is_rsp skb.pdu = true ∧ pdu_is_u skb.pdu = true ∧
  skb.pdu.ctrl_1 &&& LLC_U_PDU_CMD_MASK = code

/-- The event is an inbound PDU whose frame is a U-format command with the
given code. -/
def is_u_cmd_event (skb : sk_buff) (code : Nat) : Prop :=
  skb.ev.type = LLC_CONN_EV_TYPE_PDU ∧ pdu_is_rsp skb.pdu = false ∧ pdu_is_u skb.pdu = true ∧
  skb.pdu.ctrl_1 &&& LLC_U_PDU_CMD_MASK = code

/-- The event is the expiry of one of the four connection timers. -/
def is_tmr_event (skb : sk_buff) : Prop :=
  skb.ev.type = LLC_CONN_EV_TYPE_ACK_TMR ∨ skb.ev.type = LLC_CONN_EV_TYPE_P_TMR ∨
  skb.ev.type = LLC_CONN_EV_TYPE_REJ_TMR ∨ skb.ev.type = LLC_CONN_EV_TYPE_BUSY_TMR

/-! ## Runs of calls -/

/-- A call of one of the two transmit-window actions; `dec` carries the
unacknowledged queue found at the time of the call. -/
inductive tx_win_call where
  | dec (pdu_unack_q : List Nat)
  | inc
  deriving DecidableEq, Repr

/-- One transmit-window call applied to the control block. -/
def tx_win_step (llc : llc_opt) : tx_win_call → llc_opt
  | tx_win_call.dec q => (llc_conn_ac_dec_tx_win_size { llc with pdu_unack_q := q }).2
  | tx_win_call.inc => (llc_conn_ac_inc_tx_win_size llc).2

/-- A finite sequence of transmit-window calls, applied left to right. -/
def tx_win_run (llc : llc_opt) (cs : List tx_win_call) : llc_opt := cs.foldl tx_win_step llc

/-- A call of one of the three threshold-adaptation actions. -/
inductive npta_call where
  | inc_npta_value
  | adjust_npta_by_rr
  | adjust_npta_by_rnr
  deriving DecidableEq, Repr

/-- One adaptation call applied to the control block. -/
def npta_step (llc : llc_opt) : npta_call → llc_opt
  | npta_call.inc_npta_value => (llc_conn_ac_inc_npta_value llc).2
  | npta_call.adjust_npta_by_rr => (llc_conn_ac_adjust_npta_by_rr llc).2
  | npta_call.adjust_npta_by_rnr => (llc_conn_ac_adjust_npta_by_rnr llc).2

/-- A finite sequence of adaptation calls, applied left to right. -/
def npta_run (llc : llc_opt) (cs : List npta_call) : llc_opt := cs.foldl npta_step llc

/-! ## The rest of the action library -/

/-- The constant `INCORRECT` of llc_c_ac.c, the reason value every FRMR action
passes to `llc_pdu_init_as_frmr_rsp`. -/
def INCORRECT : Nat := 0

/-- Modelled from the spec: primitive code of CONNECT (net/llc_sap.h is not among the sources). -/
def LLC_CONN_PRIM : Nat := 1

/-- Modelled from the spec: the terminal connection state "out of service"
(net/llc_c_st.h is not among the sources). -/
def LLC_CONN_OUT_OF_SVC : Nat := 0

/-- Modelled from the spec: the backlog tag of a queued event
(net/llc_conn.h is not among the sources). -/
def LLC_EVENT : Nat := 1

/-- Modelled from the spec: a frame is I-format when bit 0 of its first control
byte is 0. -/
def pdu_is_i (pdu : llc_pdu_sn) : Bool := pdu.ctrl_1 &&& 1 == 0

/-- Modelled from the spec: the macro `LLC_PDU_TYPE_IS_I` of net/llc_pdu.h:
0 for an I-format frame, 1 otherwise. -/
def LLC_PDU_TYPE_IS_I (pdu : llc_pdu_sn) : Nat := if pdu_is_i pdu then 0 else 1

/-- Modelled from the spec: the macro `LLC_I_PF_IS_1` of net/llc_pdu.h:
0 when the P/F bit of an I-format frame (bit 0 of the second control byte) is
set, 1 otherwise. -/
def LLC_I_PF_IS_1 (pdu : llc_pdu_sn) : Nat := if pdu.ctrl_2 &&& 1 != 0 then 0 else 1

/-- Modelled from the spec: the macro `LLC_I_GET_NR`, N(R) in bits 1-7 of the
second control byte. -/
def LLC_I_GET_NR (pdu : llc_pdu_sn) : Nat := (pdu.ctrl_2 &&& 0xFE) >>> 1

/-- What an action call finds outside the connection: whether
`llc_alloc_frame()` yields a frame, the width of `unsigned long` on the machine,
the kernel clock `jiffies` and its rate `HZ`, whether `llc_sap_find` finds the
SAP of the frame, and the station addresses `llc_pdu_decode_sa` and
`llc_pdu_decode_da` read from the frame. -/
structure kenv where
  alloc : Bool := true
  BITS_PER_LONG : Nat := 64
  jiffies : Nat := 0
  HZ : Nat := 100
  sap_found : Bool := true
  decode_sa : Nat := 0
  decode_da : Nat := 0
  deriving DecidableEq, Repr

/-- A call into code outside llc_c_ac.c whose effect on the connection is not
part of the action: the resend of the unacknowledged queue (as commands or as
responses, from `nr`, with the given first P/F bit), the delivery of a received
PDU to the user, the release of an event, the hand-over of an event to the
state machine, and the connection reset. -/
inductive ext_call where
  | llc_conn_resend_i_pdu_as_cmd (nr first_p_bit : Nat)
  | llc_conn_resend_i_pdu_as_rsp (nr first_f_bit : Nat)
  | llc_conn_rtn_pdu (skb : sk_buff)
  | llc_conn_free_ev (skb : sk_buff)
  | llc_conn_state_process (skb : sk_buff)
  | llc_sk_reset
  deriving DecidableEq, Repr

/-- The frame an S- or U-format send action builds: `nskb->dev = llc->dev`,
`llc_pdu_header_init(nskb, type, sap->laddr.lsap, llc->daddr.lsap, cr)`, the
`llc_pdu_init_as_*` call and `lan_hdrs_init(nskb, llc->dev->dev_addr,
llc->daddr.mac)`. -/
def mk_frame (llc : llc_opt) (type cr : Nat) (body : pdu_init) : frame :=
  { dev := llc.dev, hdr_type := type, ssap := llc.sap.laddr.lsap, dsap := llc.daddr.lsap,
    cr := cr, body := body, sa := llc.dev.dev_addr, da := llc.daddr.mac }

/-- The frame an I-format send action makes of the event skb:
`llc_pdu_header_init(skb, LLC_PDU_TYPE_I, ...)`, `llc_pdu_init_as_i_cmd(skb,
p_bit, llc->vS, llc->vR)` and `lan_hdrs_init`; the skb keeps its own device. -/
def mk_i_frame (llc : llc_opt) (skb : sk_buff) (cr p_bit : Nat) : frame :=
  { dev := skb.dev, hdr_type := LLC_PDU_TYPE_I, ssap := llc.sap.laddr.lsap,
    dsap := llc.daddr.lsap, cr := cr, body := pdu_init.i_cmd p_bit llc.vS llc.vR,
    sa := llc.dev.dev_addr, da := llc.daddr.mac }

/-! ### Timer back end -/

/-- Function `llc_process_tmr_ev`: the connection after the call and the calls
made to `llc_conn_free_ev` and `llc_conn_state_process`; `sk_add_backlog`
appends the event at the tail of the backlog queue. -/
def llc_process_tmr_ev (sk : sock) (skb : sk_buff) : sock × List ext_call :=
  if sk.llc.state = LLC_CONN_OUT_OF_SVC then
    (sk, [ext_call.llc_conn_free_ev skb])
  else
    if sk.lock_users = 0 then
      (sk, [ext_call.llc_conn_state_process skb])
    else
      ({ sk with backlog := sk.backlog ++ [{ skb with backlog_type := LLC_EVENT }] }, [])

/-! ### Flags and counters -/

/-- Action `llc_conn_ac_set_s_flag_0`. -/
def llc_conn_ac_set_s_flag_0 (llc : llc_opt) : Nat × llc_opt := (0, { llc with s_flag := 0 })

/-- Action `llc_conn_ac_set_s_flag_1`. -/
def llc_conn_ac_set_s_flag_1 (llc : llc_opt) : Nat × llc_opt := (0, { llc with s_flag := 1 })

/-- Action `llc_conn_ac_rst_sendack_flag`. -/
def llc_conn_ac_rst_sendack_flag (llc : llc_opt) : Nat × llc_opt :=
  (0, { llc with ack_pf := 0, ack_must_be_send := 0 })

/-- Action `llc_conn_ac_set_data_flag_2`. -/
def llc_conn_ac_set_data_flag_2 (llc : llc_opt) : Nat × llc_opt := (0, { llc with data_flag := 2 })

/-- Action `llc_conn_ac_set_data_flag_0`. -/
def llc_conn_ac_set_data_flag_0 (llc : llc_opt) : Nat × llc_opt := (0, { llc with data_flag := 0 })

/-- Action `llc_conn_ac_set_data_flag_1`. -/
def llc_conn_ac_set_data_flag_1 (llc : llc_opt) : Nat × llc_opt := (0, { llc with data_flag := 1 })

/-- Action `llc_conn_ac_set_data_flag_1_if_data_flag_eq_0`. -/
def llc_conn_ac_set_data_flag_1_if_data_flag_eq_0 (llc : llc_opt) : Nat × llc_opt :=
  if llc.data_flag = 0 then (0, { llc with data_flag := 1 }) else (0, llc)

/-- Action `llc_conn_ac_set_p_flag_0`. -/
def llc_conn_ac_set_p_flag_0 (llc : llc_opt) : Nat × llc_opt := (0, { llc with p_flag := 0 })

/-- Action `llc_conn_ac_set_p_flag_1`. -/
def llc_conn_ac_set_p_flag_1 (llc : llc_opt) : Nat × llc_opt := (0, { llc with p_flag := 1 })

/-- Action `llc_conn_ac_set_remote_busy_0`. -/
def llc_conn_ac_set_remote_busy_0 (llc : llc_opt) : Nat × llc_opt :=
  (0, { llc with remote_busy_flag := 0 })

/-- Action `llc_conn_ac_set_cause_flag_0`. -/
def llc_conn_ac_set_cause_flag_0 (llc : llc_opt) : Nat × llc_opt := (0, { llc with cause_flag := 0 })

/-- Action `llc_conn_ac_set_cause_flag_1`. -/
def llc_conn_ac_set_cause_flag_1 (llc : llc_opt) : Nat × llc_opt := (0, { llc with cause_flag := 1 })

/-- Action `llc_conn_ac_set_retry_cnt_0`. -/
def llc_conn_ac_set_retry_cnt_0 (llc : llc_opt) : Nat × llc_opt := (0, { llc with retry_count := 0 })

/-- Action `llc_conn_ac_inc_retry_cnt_by_1`. -/
def llc_conn_ac_inc_retry_cnt_by_1 (llc : llc_opt) : Nat × llc_opt :=
  (0, { llc with retry_count := to_u8 ((llc.retry_count : Int) + 1) })

/-- Action `llc_conn_ac_set_vr_0`. -/
def llc_conn_ac_set_vr_0 (llc : llc_opt) : Nat × llc_opt := (0, { llc with vR := 0 })

/-- Action `llc_conn_ac_set_vs_0`. -/
def llc_conn_ac_set_vs_0 (llc : llc_opt) : Nat × llc_opt := (0, { llc with vS := 0 })

/-- Action `llc_conn_ac_set_vs_nr`. -/
def llc_conn_ac_set_vs_nr (llc : llc_opt) : Nat × llc_opt := (0, { llc with vS := llc.last_nr })

/-- Action `llc_conn_ac_inc_vs_by_1`: `vS = (vS + 1) % 128`, stored into the
8-bit field. -/
def llc_conn_ac_inc_vs_by_1 (llc : llc_opt) : Nat × llc_opt :=
  (0, { llc with vS := to_u8 (Int.tmod ((llc.vS : Int) + 1) 128) })

/-- Action `llc_conn_ac_set_f_flag_p`. -/
def llc_conn_ac_set_f_flag_p (llc : llc_opt) (skb : sk_buff) : Nat × llc_opt :=
  (0, { llc with f_flag := llc_pdu_decode_pf_bit skb.pdu })

/-- Action `llc_conn_ac_rst_vs`. -/
def llc_conn_ac_rst_vs (llc : llc_opt) : Nat × llc_opt :=
  (0, (llc_conn_ac_set_vs_nr { llc with X := llc.vS }).2)

/-- Action `llc_conn_ac_upd_vs`. -/
def llc_conn_ac_upd_vs (llc : llc_opt) (skb : sk_buff) : Nat × llc_opt :=
  let nr := PDU_SUPV_GET_Nr skb.pdu
  if llc_circular_between llc.vS nr llc.X ≠ 0 then (0, (llc_conn_ac_set_vs_nr llc).2)
  else (0, llc)

/-- Action `llc_conn_ac_report_status`. -/
def llc_conn_ac_report_status (llc : llc_opt) : Nat × llc_opt := (0, llc)

/-- Action `llc_conn_disc`. -/
def llc_conn_disc (llc : llc_opt) : Nat × llc_opt := (0, llc)

/-- Action `llc_conn_reset`: the reset itself is `llc_sk_reset`, outside this file. -/
def llc_conn_reset (sk : sock) : Nat × sock × List ext_call := (0, sk, [ext_call.llc_sk_reset])

/-! ### Timers -/

/-- The statements that arm a connection timer: set `expires`, `data` and
`function`, call `add_timer` and set `running`.  The sum `jiffies + expire * HZ`
is stored in the `unsigned long` member `expires`, `bits` bits wide. -/
def arm_timer (t : llc_timer) (bits jiffies HZ : Nat) (fn : timer_fn) : llc_timer :=
  { t with
    timer := add_timer { t.timer with
      expires := to_ulong bits (jiffies + t.expire * HZ), function := fn },
    running := 1 }

/-- The statements that stop a connection timer: `del_timer` and `running = 0`. -/
def stop_timer (t : llc_timer) : llc_timer :=
  { t with timer := del_timer t.timer, running := 0 }

/-- Action `llc_conn_ac_start_p_timer`. -/
def llc_conn_ac_start_p_timer (bits jiffies HZ : Nat) (llc : llc_opt) : Nat × llc_opt :=
  let llc1 : llc_opt := { llc with p_flag := 1 }
  let t : llc_timer := { llc1.pf_cycle_timer with timer := del_timer llc1.pf_cycle_timer.timer }
  (0, { llc1 with pf_cycle_timer := arm_timer t bits jiffies HZ timer_fn.llc_conn_pf_cycle_tmr_cb })

/-- Action `llc_conn_ac_stop_all_timers`. -/
def llc_conn_ac_stop_all_timers (llc : llc_opt) : Nat × llc_opt :=
  (0, { llc with
    pf_cycle_timer := stop_timer llc.pf_cycle_timer,
    ack_timer := stop_timer llc.ack_timer,
    rej_sent_timer := stop_timer llc.rej_sent_timer,
    busy_state_timer := stop_timer llc.busy_state_timer,
    ack_must_be_send := 0,
    ack_pf := 0 })

/-- Action `llc_conn_ac_stop_other_timers`. -/
def llc_conn_ac_stop_other_timers (llc : llc_opt) : Nat × llc_opt :=
  (0, { llc with
    rej_sent_timer := stop_timer llc.rej_sent_timer,
    pf_cycle_timer := stop_timer llc.pf_cycle_timer,
    busy_state_timer := stop_timer llc.busy_state_timer,
    ack_must_be_send := 0,
    ack_pf := 0 })

/-- Action `llc_conn_ac_start_ack_timer`. -/
def llc_conn_ac_start_ack_timer (bits jiffies HZ : Nat) (llc : llc_opt) : Nat × llc_opt :=
  let t : llc_timer := { llc.ack_timer with timer := del_timer llc.ack_timer.timer }
  (0, { llc with ack_timer := arm_timer t bits jiffies HZ timer_fn.llc_conn_ack_tmr_cb })

/-- Action `llc_conn_ac_start_rej_timer`. -/
def llc_conn_ac_start_rej_timer (bits jiffies HZ : Nat) (llc : llc_opt) : Nat × llc_opt :=
  let t : llc_timer := { llc.rej_sent_timer with timer := del_timer llc.rej_sent_timer.timer }
  (0, { llc with rej_sent_timer := arm_timer t bits jiffies HZ timer_fn.llc_conn_rej_tmr_cb })

/-- Action `llc_conn_ac_start_ack_tmr_if_not_running`: no `del_timer` before the
timer is armed. -/
def llc_conn_ac_start_ack_tmr_if_not_running (bits jiffies HZ : Nat) (llc : llc_opt) :
    Nat × llc_opt :=
  if llc.ack_timer.running = 0 then
    (0, { llc with ack_timer := arm_timer llc.ack_timer bits jiffies HZ timer_fn.llc_conn_ack_tmr_cb })
  else (0, llc)

/-- Action `llc_conn_ac_stop_ack_timer`. -/
def llc_conn_ac_stop_ack_timer (llc : llc_opt) : Nat × llc_opt :=
  (0, { llc with ack_timer := stop_timer llc.ack_timer })

/-- Action `llc_conn_ac_stop_p_timer`. -/
def llc_conn_ac_stop_p_timer (llc : llc_opt) : Nat × llc_opt :=
  (0, { llc with pf_cycle_timer := stop_timer llc.pf_cycle_timer, p_flag := 0 })

/-- Action `llc_conn_ac_stop_rej_timer`. -/
def llc_conn_ac_stop_rej_timer (llc : llc_opt) : Nat × llc_opt :=
  (0, { llc with rej_sent_timer := stop_timer llc.rej_sent_timer })

/-- Action `llc_conn_ac_stop_rej_tmr_if_data_flag_eq_2`. -/
def llc_conn_ac_stop_rej_tmr_if_data_flag_eq_2 (llc : llc_opt) : Nat × llc_opt :=
  if llc.data_flag = 2 then (0, { llc with rej_sent_timer := stop_timer llc.rej_sent_timer })
  else (0, llc)

/-- Action `llc_conn_ac_set_remote_busy`: no `del_timer` before the busy timer
is armed. -/
def llc_conn_ac_set_remote_busy (bits jiffies HZ : Nat) (llc : llc_opt) : Nat × llc_opt :=
  if llc.remote_busy_flag = 0 then
    let llc1 : llc_opt := { llc with remote_busy_flag := 1 }
    let t : llc_timer := arm_timer llc1.busy_state_timer bits jiffies HZ timer_fn.llc_conn_busy_tmr_cb
    (0, { llc1 with busy_state_timer := t })
  else (0, llc)

/-- Action `llc_conn_ac_clear_remote_busy`; the resend of the unacknowledged
queue is a call out of the file. -/
def llc_conn_ac_clear_remote_busy (llc : llc_opt) (skb : sk_buff) :
    Nat × llc_opt × List ext_call :=
  if llc.remote_busy_flag ≠ 0 then
    let llc1 : llc_opt := { llc with remote_busy_flag := 0 }
    let llc2 : llc_opt := { llc1 with busy_state_timer := stop_timer llc1.busy_state_timer }
    let nr := LLC_I_GET_NR skb.pdu
    (0, llc2, [ext_call.llc_conn_resend_i_pdu_as_cmd nr 0])
  else (0, llc, [])

/-- Action `llc_conn_ac_clear_remote_busy_if_f_eq_1`. -/
def llc_conn_ac_clear_remote_busy_if_f_eq_1 (llc : llc_opt) (skb : sk_buff) :
    Nat × llc_opt × List ext_call :=
  let pdu := skb.pdu
  if LLC_PDU_IS_RSP pdu = 0 ∧ LLC_PDU_TYPE_IS_I pdu = 0 ∧ LLC_I_PF_IS_1 pdu = 0 ∧
      llc.ack_pf ≠ 0 then
    let r := llc_conn_ac_clear_remote_busy llc skb
    (0, r.2.1, r.2.2)
  else (0, llc, [])

/-- Action `llc_conn_ac_upd_p_flag`. -/
def llc_conn_ac_upd_p_flag (llc : llc_opt) (skb : sk_buff) : Nat × llc_opt :=
  let pdu := skb.pdu
  if LLC_PDU_IS_RSP pdu = 0 then
    let f_bit := llc_pdu_decode_pf_bit skb.pdu
    if f_bit ≠ 0 then
      (0, (llc_conn_ac_stop_p_timer { llc with p_flag := 0 }).2)
    else (0, llc)
  else (0, llc)

/-! ### Indications and confirmations -/

/-- The tail shared by the confirmation actions: fill the confirmation primitive
of the SAP and attach it to the event. -/
def attach_cfm_prim (sk : sock) (skb : sk_buff) (prim : Nat) (data : llc_u_prim_data) :
    sock × sk_buff :=
  let llc := sk.llc
  let sap := llc.sap
  let blk : llc_prim_if_block := { sap.llc_cfm_prim with data := data, prim := prim }
  ({ sk with llc := { llc with sap := { sap with llc_cfm_prim := blk } } },
   { skb with ev := { skb.ev with flag := 1, cfm_prim := prim_ptr.llc_cfm_prim } })

/-- Action `llc_conn_ac_conn_ind`; `sap_found` is the outcome of `llc_sap_find`,
`sa` and `da` are the station addresses decoded from the frame. -/
def llc_conn_ac_conn_ind (sap_found : Bool) (sa da : Nat) (sk : sock) (skb : sk_buff) :
    Nat × sock × sk_buff :=
  if sap_found then
    let llc := sk.llc
    let llc1 : llc_opt := { llc with daddr := { llc.daddr with mac := sa } }
    let llc2 : llc_opt := { llc1 with laddr := { llc1.laddr with mac := da } }
    let llc3 : llc_opt := { llc2 with dev := skb.dev }
    (0, { sk with llc := llc3 },
      { skb with ev := { skb.ev with flag := LLC_CONN_PRIM + 1, ind_prim := prim_ptr.one } })
  else (1, sk, skb)

/-- Action `llc_conn_ac_conn_confirm`. -/
def llc_conn_ac_conn_confirm (sk : sock) (skb : sk_buff) : Nat × sock × sk_buff :=
  let q := attach_cfm_prim sk skb LLC_CONN_PRIM
    (llc_u_prim_data.conn 0 skb.ev.status sk.llc.link skb.dev)
  (0, q.1, q.2)

/-- Action `llc_conn_ac_data_ind`; the delivery is `llc_conn_rtn_pdu`, outside this file. -/
def llc_conn_ac_data_ind (sk : sock) (skb : sk_buff) : Nat × sock × List ext_call :=
  (0, sk, [ext_call.llc_conn_rtn_pdu skb])

/-- Action `llc_conn_ac_disc_confirm`. -/
def llc_conn_ac_disc_confirm (sk : sock) (skb : sk_buff) : Nat × sock × sk_buff :=
  let q := attach_cfm_prim sk skb LLC_DISC_PRIM
    (llc_u_prim_data.disc skb.ev.status sk.llc.link)
  (0, q.1, q.2)

/-- The reason member a primitive record already holds; the disconnect and
reset payloads share their layout. -/
def held_reason : llc_u_prim_data → Nat
  | llc_u_prim_data.disc reason _ => reason
  | llc_u_prim_data.res reason _ => reason
  | _ => 0

/-- Action `llc_conn_ac_rst_confirm`: the reason member is not written and
keeps what the record held. -/
def llc_conn_ac_rst_confirm (sk : sock) (skb : sk_buff) : Nat × sock × sk_buff :=
  let q := attach_cfm_prim sk skb LLC_RESET_PRIM
    (llc_u_prim_data.res (held_reason sk.llc.sap.llc_cfm_prim.data) sk.llc.link)
  (0, q.1, q.2)

/-! ### Unnumbered frames -/

/-- Action `llc_conn_ac_send_disc_cmd_p_set_x`: `llc_conn_ac_set_p_flag_1` runs
whether or not the frame was allocated. -/
def llc_conn_ac_send_disc_cmd_p_set_x (alloc : Bool) (sk : sock) : Nat × sock :=
  let r : Nat × sock :=
    if alloc then
      let p_bit := 1
      (0, llc_conn_send_pdu sk
        (mk_frame sk.llc LLC_PDU_TYPE_U LLC_PDU_CMD (pdu_init.disc_cmd p_bit)))
    else (1, sk)
  (r.1, { r.2 with llc := (llc_conn_ac_set_p_flag_1 r.2.llc).2 })

/-- Action `llc_conn_ac_send_dm_rsp_f_set_p`. -/
def llc_conn_ac_send_dm_rsp_f_set_p (alloc : Bool) (sk : sock) (skb : sk_buff) : Nat × sock :=
  if alloc then
    let f_bit := llc_pdu_decode_pf_bit skb.pdu
    (0, llc_conn_send_pdu sk (mk_frame sk.llc LLC_PDU_TYPE_U LLC_PDU_RSP (pdu_init.dm_rsp f_bit)))
  else (1, sk)

/-- Action `llc_conn_ac_send_dm_rsp_f_set_1`. -/
def llc_conn_ac_send_dm_rsp_f_set_1 (alloc : Bool) (sk : sock) : Nat × sock :=
  if alloc then
    let f_bit := 1
    (0, llc_conn_send_pdu sk (mk_frame sk.llc LLC_PDU_TYPE_U LLC_PDU_RSP (pdu_init.dm_rsp f_bit)))
  else (1, sk)

/-- Action `llc_conn_ac_send_dm_rsp_f_set_f_flag`. -/
def llc_conn_ac_send_dm_rsp_f_set_f_flag (alloc : Bool) (sk : sock) : Nat × sock :=
  if alloc then
    let f_bit := sk.llc.f_flag
    (0, llc_conn_send_pdu sk (mk_frame sk.llc LLC_PDU_TYPE_U LLC_PDU_RSP (pdu_init.dm_rsp f_bit)))
  else (1, sk)

/-- Action `llc_conn_ac_send_frmr_rsp_f_set_x`: the header of the rejected PDU
is saved before the frame is allocated. -/
def llc_conn_ac_send_frmr_rsp_f_set_x (alloc : Bool) (sk : sock) (skb : sk_buff) : Nat × sock :=
  let pdu := skb.pdu
  let llc : llc_opt := { sk.llc with rx_pdu_hdr := pdu }
  let f_bit := if LLC_PDU_IS_CMD pdu = 0 then llc_pdu_decode_pf_bit skb.pdu else 0
  let sk1 : sock := { sk with llc := llc }
  if alloc then
    (0, llc_conn_send_pdu sk1
      (mk_frame llc LLC_PDU_TYPE_U LLC_PDU_RSP (pdu_init.frmr_rsp pdu f_bit llc.vS llc.vR INCORRECT)))
  else (1, sk1)

/-- Action `llc_conn_ac_resend_frmr_rsp_f_set_0`: the rejected header is the one
saved in `rx_pdu_hdr`. -/
def llc_conn_ac_resend_frmr_rsp_f_set_0 (alloc : Bool) (sk : sock) : Nat × sock :=
  if alloc then
    let f_bit := 0
    let llc := sk.llc
    let pdu := llc.rx_pdu_hdr
    (0, llc_conn_send_pdu sk
      (mk_frame llc LLC_PDU_TYPE_U LLC_PDU_RSP (pdu_init.frmr_rsp pdu f_bit llc.vS llc.vR INCORRECT)))
  else (1, sk)

/-- Action `llc_conn_ac_resend_frmr_rsp_f_set_p`: the rejected header is the
header of the event. -/
def llc_conn_ac_resend_frmr_rsp_f_set_p (alloc : Bool) (sk : sock) (skb : sk_buff) :
    Nat × sock :=
  let f_bit := llc_pdu_decode_pf_bit skb.pdu
  if alloc then
    let llc := sk.llc
    let pdu := skb.pdu
    (0, llc_conn_send_pdu sk
      (mk_frame llc LLC_PDU_TYPE_U LLC_PDU_RSP (pdu_init.frmr_rsp pdu f_bit llc.vS llc.vR INCORRECT)))
  else (1, sk)

/-- Action `llc_conn_ac_send_sabme_cmd_p_set_x`: on a loopback device the frame
goes to the device's own address; `p_flag` is set whether or not the frame was
allocated. -/
def llc_conn_ac_send_sabme_cmd_p_set_x (alloc : Bool) (sk : sock) : Nat × sock :=
  let llc := sk.llc
  let p_bit := 1
  let r : Nat × sock :=
    if alloc then
      let dmac := if llc.dev.flags &&& IFF_LOOPBACK ≠ 0 then llc.dev.dev_addr else llc.daddr.mac
      let nskb : frame :=
        { dev := llc.dev, hdr_type := LLC_PDU_TYPE_U, ssap := llc.sap.laddr.lsap,
          dsap := llc.daddr.lsap, cr := LLC_PDU_CMD, body := pdu_init.sabme_cmd p_bit,
          sa := llc.dev.dev_addr, da := dmac }
      (0, llc_conn_send_pdu sk nskb)
    else (1, sk)
  (r.1, { r.2 with llc := { r.2.llc with p_flag := p_bit } })

/-- Action `llc_conn_ac_send_ua_rsp_f_set_f_flag`. -/
def llc_conn_ac_send_ua_rsp_f_set_f_flag (alloc : Bool) (sk : sock) : Nat × sock :=
  if alloc then
    let f_bit := sk.llc.f_flag
    (0, llc_conn_send_pdu sk (mk_frame sk.llc LLC_PDU_TYPE_U LLC_PDU_RSP (pdu_init.ua_rsp f_bit)))
  else (1, sk)

/-- Action `llc_conn_ac_send_ua_rsp_f_set_p`. -/
def llc_conn_ac_send_ua_rsp_f_set_p (alloc : Bool) (sk : sock) (skb : sk_buff) : Nat × sock :=
  let f_bit := llc_pdu_decode_pf_bit skb.pdu
  if alloc then
    (0, llc_conn_send_pdu sk (mk_frame sk.llc LLC_PDU_TYPE_U LLC_PDU_RSP (pdu_init.ua_rsp f_bit)))
  else (1, sk)

/-! ### Supervisory frames -/

/-- Action `llc_conn_ac_send_rej_cmd_p_set_1`. -/
def llc_conn_ac_send_rej_cmd_p_set_1 (alloc : Bool) (sk : sock) : Nat × sock :=
  if alloc then
    let p_bit := 1
    (0, llc_conn_send_pdu sk
      (mk_frame sk.llc LLC_PDU_TYPE_S LLC_PDU_CMD (pdu_init.rej_cmd p_bit sk.llc.vR)))
  else (1, sk)

/-- Action `llc_conn_ac_send_rej_rsp_f_set_1`. -/
def llc_conn_ac_send_rej_rsp_f_set_1 (alloc : Bool) (sk : sock) : Nat × sock :=
  if alloc then
    let f_bit := 1
    (0, llc_conn_send_pdu sk
      (mk_frame sk.llc LLC_PDU_TYPE_S LLC_PDU_RSP (pdu_init.rej_rsp f_bit sk.llc.vR)))
  else (1, sk)

/-- Action `llc_conn_ac_send_rej_xxx_x_set_0`. -/
def llc_conn_ac_send_rej_xxx_x_set_0 (alloc : Bool) (sk : sock) : Nat × sock :=
  if alloc then
    let f_bit := 0
    (0, llc_conn_send_pdu sk
      (mk_frame sk.llc LLC_PDU_TYPE_S LLC_PDU_RSP (pdu_init.rej_rsp f_bit sk.llc.vR)))
  else (1, sk)

/-- Action `llc_conn_ac_send_rnr_cmd_p_set_1`. -/
def llc_conn_ac_send_rnr_cmd_p_set_1 (alloc : Bool) (sk : sock) : Nat × sock :=
  if alloc then
    let p_bit := 1
    (0, llc_conn_send_pdu sk
      (mk_frame sk.llc LLC_PDU_TYPE_S LLC_PDU_CMD (pdu_init.rnr_cmd p_bit sk.llc.vR)))
  else (1, sk)

/-- Action `llc_conn_ac_send_rnr_rsp_f_set_1`. -/
def llc_conn_ac_send_rnr_rsp_f_set_1 (alloc : Bool) (sk : sock) : Nat × sock :=
  if alloc then
    let f_bit := 1
    (0, llc_conn_send_pdu sk
      (mk_frame sk.llc LLC_PDU_TYPE_S LLC_PDU_RSP (pdu_init.rnr_rsp f_bit sk.llc.vR)))
  else (1, sk)

/-- Action `llc_conn_ac_send_rnr_xxx_x_set_0`. -/
def llc_conn_ac_send_rnr_xxx_x_set_0 (alloc : Bool) (sk : sock) : Nat × sock :=
  if alloc then
    let f_bit := 0
    (0, llc_conn_send_pdu sk
      (mk_frame sk.llc LLC_PDU_TYPE_S LLC_PDU_RSP (pdu_init.rnr_rsp f_bit sk.llc.vR)))
  else (1, sk)

/-- Action `llc_conn_ac_opt_send_rnr_xxx_x_set_0`. -/
def llc_conn_ac_opt_send_rnr_xxx_x_set_0 (alloc : Bool) (sk : sock) : Nat × sock :=
  if alloc then
    let f_bit := 0
    (0, llc_conn_send_pdu sk
      (mk_frame sk.llc LLC_PDU_TYPE_S LLC_PDU_RSP (pdu_init.rnr_rsp f_bit sk.llc.vR)))
  else (1, sk)

/-- Action `llc_conn_ac_send_rr_cmd_p_set_1`. -/
def llc_conn_ac_send_rr_cmd_p_set_1 (alloc : Bool) (sk : sock) : Nat × sock :=
  if alloc then
    let p_bit := 1
    (0, llc_conn_send_pdu sk
      (mk_frame sk.llc LLC_PDU_TYPE_S LLC_PDU_CMD (pdu_init.rr_cmd p_bit sk.llc.vR)))
  else (1, sk)

/-- Action `llc_conn_ac_send_ack_cmd_p_set_1`. -/
def llc_conn_ac_send_ack_cmd_p_set_1 (alloc : Bool) (sk : sock) : Nat × sock :=
  if alloc then
    let p_bit := 1
    (0, llc_conn_send_pdu sk
      (mk_frame sk.llc LLC_PDU_TYPE_S LLC_PDU_CMD (pdu_init.rr_cmd p_bit sk.llc.vR)))
  else (1, sk)

/-- Action `llc_conn_ac_send_rr_rsp_f_set_1`. -/
def llc_conn_ac_send_rr_rsp_f_set_1 (alloc : Bool) (sk : sock) : Nat × sock :=
  if alloc then
    let f_bit := 1
    (0, llc_conn_send_pdu sk
      (mk_frame sk.llc LLC_PDU_TYPE_S LLC_PDU_RSP (pdu_init.rr_rsp f_bit sk.llc.vR)))
  else (1, sk)

/-- Action `llc_conn_ac_send_ack_rsp_f_set_1`. -/
def llc_conn_ac_send_ack_rsp_f_set_1 (alloc : Bool) (sk : sock) : Nat × sock :=
  if alloc then
    let f_bit := 1
    (0, llc_conn_send_pdu sk
      (mk_frame sk.llc LLC_PDU_TYPE_S LLC_PDU_RSP (pdu_init.rr_rsp f_bit sk.llc.vR)))
  else (1, sk)

/-- Action `llc_conn_ac_send_rr_xxx_x_set_0`. -/
def llc_conn_ac_send_rr_xxx_x_set_0 (alloc : Bool) (sk : sock) : Nat × sock :=
  if alloc then
    let f_bit := 0
    (0, llc_conn_send_pdu sk
      (mk_frame sk.llc LLC_PDU_TYPE_S LLC_PDU_RSP (pdu_init.rr_rsp f_bit sk.llc.vR)))
  else (1, sk)

/-- Action `llc_conn_ac_send_ack_xxx_x_set_0`. -/
def llc_conn_ac_send_ack_xxx_x_set_0 (alloc : Bool) (sk : sock) : Nat × sock :=
  if alloc then
    let f_bit := 0
    (0, llc_conn_send_pdu sk
      (mk_frame sk.llc LLC_PDU_TYPE_S LLC_PDU_RSP (pdu_init.rr_rsp f_bit sk.llc.vR)))
  else (1, sk)

/-! ### Information frames -/

/-- Action `llc_conn_ac_send_i_cmd_p_set_1`: the event skb itself is sent. -/
def llc_conn_ac_send_i_cmd_p_set_1 (sk : sock) (skb : sk_buff) : Nat × sock :=
  let p_bit := 1
  let sk1 := llc_conn_send_pdu sk (mk_i_frame sk.llc skb LLC_PDU_CMD p_bit)
  (0, { sk1 with llc := (llc_conn_ac_inc_vs_by_1 sk1.llc).2 })

/-- Action `llc_conn_ac_send_i_cmd_p_set_0`. -/
def llc_conn_ac_send_i_cmd_p_set_0 (sk : sock) (skb : sk_buff) : Nat × sock :=
  let p_bit := 0
  let sk1 := llc_conn_send_pdu sk (mk_i_frame sk.llc skb LLC_PDU_CMD p_bit)
  (0, { sk1 with llc := (llc_conn_ac_inc_vs_by_1 sk1.llc).2 })

/-- Action `llc_conn_ac_send_i_xxx_x_set_0`. -/
def llc_conn_ac_send_i_xxx_x_set_0 (sk : sock) (skb : sk_buff) : Nat × sock :=
  let p_bit := 0
  let sk1 := llc_conn_send_pdu sk (mk_i_frame sk.llc skb LLC_PDU_CMD p_bit)
  (0, { sk1 with llc := (llc_conn_ac_inc_vs_by_1 sk1.llc).2 })

/-- Action `llc_conn_ac_send_i_rsp_f_set_ackpf`: response role in the header,
P/F taken from `ack_pf`. -/
def llc_conn_ac_send_i_rsp_f_set_ackpf (sk : sock) (skb : sk_buff) : Nat × sock :=
  let p_bit := sk.llc.ack_pf
  let sk1 := llc_conn_send_pdu sk (mk_i_frame sk.llc skb LLC_PDU_RSP p_bit)
  (0, { sk1 with llc := (llc_conn_ac_inc_vs_by_1 sk1.llc).2 })

/-- Action `llc_conn_ac_send_i_as_ack`. -/
def llc_conn_ac_send_i_as_ack (sk : sock) (skb : sk_buff) : Nat × sock :=
  if sk.llc.ack_must_be_send ≠ 0 then
    let sk1 := (llc_conn_ac_send_i_rsp_f_set_ackpf sk skb).2
    (0, { sk1 with llc := { sk1.llc with ack_must_be_send := 0, ack_pf := 0 } })
  else
    (0, (llc_conn_ac_send_i_cmd_p_set_0 sk skb).2)

/-- Action `llc_conn_ac_resend_i_cmd_p_set_1`. -/
def llc_conn_ac_resend_i_cmd_p_set_1 (sk : sock) (skb : sk_buff) : Nat × sock × List ext_call :=
  let nr := LLC_I_GET_NR skb.pdu
  (0, sk, [ext_call.llc_conn_resend_i_pdu_as_cmd nr 1])

/-- Action `llc_conn_ac_resend_i_cmd_p_set_1_or_send_rr`: the I-PDUs are resent
when the RR command went out. -/
def llc_conn_ac_resend_i_cmd_p_set_1_or_send_rr (alloc : Bool) (sk : sock) (skb : sk_buff) :
    Nat × sock × List ext_call :=
  let nr := LLC_I_GET_NR skb.pdu
  let r := llc_conn_ac_send_rr_cmd_p_set_1 alloc sk
  let rc := r.1
  if rc = 0 then (rc, r.2, [ext_call.llc_conn_resend_i_pdu_as_cmd nr 0])
  else (rc, r.2, [])

/-- Action `llc_conn_ac_resend_i_xxx_x_set_0`. -/
def llc_conn_ac_resend_i_xxx_x_set_0 (sk : sock) (skb : sk_buff) : Nat × sock × List ext_call :=
  let nr := LLC_I_GET_NR skb.pdu
  (0, sk, [ext_call.llc_conn_resend_i_pdu_as_cmd nr 0])

/-- Action `llc_conn_ac_resend_i_xxx_x_set_0_or_send_rr`: the RR response is
built on a header initialised with `LLC_PDU_TYPE_U`; when no frame could be
allocated the I-PDUs are resent instead and the return code is reset to 0. -/
def llc_conn_ac_resend_i_xxx_x_set_0_or_send_rr (alloc : Bool) (sk : sock) (skb : sk_buff) :
    Nat × sock × List ext_call :=
  let f_bit := 0
  let r : Nat × sock :=
    if alloc then
      (0, llc_conn_send_pdu sk
        (mk_frame sk.llc LLC_PDU_TYPE_U LLC_PDU_RSP (pdu_init.rr_rsp f_bit sk.llc.vR)))
    else (1, sk)
  if r.1 ≠ 0 then
    let nr := LLC_I_GET_NR skb.pdu
    (0, r.2, [ext_call.llc_conn_resend_i_pdu_as_cmd nr f_bit])
  else (r.1, r.2, [])

/-- Action `llc_conn_ac_resend_i_rsp_f_set_1`. -/
def llc_conn_ac_resend_i_rsp_f_set_1 (sk : sock) (skb : sk_buff) : Nat × sock × List ext_call :=
  let nr := LLC_I_GET_NR skb.pdu
  (0, sk, [ext_call.llc_conn_resend_i_pdu_as_rsp nr 1])

/-! ### The library as a whole -/

/-- The actions of llc_c_ac.c, in the order of the file, named without the
`llc_conn_ac_` prefix (`conn_disc` and `conn_reset` are `llc_conn_disc` and
`llc_conn_reset`). -/
inductive action where
  | clear_remote_busy
  | conn_ind
  | conn_confirm
  | data_confirm
  | data_ind
  | disc_ind
  | disc_confirm
  | rst_ind
  | rst_confirm
  | report_status
  | clear_remote_busy_if_f_eq_1
  | stop_rej_tmr_if_data_flag_eq_2
  | send_disc_cmd_p_set_x
  | send_dm_rsp_f_set_p
  | send_dm_rsp_f_set_1
  | send_dm_rsp_f_set_f_flag
  | send_frmr_rsp_f_set_x
  | resend_frmr_rsp_f_set_0
  | resend_frmr_rsp_f_set_p
  | send_i_cmd_p_set_1
  | send_i_cmd_p_set_0
  | resend_i_cmd_p_set_1
  | resend_i_cmd_p_set_1_or_send_rr
  | send_i_xxx_x_set_0
  | resend_i_xxx_x_set_0
  | resend_i_xxx_x_set_0_or_send_rr
  | resend_i_rsp_f_set_1
  | send_rej_cmd_p_set_1
  | send_rej_rsp_f_set_1
  | send_rej_xxx_x_set_0
  | send_rnr_cmd_p_set_1
  | send_rnr_rsp_f_set_1
  | send_rnr_xxx_x_set_0
  | set_remote_busy
  | opt_send_rnr_xxx_x_set_0
  | send_rr_cmd_p_set_1
  | send_ack_cmd_p_set_1
  | send_rr_rsp_f_set_1
  | send_ack_rsp_f_set_1
  | send_rr_xxx_x_set_0
  | send_ack_xxx_x_set_0
  | send_sabme_cmd_p_set_x
  | send_ua_rsp_f_set_f_flag
  | send_ua_rsp_f_set_p
  | set_s_flag_0
  | set_s_flag_1
  | start_p_timer
  | send_ack_if_needed
  | rst_sendack_flag
  | send_i_rsp_f_set_ackpf
  | send_i_as_ack
  | send_rr_rsp_f_set_ackpf
  | inc_npta_value
  | adjust_npta_by_rr
  | adjust_npta_by_rnr
  | dec_tx_win_size
  | inc_tx_win_size
  | stop_all_timers
  | stop_other_timers
  | start_ack_timer
  | start_rej_timer
  | start_ack_tmr_if_not_running
  | stop_ack_timer
  | stop_p_timer
  | stop_rej_timer
  | upd_nr_received
  | upd_p_flag
  | set_data_flag_2
  | set_data_flag_0
  | set_data_flag_1
  | set_data_flag_1_if_data_flag_eq_0
  | set_p_flag_0
  | set_p_flag_1
  | set_remote_busy_0
  | set_cause_flag_0
  | set_cause_flag_1
  | set_retry_cnt_0
  | inc_retry_cnt_by_1
  | set_vr_0
  | inc_vr_by_1
  | set_vs_0
  | set_vs_nr
  | inc_vs_by_1
  | set_f_flag_p
  | rst_vs
  | upd_vs
  | conn_disc
  | conn_reset
  deriving DecidableEq, Repr

/-- What one action call leaves behind: the return code, the connection, the
event and the calls made out of the file. -/
structure ac_result where
  rc : Nat
  sk : sock
  skb : sk_buff
  calls : List ext_call := []
  deriving DecidableEq, Repr

/-- Result of an action that works on the control block only. -/
def of_llc (sk : sock) (skb : sk_buff) (r : Nat × llc_opt) : ac_result :=
  { rc := r.1, sk := { sk with llc := r.2 }, skb := skb, calls := [] }

/-- Result of an action that works on the control block and calls out of the file. -/
def of_llc_calls (sk : sock) (skb : sk_buff) (r : Nat × llc_opt × List ext_call) : ac_result :=
  { rc := r.1, sk := { sk with llc := r.2.1 }, skb := skb, calls := r.2.2 }

/-- Result of an action that works on the connection. -/
def of_sk (skb : sk_buff) (r : Nat × sock) : ac_result :=
  { rc := r.1, sk := r.2, skb := skb, calls := [] }

/-- Result of an action that works on the connection and calls out of the file. -/
def of_sk_calls (skb : sk_buff) (r : Nat × sock × List ext_call) : ac_result :=
  { rc := r.1, sk := r.2.1, skb := skb, calls := r.2.2 }

/-- Result of an action that works on the connection and the event. -/
def of_sk_skb (r : Nat × sock × sk_buff) : ac_result :=
  { rc := r.1, sk := r.2.1, skb := r.2.2, calls := [] }

/-- Result of an action that works on the event only. -/
def of_skb (sk : sock) (r : Nat × sk_buff) : ac_result :=
  { rc := r.1, sk := sk, skb := r.2, calls := [] }

/-- One call of an action of the library on a connection and an event. -/
def run_action (e : kenv) (a : action) (sk : sock) (skb : sk_buff) : ac_result :=
  match a with
  | action.clear_remote_busy => of_llc_calls sk skb (llc_conn_ac_clear_remote_busy sk.llc skb)
  | action.conn_ind => of_sk_skb (llc_conn_ac_conn_ind e.sap_found e.decode_sa e.decode_da sk skb)
  | action.conn_confirm => of_sk_skb (llc_conn_ac_conn_confirm sk skb)
  | action.data_confirm => of_skb sk (llc_conn_ac_data_confirm skb)
  | action.data_ind => of_sk_calls skb (llc_conn_ac_data_ind sk skb)
  | action.disc_ind => of_sk_skb (llc_conn_ac_disc_ind sk skb)
  | action.disc_confirm => of_sk_skb (llc_conn_ac_disc_confirm sk skb)
  | action.rst_ind => of_sk_skb (llc_conn_ac_rst_ind sk skb)
  | action.rst_confirm => of_sk_skb (llc_conn_ac_rst_confirm sk skb)
  | action.report_status => of_llc sk skb (llc_conn_ac_report_status sk.llc)
  | action.clear_remote_busy_if_f_eq_1 => of_llc_calls sk skb (llc_conn_ac_clear_remote_busy_if_f_eq_1 sk.llc skb)
  | action.stop_rej_tmr_if_data_flag_eq_2 => of_llc sk skb (llc_conn_ac_stop_rej_tmr_if_data_flag_eq_2 sk.llc)
  | action.send_disc_cmd_p_set_x => of_sk skb (llc_conn_ac_send_disc_cmd_p_set_x e.alloc sk)
  | action.send_dm_rsp_f_set_p => of_sk skb (llc_conn_ac_send_dm_rsp_f_set_p e.alloc sk skb)
  | action.send_dm_rsp_f_set_1 => of_sk skb (llc_conn_ac_send_dm_rsp_f_set_1 e.alloc sk)
  | action.send_dm_rsp_f_set_f_flag => of_sk skb (llc_conn_ac_send_dm_rsp_f_set_f_flag e.alloc sk)
  | action.send_frmr_rsp_f_set_x => of_sk skb (llc_conn_ac_send_frmr_rsp_f_set_x e.alloc sk skb)
  | action.resend_frmr_rsp_f_set_0 => of_sk skb (llc_conn_ac_resend_frmr_rsp_f_set_0 e.alloc sk)
  | action.resend_frmr_rsp_f_set_p => of_sk skb (llc_conn_ac_resend_frmr_rsp_f_set_p e.alloc sk skb)
  | action.send_i_cmd_p_set_1 => of_sk skb (llc_conn_ac_send_i_cmd_p_set_1 sk skb)
  | action.send_i_cmd_p_set_0 => of_sk skb (llc_conn_ac_send_i_cmd_p_set_0 sk skb)
  | action.resend_i_cmd_p_set_1 => of_sk_calls skb (llc_conn_ac_resend_i_cmd_p_set_1 sk skb)
  | action.resend_i_cmd_p_set_1_or_send_rr => of_sk_calls skb (llc_conn_ac_resend_i_cmd_p_set_1_or_send_rr e.alloc sk skb)
  | action.send_i_xxx_x_set_0 => of_sk skb (llc_conn_ac_send_i_xxx_x_set_0 sk skb)
  | action.resend_i_xxx_x_set_0 => of_sk_calls skb (llc_conn_ac_resend_i_xxx_x_set_0 sk skb)
  | action.resend_i_xxx_x_set_0_or_send_rr => of_sk_calls skb (llc_conn_ac_resend_i_xxx_x_set_0_or_send_rr e.alloc sk skb)
  | action.resend_i_rsp_f_set_1 => of_sk_calls skb (llc_conn_ac_resend_i_rsp_f_set_1 sk skb)
  | action.send_rej_cmd_p_set_1 => of_sk skb (llc_conn_ac_send_rej_cmd_p_set_1 e.alloc sk)
  | action.send_rej_rsp_f_set_1 => of_sk skb (llc_conn_ac_send_rej_rsp_f_set_1 e.alloc sk)
  | action.send_rej_xxx_x_set_0 => of_sk skb (llc_conn_ac_send_rej_xxx_x_set_0 e.alloc sk)
  | action.send_rnr_cmd_p_set_1 => of_sk skb (llc_conn_ac_send_rnr_cmd_p_set_1 e.alloc sk)
  | action.send_rnr_rsp_f_set_1 => of_sk skb (llc_conn_ac_send_rnr_rsp_f_set_1 e.alloc sk)
  | action.send_rnr_xxx_x_set_0 => of_sk skb (llc_conn_ac_send_rnr_xxx_x_set_0 e.alloc sk)
  | action.set_remote_busy => of_llc sk skb (llc_conn_ac_set_remote_busy e.BITS_PER_LONG e.jiffies e.HZ sk.llc)
  | action.opt_send_rnr_xxx_x_set_0 => of_sk skb (llc_conn_ac_opt_send_rnr_xxx_x_set_0 e.alloc sk)
  | action.send_rr_cmd_p_set_1 => of_sk skb (llc_conn_ac_send_rr_cmd_p_set_1 e.alloc sk)
  | action.send_ack_cmd_p_set_1 => of_sk skb (llc_conn_ac_send_ack_cmd_p_set_1 e.alloc sk)
  | action.send_rr_rsp_f_set_1 => of_sk skb (llc_conn_ac_send_rr_rsp_f_set_1 e.alloc sk)
  | action.send_ack_rsp_f_set_1 => of_sk skb (llc_conn_ac_send_ack_rsp_f_set_1 e.alloc sk)
  | action.send_rr_xxx_x_set_0 => of_sk skb (llc_conn_ac_send_rr_xxx_x_set_0 e.alloc sk)
  | action.send_ack_xxx_x_set_0 => of_sk skb (llc_conn_ac_send_ack_xxx_x_set_0 e.alloc sk)
  | action.send_sabme_cmd_p_set_x => of_sk skb (llc_conn_ac_send_sabme_cmd_p_set_x e.alloc sk)
  | action.send_ua_rsp_f_set_f_flag => of_sk skb (llc_conn_ac_send_ua_rsp_f_set_f_flag e.alloc sk)
  | action.send_ua_rsp_f_set_p => of_sk skb (llc_conn_ac_send_ua_rsp_f_set_p e.alloc sk skb)
  | action.set_s_flag_0 => of_llc sk skb (llc_conn_ac_set_s_flag_0 sk.llc)
  | action.set_s_flag_1 => of_llc sk skb (llc_conn_ac_set_s_flag_1 sk.llc)
  | action.start_p_timer => of_llc sk skb (llc_conn_ac_start_p_timer e.BITS_PER_LONG e.jiffies e.HZ sk.llc)
  | action.send_ack_if_needed => of_sk skb (llc_conn_ac_send_ack_if_needed e.alloc sk skb)
  | action.rst_sendack_flag => of_llc sk skb (llc_conn_ac_rst_sendack_flag sk.llc)
  | action.send_i_rsp_f_set_ackpf => of_sk skb (llc_conn_ac_send_i_rsp_f_set_ackpf sk skb)
  | action.send_i_as_ack => of_sk skb (llc_conn_ac_send_i_as_ack sk skb)
  | action.send_rr_rsp_f_set_ackpf => of_sk skb (llc_conn_ac_send_rr_rsp_f_set_ackpf e.alloc sk)
  | action.inc_npta_value => of_llc sk skb (llc_conn_ac_inc_npta_value sk.llc)
  | action.adjust_npta_by_rr => of_llc sk skb (llc_conn_ac_adjust_npta_by_rr sk.llc)
  | action.adjust_npta_by_rnr => of_llc sk skb (llc_conn_ac_adjust_npta_by_rnr sk.llc)
  | action.dec_tx_win_size => of_llc sk skb (llc_conn_ac_dec_tx_win_size sk.llc)
  | action.inc_tx_win_size => of_llc sk skb (llc_conn_ac_inc_tx_win_size sk.llc)
  | action.stop_all_timers => of_llc sk skb (llc_conn_ac_stop_all_timers sk.llc)
  | action.stop_other_timers => of_llc sk skb (llc_conn_ac_stop_other_timers sk.llc)
  | action.start_ack_timer => of_llc sk skb (llc_conn_ac_start_ack_timer e.BITS_PER_LONG e.jiffies e.HZ sk.llc)
  | action.start_rej_timer => of_llc sk skb (llc_conn_ac_start_rej_timer e.BITS_PER_LONG e.jiffies e.HZ sk.llc)
  | action.start_ack_tmr_if_not_running => of_llc sk skb (llc_conn_ac_start_ack_tmr_if_not_running e.BITS_PER_LONG e.jiffies e.HZ sk.llc)
  | action.stop_ack_timer => of_llc sk skb (llc_conn_ac_stop_ack_timer sk.llc)
  | action.stop_p_timer => of_llc sk skb (llc_conn_ac_stop_p_timer sk.llc)
  | action.stop_rej_timer => of_llc sk skb (llc_conn_ac_stop_rej_timer sk.llc)
  | action.upd_nr_received => of_sk_skb (llc_conn_ac_upd_nr_received e.BITS_PER_LONG e.jiffies e.HZ sk skb)
  | action.upd_p_flag => of_llc sk skb (llc_conn_ac_upd_p_flag sk.llc skb)
  | action.set_data_flag_2 => of_llc sk skb (llc_conn_ac_set_data_flag_2 sk.llc)
  | action.set_data_flag_0 => of_llc sk skb (llc_conn_ac_set_data_flag_0 sk.llc)
  | action.set_data_flag_1 => of_llc sk skb (llc_conn_ac_set_data_flag_1 sk.llc)
  | action.set_data_flag_1_if_data_flag_eq_0 => of_llc sk skb (llc_conn_ac_set_data_flag_1_if_data_flag_eq_0 sk.llc)
  | action.set_p_flag_0 => of_llc sk skb (llc_conn_ac_set_p_flag_0 sk.llc)
  | action.set_p_flag_1 => of_llc sk skb (llc_conn_ac_set_p_flag_1 sk.llc)
  | action.set_remote_busy_0 => of_llc sk skb (llc_conn_ac_set_remote_busy_0 sk.llc)
  | action.set_cause_flag_0 => of_llc sk skb (llc_conn_ac_set_cause_flag_0 sk.llc)
  | action.set_cause_flag_1 => of_llc sk skb (llc_conn_ac_set_cause_flag_1 sk.llc)
  | action.set_retry_cnt_0 => of_llc sk skb (llc_conn_ac_set_retry_cnt_0 sk.llc)
  | action.inc_retry_cnt_by_1 => of_llc sk skb (llc_conn_ac_inc_retry_cnt_by_1 sk.llc)
  | action.set_vr_0 => of_llc sk skb (llc_conn_ac_set_vr_0 sk.llc)
  | action.inc_vr_by_1 => of_sk skb (llc_conn_ac_inc_vr_by_1 sk)
  | action.set_vs_0 => of_llc sk skb (llc_conn_ac_set_vs_0 sk.llc)
  | action.set_vs_nr => of_llc sk skb (llc_conn_ac_set_vs_nr sk.llc)
  | action.inc_vs_by_1 => of_llc sk skb (llc_conn_ac_inc_vs_by_1 sk.llc)
  | action.set_f_flag_p => of_llc sk skb (llc_conn_ac_set_f_flag_p sk.llc skb)
  | action.rst_vs => of_llc sk skb (llc_conn_ac_rst_vs sk.llc)
  | action.upd_vs => of_llc sk skb (llc_conn_ac_upd_vs sk.llc skb)
  | action.conn_disc => of_llc sk skb (llc_conn_disc sk.llc)
  | action.conn_reset => of_sk_calls skb (llc_conn_reset sk)

/-- A finite sequence of action calls, each with its own environment and event,
applied to the connection left to right. -/
def run_actions (sk : sock) (steps : List (kenv × action × sk_buff)) : sock :=
  steps.foldl (fun s st => (run_action st.1 st.2.1 s st.2.2).sk) sk

/-! ### Reading frames and runs -/

/-- The P/F bit an outgoing frame was built with. -/
def pdu_pf : pdu_init → Nat
  | pdu_init.i_cmd p _ _ => p
  | pdu_init.rr_cmd p _ => p
  | pdu_init.rr_rsp f _ => f
  | pdu_init.rnr_cmd p _ => p
  | pdu_init.rnr_rsp f _ => f
  | pdu_init.rej_cmd p _ => p
  | pdu_init.rej_rsp f _ => f
  | pdu_init.disc_cmd p => p
  | pdu_init.sabme_cmd p => p
  | pdu_init.ua_rsp f => f
  | pdu_init.dm_rsp f => f
  | pdu_init.frmr_rsp _ f _ _ _ => f

/-- The N(S) an outgoing frame carries, for the I format. -/
def pdu_ns : pdu_init → Option Nat
  | pdu_init.i_cmd _ ns _ => some ns
  | _ => none

/-- The N(R) an outgoing frame carries, for the I and S formats. -/
def pdu_nr : pdu_init → Option Nat
  | pdu_init.i_cmd _ _ nr => some nr
  | pdu_init.rr_cmd _ nr => some nr
  | pdu_init.rr_rsp _ nr => some nr
  | pdu_init.rnr_cmd _ nr => some nr
  | pdu_init.rnr_rsp _ nr => some nr
  | pdu_init.rej_cmd _ nr => some nr
  | pdu_init.rej_rsp _ nr => some nr
  | _ => none

/-- The connection after `n` successive `llc_conn_ac_inc_vs_by_1` calls. -/
def inc_vs_times (n : Nat) (llc : llc_opt) : llc_opt :=
  (fun l => (llc_conn_ac_inc_vs_by_1 l).2)^[n] llc

/-- The connection after `n` successive `llc_conn_ac_inc_npta_value` calls. -/
def inc_npta_times (n : Nat) (llc : llc_opt) : llc_opt :=
  (fun l => (llc_conn_ac_inc_npta_value l).2)^[n] llc

/-- The sequence counters and the last received N(R) are all in [0,127]. -/
def seq_in_range (llc : llc_opt) : Prop :=
  llc.vS ≤ 127 ∧ llc.vR ≤ 127 ∧ llc.last_nr ≤ 127

/-- Outcome "discarded" of `llc_process_tmr_ev`: the event is released, the
connection is untouched. -/
def tmr_ev_discarded (sk : sock) (skb : sk_buff) : Prop :=
  llc_process_tmr_ev sk skb = (sk, [ext_call.llc_conn_free_ev skb])

/-- Outcome "queued" of `llc_process_tmr_ev`: the event, tagged as an event, is
appended to the backlog queue and nothing is called. -/
def tmr_ev_queued (sk : sock) (skb : sk_buff) : Prop :=
  llc_process_tmr_ev sk skb =
    ({ sk with backlog := sk.backlog ++ [{ skb with backlog_type := LLC_EVENT }] }, [])

/-- Outcome "dispatched" of `llc_process_tmr_ev`: the event is handed to the
state machine, the backlog queue is untouched. -/
def tmr_ev_dispatched (sk : sock) (skb : sk_buff) : Prop :=
  llc_process_tmr_ev sk skb = (sk, [ext_call.llc_conn_state_process skb])

/-- The rejected-PDU header an FRMR action echoes: the saved `rx_pdu_hdr` for
`resend_frmr_rsp_f_set_0`, the header of the event for the other two. -/
def frmr_rejected_hdr (a : action) (sk : sock) (skb : sk_buff) : llc_pdu_sn :=
  match a with
  | action.resend_frmr_rsp_f_set_0 => sk.llc.rx_pdu_hdr
  | _ => skb.pdu

/-- The F bit an FRMR action puts in its response: for `send_frmr_rsp_f_set_x`
the P bit of the rejected frame when that frame is a command and 0 otherwise,
0 for `resend_frmr_rsp_f_set_0`, the P/F bit of the event for
`resend_frmr_rsp_f_set_p`. -/
def frmr_f_bit (a : action) (skb : sk_buff) : Nat :=
  match a with
  | action.send_frmr_rsp_f_set_x =>
    if pdu_is_rsp skb.pdu then 0 else llc_pdu_decode_pf_bit skb.pdu
  | action.resend_frmr_rsp_f_set_0 => 0
  | _ => llc_pdu_decode_pf_bit skb.pdu

/-- The actions that call `llc_alloc_frame()`, directly or through another
action (`resend_i_cmd_p_set_1_or_send_rr` through `send_rr_cmd_p_set_1`,
`send_ack_if_needed` through `send_rr_rsp_f_set_ackpf`). -/
def allocates : action → Bool
  | action.send_disc_cmd_p_set_x => true
  | action.send_dm_rsp_f_set_p => true
  | action.send_dm_rsp_f_set_1 => true
  | action.send_dm_rsp_f_set_f_flag => true
  | action.send_frmr_rsp_f_set_x => true
  | action.resend_frmr_rsp_f_set_0 => true
  | action.resend_frmr_rsp_f_set_p => true
  | action.resend_i_cmd_p_set_1_or_send_rr => true
  | action.resend_i_xxx_x_set_0_or_send_rr => true
  | action.send_rej_cmd_p_set_1 => true
  | action.send_rej_rsp_f_set_1 => true
  | action.send_rej_xxx_x_set_0 => true
  | action.send_rnr_cmd_p_set_1 => true
  | action.send_rnr_rsp_f_set_1 => true
  | action.send_rnr_xxx_x_set_0 => true
  | action.opt_send_rnr_xxx_x_set_0 => true
  | action.send_rr_cmd_p_set_1 => true
  | action.send_ack_cmd_p_set_1 => true
  | action.send_rr_rsp_f_set_1 => true
  | action.send_ack_rsp_f_set_1 => true
  | action.send_rr_xxx_x_set_0 => true
  | action.send_ack_xxx_x_set_0 => true
  | action.send_sabme_cmd_p_set_x => true
  | action.send_ua_rsp_f_set_f_flag => true
  | action.send_ua_rsp_f_set_p => true
  | action.send_ack_if_needed => true
  | action.send_rr_rsp_f_set_ackpf => true
  | _ => false

/-- The control block an allocating action leaves behind when no frame could
be allocated: `p_flag = 1` after the DISC and SABME sends, the rejected header
saved after `send_frmr_rsp_f_set_x`, the batch and threshold bookkeeping done
after `send_ack_if_needed`, and the unchanged block after every other one. -/
def llc_after_failed_alloc (a : action) (sk : sock) (skb : sk_buff) : llc_opt :=
  match a with
  | action.send_disc_cmd_p_set_x => { sk.llc with p_flag := 1 }
  | action.send_sabme_cmd_p_set_x => { sk.llc with p_flag := 1 }
  | action.send_frmr_rsp_f_set_x => { sk.llc with rx_pdu_hdr := skb.pdu }
  | action.send_ack_if_needed =>
    let r := (llc_conn_ac_send_ack_if_needed false sk skb).2.llc
    { sk.llc with
      ack_pf := r.ack_pf, first_pdu_Ns := r.first_pdu_Ns, ack_must_be_send := r.ack_must_be_send,
      npta := r.npta, inc_cntr := r.inc_cntr, dec_cntr := r.dec_cntr, dec_step := r.dec_step }
  | _ => sk.llc

/-- The calls out of the file an allocating action makes when no frame could be
allocated: the resend of the I-PDUs by `resend_i_xxx_x_set_0_or_send_rr`, none
by any other. -/
def calls_after_failed_alloc (a : action) (skb : sk_buff) : List ext_call :=
  match a with
  | action.resend_i_xxx_x_set_0_or_send_rr =>
    [ext_call.llc_conn_resend_i_pdu_as_cmd (LLC_I_GET_NR skb.pdu) 0]
  | _ => []

/-- The supervisory and unnumbered send actions: the actions whose only work is
to build one RR, RNR, REJ, SABME, DISC, UA, DM or FRMR frame and hand it to
transmission. -/
def su_send : action → Bool
  | action.send_disc_cmd_p_set_x => true
  | action.send_dm_rsp_f_set_p => true
  | action.send_dm_rsp_f_set_1 => true
  | action.send_dm_rsp_f_set_f_flag => true
  | action.send_frmr_rsp_f_set_x => true
  | action.resend_frmr_rsp_f_set_0 => true
  | action.resend_frmr_rsp_f_set_p => true
  | action.send_rej_cmd_p_set_1 => true
  | action.send_rej_rsp_f_set_1 => true
  | action.send_rej_xxx_x_set_0 => true
  | action.send_rnr_cmd_p_set_1 => true
  | action.send_rnr_rsp_f_set_1 => true
  | action.send_rnr_xxx_x_set_0 => true
  | action.opt_send_rnr_xxx_x_set_0 => true
  | action.send_rr_cmd_p_set_1 => true
  | action.send_ack_cmd_p_set_1 => true
  | action.send_rr_rsp_f_set_1 => true
  | action.send_ack_rsp_f_set_1 => true
  | action.send_rr_xxx_x_set_0 => true
  | action.send_ack_xxx_x_set_0 => true
  | action.send_sabme_cmd_p_set_x => true
  | action.send_ua_rsp_f_set_f_flag => true
  | action.send_ua_rsp_f_set_p => true
  | action.send_rr_rsp_f_set_ackpf => true
  | _ => false

/-- The command/response role the name of a send action announces: a command
for `*_cmd_*`, a response for `*_rsp_*` and for `*_xxx_x_set_0`. -/
def named_role : action → Nat
  | action.send_disc_cmd_p_set_x => LLC_PDU_CMD
  | action.send_rej_cmd_p_set_1 => LLC_PDU_CMD
  | action.send_rnr_cmd_p_set_1 => LLC_PDU_CMD
  | action.send_rr_cmd_p_set_1 => LLC_PDU_CMD
  | action.send_ack_cmd_p_set_1 => LLC_PDU_CMD
  | action.send_sabme_cmd_p_set_x => LLC_PDU_CMD
  | _ => LLC_PDU_RSP

/-- The P/F bit the name of a send action announces: 1 for `*_cmd_p_set_1`,
`*_cmd_p_set_x` and `*_rsp_f_set_1`; 0 for `*_xxx_x_set_0` and `*_rsp_f_set_0`;
the P/F bit decoded from the triggering PDU for `*_rsp_f_set_p`; the stored
`f_flag` for `*_rsp_f_set_f_flag`; `ack_pf` for `send_rr_rsp_f_set_ackpf`; the
name `send_frmr_rsp_f_set_x` announces none. -/
def named_pf (a : action) (llc : llc_opt) (skb : sk_buff) : Option Nat :=
  match a with
  | action.send_disc_cmd_p_set_x => some 1
  | action.send_sabme_cmd_p_set_x => some 1
  | action.send_rej_cmd_p_set_1 => some 1
  | action.send_rnr_cmd_p_set_1 => some 1
  | action.send_rr_cmd_p_set_1 => some 1
  | action.send_ack_cmd_p_set_1 => some 1
  | action.send_dm_rsp_f_set_1 => some 1
  | action.send_rej_rsp_f_set_1 => some 1
  | action.send_rnr_rsp_f_set_1 => some 1
  | action.send_rr_rsp_f_set_1 => some 1
  | action.send_ack_rsp_f_set_1 => some 1
  | action.send_rej_xxx_x_set_0 => some 0
  | action.send_rnr_xxx_x_set_0 => some 0
  | action.opt_send_rnr_xxx_x_set_0 => some 0
  | action.send_rr_xxx_x_set_0 => some 0
  | action.send_ack_xxx_x_set_0 => some 0
  | action.resend_frmr_rsp_f_set_0 => some 0
  | action.send_dm_rsp_f_set_p => some (llc_pdu_decode_pf_bit skb.pdu)
  | action.resend_frmr_rsp_f_set_p => some (llc_pdu_decode_pf_bit skb.pdu)
  | action.send_ua_rsp_f_set_p => some (llc_pdu_decode_pf_bit skb.pdu)
  | action.send_dm_rsp_f_set_f_flag => some llc.f_flag
  | action.send_ua_rsp_f_set_f_flag => some llc.f_flag
  | action.send_rr_rsp_f_set_ackpf => some llc.ack_pf
  | _ => none

/-- The frame is an RR, RNR or REJ frame. -/
def is_supervisory : pdu_init → Bool
  | pdu_init.rr_cmd _ _ => true
  | pdu_init.rr_rsp _ _ => true
  | pdu_init.rnr_cmd _ _ => true
  | pdu_init.rnr_rsp _ _ => true
  | pdu_init.rej_cmd _ _ => true
  | pdu_init.rej_rsp _ _ => true
  | _ => false

/-! ## Timer callbacks -/

/-- What a timer callback leaves behind: the connection, the events it handed
to `llc_process_tmr_ev` and the calls `llc_process_tmr_ev` made for them. -/
structure cb_result where
  sk : sock
  handed : List sk_buff := []
  calls : List ext_call := []
  deriving DecidableEq, Repr

/-- The event a timer callback writes into the empty skb of `alloc_skb(0,
GFP_ATOMIC)`: `ev->type = type` and `ev->data.tmr.timer_specific = NULL`. -/
def tmr_cb_event (type : Nat) : sk_buff :=
  let skb : sk_buff := {}
  { skb with ev := { skb.ev with type := type, tmr_timer_specific := 0 } }

/-- The tail shared by the four timer callbacks: `if (skb)` fill in the event
and call `llc_process_tmr_ev(sk, skb)`; `alloc_skb` tells whether `alloc_skb`
returned a buffer. -/
def tmr_cb_dispatch (alloc_skb : Bool) (sk : sock) (type : Nat) : cb_result :=
  if alloc_skb then
    let skb := tmr_cb_event type
    let r := llc_process_tmr_ev sk skb
    { sk := r.1, handed := [skb], calls := r.2 }
  else
    { sk := sk }

/-- Callback `llc_conn_pf_cycle_tmr_cb`. -/
def llc_conn_pf_cycle_tmr_cb (alloc_skb : Bool) (sk : sock) : cb_result :=
  let t : llc_timer := { sk.llc.pf_cycle_timer with running := 0 }
  let sk1 : sock := { sk with llc := { sk.llc with pf_cycle_timer := t } }
  tmr_cb_dispatch alloc_skb sk1 LLC_CONN_EV_TYPE_P_TMR

/-- Callback `llc_conn_busy_tmr_cb`. -/
def llc_conn_busy_tmr_cb (alloc_skb : Bool) (sk : sock) : cb_result :=
  let t : llc_timer := { sk.llc.busy_state_timer with running := 0 }
  let sk1 : sock := { sk with llc := { sk.llc with busy_state_timer := t } }
  tmr_cb_dispatch alloc_skb sk1 LLC_CONN_EV_TYPE_BUSY_TMR

/-- Callback `llc_conn_ack_tmr_cb`. -/
def llc_conn_ack_tmr_cb (alloc_skb : Bool) (sk : sock) : cb_result :=
  let t : llc_timer := { sk.llc.ack_timer with running := 0 }
  let sk1 : sock := { sk with llc := { sk.llc with ack_timer := t } }
  tmr_cb_dispatch alloc_skb sk1 LLC_CONN_EV_TYPE_ACK_TMR

/-- Callback `llc_conn_rej_tmr_cb`. -/
def llc_conn_rej_tmr_cb (alloc_skb : Bool) (sk : sock) : cb_result :=
  let t : llc_timer := { sk.llc.rej_sent_timer with running := 0 }
  let sk1 : sock := { sk with llc := { sk.llc with rej_sent_timer := t } }
  tmr_cb_dispatch alloc_skb sk1 LLC_CONN_EV_TYPE_REJ_TMR

/-- The four timers of a connection. -/
inductive timer_id where
  | pf_cycle_timer
  | ack_timer
  | rej_sent_timer
  | busy_state_timer
  deriving DecidableEq, Repr

/-- The timer of the control block a `timer_id` names. -/
def get_timer (llc : llc_opt) : timer_id → llc_timer
  | timer_id.pf_cycle_timer => llc.pf_cycle_timer
  | timer_id.ack_timer => llc.ack_timer
  | timer_id.rej_sent_timer => llc.rej_sent_timer
  | timer_id.busy_state_timer => llc.busy_state_timer

/-- The callback the kernel runs when the given timer expires. -/
def timer_cb (t : timer_id) (alloc_skb : Bool) (sk : sock) : cb_result :=
  match t with
  | timer_id.pf_cycle_timer => llc_conn_pf_cycle_tmr_cb alloc_skb sk
  | timer_id.ack_timer => llc_conn_ack_tmr_cb alloc_skb sk
  | timer_id.rej_sent_timer => llc_conn_rej_tmr_cb alloc_skb sk
  | timer_id.busy_state_timer => llc_conn_busy_tmr_cb alloc_skb sk

/-- The event type each callback writes. -/
def timer_ev_type : timer_id → Nat
  | timer_id.pf_cycle_timer => LLC_CONN_EV_TYPE_P_TMR
  | timer_id.ack_timer => LLC_CONN_EV_TYPE_ACK_TMR
  | timer_id.rej_sent_timer => LLC_CONN_EV_TYPE_REJ_TMR
  | timer_id.busy_state_timer => LLC_CONN_EV_TYPE_BUSY_TMR

/-! ## Calls into the kernel timer interface -/

/-- A call of `add_timer` or `del_timer` on one of the four timers. -/
inductive timer_call where
  | add_timer (t : timer_id)
  | del_timer (t : timer_id)
  deriving DecidableEq, Repr

/-- The `add_timer` and `del_timer` calls an action makes, in the order of the
source, on the connection and event it is given; actions not listed touch no
timer.  `clear_remote_busy_if_f_eq_1` and `upd_p_flag` make theirs through
`llc_conn_ac_clear_remote_busy` and `llc_conn_ac_stop_p_timer`. -/
def timer_calls (a : action) (sk : sock) (skb : sk_buff) : List timer_call :=
  let llc := sk.llc
  match a with
  | action.clear_remote_busy =>
    if llc.remote_busy_flag ≠ 0 then [timer_call.del_timer timer_id.busy_state_timer] else []
  | action.clear_remote_busy_if_f_eq_1 =>
    if LLC_PDU_IS_RSP skb.pdu = 0 ∧ LLC_PDU_TYPE_IS_I skb.pdu = 0 ∧ LLC_I_PF_IS_1 skb.pdu = 0 ∧
        llc.ack_pf ≠ 0 then
      if llc.remote_busy_flag ≠ 0 then [timer_call.del_timer timer_id.busy_state_timer] else []
    else []
  | action.stop_rej_tmr_if_data_flag_eq_2 =>
    if llc.data_flag = 2 then [timer_call.del_timer timer_id.rej_sent_timer] else []
  | action.set_remote_busy =>
    if llc.remote_busy_flag = 0 then [timer_call.add_timer timer_id.busy_state_timer] else []
  | action.start_p_timer =>
    [timer_call.del_timer timer_id.pf_cycle_timer, timer_call.add_timer timer_id.pf_cycle_timer]
  | action.stop_all_timers =>
    [timer_call.del_timer timer_id.pf_cycle_timer, timer_call.del_timer timer_id.ack_timer,
     timer_call.del_timer timer_id.rej_sent_timer, timer_call.del_timer timer_id.busy_state_timer]
  | action.stop_other_timers =>
    [timer_call.del_timer timer_id.rej_sent_timer, timer_call.del_timer timer_id.pf_cycle_timer,
     timer_call.del_timer timer_id.busy_state_timer]
  | action.start_ack_timer =>
    [timer_call.del_timer timer_id.ack_timer, timer_call.add_timer timer_id.ack_timer]
  | action.start_rej_timer =>
    [timer_call.del_timer timer_id.rej_sent_timer, timer_call.add_timer timer_id.rej_sent_timer]
  | action.start_ack_tmr_if_not_running =>
    if llc.ack_timer.running = 0 then [timer_call.add_timer timer_id.ack_timer] else []
  | action.stop_ack_timer => [timer_call.del_timer timer_id.ack_timer]
  | action.stop_p_timer => [timer_call.del_timer timer_id.pf_cycle_timer]
  | action.stop_rej_timer => [timer_call.del_timer timer_id.rej_sent_timer]
  | action.upd_nr_received =>
    let llc0 : llc_opt := { llc with last_nr := PDU_SUPV_GET_Nr skb.pdu }
    let r := llc_conn_remove_acked_pdus llc0 llc0.last_nr
    if r.1 > 0 ∨ (r.2.2.dev.flags &&& IFF_LOOPBACK) ≠ 0 then
      timer_call.del_timer timer_id.ack_timer ::
        (if r.2.1 ≠ 0 then [timer_call.add_timer timer_id.ack_timer] else [])
    else []
  | action.upd_p_flag =>
    if LLC_PDU_IS_RSP skb.pdu = 0 then
      if llc_pdu_decode_pf_bit skb.pdu ≠ 0 then [timer_call.del_timer timer_id.pf_cycle_timer]
      else []
    else []
  | _ => []

/-- The pending bit of each timer of the control block. -/
def pending (llc : llc_opt) (t : timer_id) : Bool := (get_timer llc t).timer.pending

/-- The pending bits after one timer call: `add_timer` sets the bit of its
timer, `del_timer` clears it. -/
def timer_call_effect (p : timer_id → Bool) : timer_call → timer_id → Bool
  | timer_call.add_timer t => fun u => if u = t then true else p u
  | timer_call.del_timer t => fun u => if u = t then false else p u

/-- The timers on which a list of timer calls, made from pending bits `p`,
calls `add_timer` while the pending bit of that timer is set. -/
def double_adds (p : timer_id → Bool) : List timer_call → List timer_id
  | [] => []
  | c :: r =>
    (match c with
      | timer_call.add_timer t => if p t then [t] else []
      | timer_call.del_timer _ => []) ++ double_adds (timer_call_effect p c) r

/-- The control block with the pending bit of one timer cleared, as the kernel
does when it takes an expired timer off its list. -/
def clear_pending (llc : llc_opt) : timer_id → llc_opt
  | timer_id.pf_cycle_timer =>
    { llc with pf_cycle_timer := { llc.pf_cycle_timer with
        timer := { llc.pf_cycle_timer.timer with pending := false } } }
  | timer_id.ack_timer =>
    { llc with ack_timer := { llc.ack_timer with
        timer := { llc.ack_timer.timer with pending := false } } }
  | timer_id.rej_sent_timer =>
    { llc with rej_sent_timer := { llc.rej_sent_timer with
        timer := { llc.rej_sent_timer.timer with pending := false } } }
  | timer_id.busy_state_timer =>
    { llc with busy_state_timer := { llc.busy_state_timer with
        timer := { llc.busy_state_timer.timer with pending := false } } }

/-- One step of a connection: a library action run on an event, or the expiry
of a timer with the outcome of the `alloc_skb` of its callback. -/
inductive conn_step where
  | act (e : kenv) (a : action) (skb : sk_buff)
  | expiry (t : timer_id) (alloc_skb : Bool)
  deriving DecidableEq, Repr

/-- The connection after one step.  Only a pending timer expires: the kernel
clears its pending bit and runs its callback; the actions the state machine
runs for the dispatched event are further steps. -/
def conn_step_run (sk : sock) : conn_step → sock
  | conn_step.act e a skb => (run_action e a sk skb).sk
  | conn_step.expiry t alloc_skb =>
    if pending sk.llc t then (timer_cb t alloc_skb { sk with llc := clear_pending sk.llc t }).sk
    else sk

/-- The connection after a sequence of steps. -/
def conn_run (sk : sock) (steps : List conn_step) : sock := steps.foldl conn_step_run sk

/-- The timers on which one step calls `add_timer` while they are pending. -/
def step_double_adds (sk : sock) : conn_step → List timer_id
  | conn_step.act _ a skb => double_adds (pending sk.llc) (timer_calls a sk skb)
  | conn_step.expiry _ _ => []

/-- The timers on which a sequence of steps calls `add_timer` while they are
pending, in the order of the calls. -/
def run_double_adds (sk : sock) : List conn_step → List timer_id
  | [] => []
  | s :: r => step_double_adds sk s ++ run_double_adds (conn_step_run sk s) r

/-- Every timer's pending bit equals its running flag. -/
def pending_eq_running (llc : llc_opt) : Prop :=
  ∀ t : timer_id, pending llc t = true ↔ (get_timer llc t).running ≠ 0

/-- The reading of "N(R) lies strictly between vS and X on the circular ring":
going forward from `a` on the 128-slot ring, `b` comes after `a` and before `c`. -/
def strictly_between (a b c : Nat) : Prop :=
  0 < ((b : Int) - a) % 128 ∧ ((b : Int) - a) % 128 < ((c : Int) - a) % 128

/-- The update of (npta, dec_cntr, inc_cntr) the specification gives for both
threshold-decreasing actions: nothing while `dec_step` is non-zero; `dec_cntr`
decremented by 1 when it is non-zero; otherwise both counters restart at 2 and
`npta` decreases by 1 with floor 0. -/
def npta_decrease (npta dec_cntr inc_cntr dec_step : Nat) : Nat × Nat × Nat :=
  if dec_step ≠ 0 then (npta, dec_cntr, inc_cntr)
  else if dec_cntr ≠ 0 then (npta, dec_cntr - 1, inc_cntr)
  else (npta - 1, 2, 2)

/-! ## Runs of acknowledgment calls -/

/-- One `llc_conn_ac_send_ack_if_needed` call of a run: what the actions that
ran since the previous call did to the connection, the outcome of the frame
allocation should the call reach it, and the event of the call. -/
structure ack_call where
  other : sock → sock
  alloc : Bool
  skb : sk_buff

/-- The connection after the other actions and the call itself. -/
def ack_call_run (sk : sock) (c : ack_call) : sock :=
  (llc_conn_ac_send_ack_if_needed c.alloc (c.other sk) c.skb).2

/-- The connection after a run of calls, oldest first. -/
def ack_calls_run (sk : sock) (cs : List ack_call) : sock := cs.foldl ack_call_run sk

/-- The flush test of `llc_conn_ac_send_ack_if_needed` on the control block the
call finds: `((vR - first_pdu_Ns + 129) % 128) >= npta`, with `first_pdu_Ns`
as it stands after the batch-opening step. -/
def flush_due (llc : llc_opt) : Bool :=
  decide (Int.tmod ((llc.vR : Int) - (batch_first llc : Int) + 129) 128 ≥ (llc.npta : Int))

/-- The other actions of a call change neither ack_pf nor ack_must_be_send. -/
def keeps_batch (c : ack_call) : Prop :=
  ∀ s : sock, (c.other s).llc.ack_pf = s.llc.ack_pf ∧
    (c.other s).llc.ack_must_be_send = s.llc.ack_must_be_send

/-- No call of the run flushes. -/
def none_flushes (sk : sock) : List ack_call → Prop
  | [] => True
  | c :: r => flush_due (c.other sk).llc = false ∧ none_flushes (ack_call_run sk c) r

/-- The logical OR of the P bits of the PDUs of a run of calls. -/
def or_p_bits : List ack_call → Nat
  | [] => 0
  | c :: r => llc_pdu_decode_pf_bit c.skb.pdu ||| or_p_bits r

/-- The frame is a SABME, DISC, UA, DM or FRMR frame. -/
def is_unnumbered : pdu_init → Bool
  | pdu_init.disc_cmd _ => true
  | pdu_init.sabme_cmd _ => true
  | pdu_init.ua_rsp _ => true
  | pdu_init.dm_rsp _ => true
  | pdu_init.frmr_rsp _ _ _ _ _ => true
  | _ => false

/-! ## Helper lemmas -/

theorem circular_between_iff (a b c : Nat) (ha : a < 128) (hb : b < 128) (hc : c < 128) :
    llc_circular_between a b c = 1 ↔ ((b : Int) - a) % 128 ≤ ((c : Int) - a) % 128 := by
  unfold llc_circular_between to_u8
  simp only []
  split <;> omega

theorem circular_between_zero_iff (a b c : Nat) :
    llc_circular_between a b c = 0 ↔ ¬ llc_circular_between a b c = 1 := by
  unfold llc_circular_between
  simp only []
  split <;> simp

theorem mem_forward_arc (a b c : Nat) (ha : a < 128) (hb : b < 128) (hc : c < 128) :
    b ∈ forward_arc a c ↔ ((b : Int) - a) % 128 ≤ ((c : Int) - a) % 128 := by
  unfold forward_arc
  simp only [List.mem_map, List.mem_range]
  constructor
  · rintro ⟨d, hd, rfl⟩
    omega
  · intro h
    refine ⟨(b + 128 - a) % 128, ?_, ?_⟩ <;> omega

theorem npta_step_le (llc : llc_opt) (c : npta_call) (h : llc.npta ≤ 127) :
    (npta_step llc c).npta ≤ 127 := by
  cases c <;>
    simp only [npta_step, llc_conn_ac_inc_npta_value, llc_conn_ac_adjust_npta_by_rr,
      llc_conn_ac_adjust_npta_by_rnr, to_u8] <;>
    (repeat' split) <;> dsimp only <;> omega

/-! ## Theorems -/

/-- C1: for a, b, c in [0,128), `llc_circular_between a b c` is 1 exactly when
(b - a) mod 128 <= (c - a) mod 128, which is exactly when b lies on the forward
arc of the 128-slot ring from a to c (c included), and is 0 otherwise, although
the differences are taken modulo 256; between(5,5,5) = 1 and
between(127,0,1) = 1. -/
theorem llc_circular_between_forward_arc (a b c : Nat)
    (ha : a < 128) (hb : b < 128) (hc : c < 128) :
    (llc_circular_between a b c = 1 ↔ ((b : Int) - a) % 128 ≤ ((c : Int) - a) % 128) ∧
    (llc_circular_between a b c = 1 ↔ b ∈ forward_arc a c) ∧
    (llc_circular_between a b c = 0 ↔ ¬ (((b : Int) - a) % 128 ≤ ((c : Int) - a) % 128)) ∧
    llc_circular_between 5 5 5 = 1 ∧ llc_circular_between 127 0 1 = 1 := by
  have h1 := circular_between_iff a b c ha hb hc
  refine ⟨h1, ?_, ?_, by decide, by decide⟩
  · rw [mem_forward_arc a b c ha hb hc]; exact h1
  · rw [circular_between_zero_iff, h1]

/-- C1 at the wraparound input a = 127, b = 0, c = 1. -/
theorem llc_circular_between_forward_arc_witness :
    (127 < 128 ∧ 0 < 128 ∧ 1 < 128) ∧
    (llc_circular_between 127 0 1 = 1 ↔ 0 ∈ forward_arc 127 1) :=
  ⟨by decide, (llc_circular_between_forward_arc 127 0 1 (by decide) (by decide) (by decide)).2.1⟩

/-- C2 (the code breaks the window invariant): from k = 2, inside [2,128], one
`llc_conn_ac_dec_tx_win_size` call with three outstanding PDUs stores 2 - 3 into
the 8-bit field, giving k = 255; the floor test `k < 2` then never fires and
the window leaves [2,128].  The same happens from k = 10 after two calls with
nine outstanding PDUs each (k = 2, then k = 249). -/
theorem dec_tx_win_size_wraps_past_floor :
    (2 ≤ ({ k := 2 } : llc_opt).k ∧ ({ k := 2 } : llc_opt).k ≤ 128) ∧
    (llc_conn_ac_dec_tx_win_size { k := 2, pdu_unack_q := [0, 1, 2] }).2.k = 255 ∧
    ¬ ((tx_win_run { k := 2 } [tx_win_call.dec [0, 1, 2]]).k ≤ 128) ∧
    (tx_win_run { k := 10 } [tx_win_call.dec [0, 1, 2, 3, 4, 5, 6, 7, 8],
      tx_win_call.dec [0, 1, 2, 3, 4, 5, 6, 7, 8]]).k = 249 := by
  decide

/-- C3: from 0 <= npta <= 127, any finite sequence of `llc_conn_ac_inc_npta_value`,
`llc_conn_ac_adjust_npta_by_rr` and `llc_conn_ac_adjust_npta_by_rnr` calls, in any
state of the other fields, leaves 0 <= npta <= 127. -/
theorem npta_invariant (llc : llc_opt) (cs : List npta_call)
    (h : 0 ≤ llc.npta ∧ llc.npta ≤ 127) :
    0 ≤ (npta_run llc cs).npta ∧ (npta_run llc cs).npta ≤ 127 := by
  refine ⟨Nat.zero_le _, ?_⟩
  have h2 := h.2
  clear h
  induction cs generalizing llc with
  | nil => exact h2
  | cons c cs ih => exact ih (npta_step llc c) (npta_step_le llc c h2)

/-- C3 on a control block at the ceiling, npta = 127, and three calls. -/
theorem npta_invariant_witness :
    (0 ≤ ({ npta := 127 } : llc_opt).npta ∧ ({ npta := 127 } : llc_opt).npta ≤ 127) ∧
    (0 ≤ (npta_run { npta := 127 } [npta_call.inc_npta_value, npta_call.adjust_npta_by_rr,
        npta_call.adjust_npta_by_rnr]).npta ∧
      (npta_run { npta := 127 } [npta_call.inc_npta_value, npta_call.adjust_npta_by_rr,
        npta_call.adjust_npta_by_rnr]).npta ≤ 127) :=
  ⟨by decide, npta_invariant { npta := 127 } _ (by decide)⟩

/-- C8 as stated fails: with remote_busy_flag = 1 and connect_step = 1 the call
clears connect_step, so the control block is changed. -/
theorem adjust_npta_by_rr_clears_connect_step :
    (llc_conn_ac_adjust_npta_by_rr { remote_busy_flag := 1, connect_step := 1 }).2.connect_step = 0 ∧
    (llc_conn_ac_adjust_npta_by_rr { remote_busy_flag := 1, connect_step := 1 }).2 ≠
      { remote_busy_flag := 1, connect_step := 1 } := by
  decide

/-- C8 (amended): with remote_busy_flag set, `llc_conn_ac_adjust_npta_by_rr`
returns 0, sets connect_step to 0 and leaves every other field of the control
block (npta, inc_cntr, dec_cntr, dec_step and all others) unchanged. -/
theorem adjust_npta_by_rr_remote_busy (llc : llc_opt) (h : llc.remote_busy_flag ≠ 0) :
    llc_conn_ac_adjust_npta_by_rr llc = (0, { llc with connect_step := 0 }) := by
  unfold llc_conn_ac_adjust_npta_by_rr
  rw [if_neg (fun hc => h hc.2)]

/-- C8 (amended) on a busy control block with npta = 5. -/
theorem adjust_npta_by_rr_remote_busy_witness :
    ({ remote_busy_flag := 1, npta := 5, connect_step := 1 } : llc_opt).remote_busy_flag ≠ 0 ∧
    llc_conn_ac_adjust_npta_by_rr { remote_busy_flag := 1, npta := 5, connect_step := 1 } =
      (0, { remote_busy_flag := 1, npta := 5, connect_step := 0 }) :=
  ⟨by decide, adjust_npta_by_rr_remote_busy _ (by decide)⟩

theorem tmod_count (v f : Nat) (hv : v ≤ 127) (hf : f ≤ 127) :
    Int.tmod ((v : Int) - (f : Int) + 129) 128 = ((v : Int) - (f : Int) + 1) % 128 := by
  rw [Int.tmod_eq_emod (by omega) (by omega)]
  omega

theorem next_vr_le (v : Nat) : PDU_GET_NEXT_Vr v ≤ 127 := by
  unfold PDU_GET_NEXT_Vr
  omega

theorem send_ack_if_needed_keep (alloc : Bool) (sk : sock) (skb : sk_buff)
    (h : ¬ (Int.tmod ((sk.llc.vR : Int) - (batch_first sk.llc : Int) + 129) 128 ≥
      (sk.llc.npta : Int))) :
    llc_conn_ac_send_ack_if_needed alloc sk skb =
      (0, { sk with llc := { sk.llc with
        ack_pf := batch_ack_pf sk.llc skb,
        first_pdu_Ns := batch_first sk.llc,
        ack_must_be_send := if sk.llc.ack_must_be_send = 0 then 1 else sk.llc.ack_must_be_send } }) := by
  unfold llc_conn_ac_send_ack_if_needed
  by_cases h0 : sk.llc.ack_must_be_send = 0
  · simp only [h0, if_true, batch_first, batch_ack_pf] at h ⊢
    rw [if_neg h]
  · simp only [h0, if_false, batch_first, batch_ack_pf] at h ⊢
    rw [if_neg h]

theorem send_ack_if_needed_flush (alloc : Bool) (sk : sock) (skb : sk_buff)
    (h : Int.tmod ((sk.llc.vR : Int) - (batch_first sk.llc : Int) + 129) 128 ≥
      (sk.llc.npta : Int)) :
    llc_conn_ac_send_ack_if_needed alloc sk skb =
      (0, { sk with
        tx := sk.tx ++ (if alloc then [rr_rsp_frame sk.llc (batch_ack_pf sk.llc skb)] else []),
        llc := (llc_conn_ac_inc_npta_value { sk.llc with
          first_pdu_Ns := batch_first sk.llc, ack_must_be_send := 0, ack_pf := 0 }).2 }) := by
  unfold llc_conn_ac_send_ack_if_needed
  by_cases h0 : sk.llc.ack_must_be_send = 0
  · simp only [h0, if_true, batch_first, batch_ack_pf] at h ⊢
    rw [if_pos h]
    cases alloc <;> simp [llc_conn_ac_send_rr_rsp_f_set_ackpf, llc_conn_send_pdu, rr_rsp_frame]
  · simp only [h0, if_false, batch_first, batch_ack_pf] at h ⊢
    rw [if_pos h]
    cases alloc <;> simp [llc_conn_ac_send_rr_rsp_f_set_ackpf, llc_conn_send_pdu, rr_rsp_frame]

/-- C4 as stated fails: with no batch open, vR = 0 and npta = 1 the distance
(vR - firstPduNs) mod 128 is 0, below npta, yet the call flushes: it sends the
RR response and clears ack_must_be_send. -/
theorem send_ack_if_needed_flushes_below_distance :
    ¬ (((({ llc := { npta := 1 } } : sock).llc.vR : Int) -
        (batch_first ({ llc := { npta := 1 } } : sock).llc : Int)) % 128 ≥
      (({ llc := { npta := 1 } } : sock).llc.npta : Int)) ∧
    (llc_conn_ac_send_ack_if_needed true { llc := { npta := 1 } } {}).2.llc.ack_must_be_send = 0 ∧
    (llc_conn_ac_send_ack_if_needed true { llc := { npta := 1 } } {}).2.tx =
      [rr_rsp_frame ({ llc := { npta := 1 } } : sock).llc 0] := by
  decide

/-- C4 (amended): for vR and first_pdu_Ns in [0,127], `llc_conn_ac_send_ack_if_needed`
returns 0 and flushes the batch (clears ack_must_be_send and ack_pf and, when the
frame is allocated, hands exactly the RR response with F = the accumulated P bit
and N(R) = vR to transmission) if and only if (vR - firstPduNs + 1) mod 128 >= npta,
the number of PDUs in the batch, firstPduNs being the batch start after the
batch-opening step of the same call; otherwise it sends nothing and leaves the
batch open. -/
theorem send_ack_if_needed_flush_iff (alloc : Bool) (sk : sock) (skb : sk_buff)
    (hvR : sk.llc.vR ≤ 127) (hNs : sk.llc.first_pdu_Ns ≤ 127) :
    (llc_conn_ac_send_ack_if_needed alloc sk skb).1 = 0 ∧
    ((llc_conn_ac_send_ack_if_needed alloc sk skb).2.llc.ack_must_be_send = 0 ↔
      ((sk.llc.vR : Int) - (batch_first sk.llc : Int) + 1) % 128 ≥ (sk.llc.npta : Int)) ∧
    (((sk.llc.vR : Int) - (batch_first sk.llc : Int) + 1) % 128 ≥ (sk.llc.npta : Int) →
      (llc_conn_ac_send_ack_if_needed alloc sk skb).2.tx =
        sk.tx ++ (if alloc then [rr_rsp_frame sk.llc (batch_ack_pf sk.llc skb)] else []) ∧
      (llc_conn_ac_send_ack_if_needed alloc sk skb).2.llc.ack_pf = 0) ∧
    (¬ (((sk.llc.vR : Int) - (batch_first sk.llc : Int) + 1) % 128 ≥ (sk.llc.npta : Int)) →
      (llc_conn_ac_send_ack_if_needed alloc sk skb).2.tx = sk.tx ∧
      (llc_conn_ac_send_ack_if_needed alloc sk skb).2.llc.ack_must_be_send ≠ 0 ∧
      (llc_conn_ac_send_ack_if_needed alloc sk skb).2.llc.first_pdu_Ns = batch_first sk.llc) := by
  have hf : batch_first sk.llc ≤ 127 := by unfold batch_first; split <;> assumption
  have hc := tmod_count sk.llc.vR (batch_first sk.llc) hvR hf
  unfold llc_conn_ac_send_ack_if_needed
  by_cases h0 : sk.llc.ack_must_be_send = 0
  · simp only [h0, if_true, batch_first, batch_ack_pf] at hc ⊢
    rw [hc]
    by_cases hcond : ((sk.llc.vR : Int) - (sk.llc.vR : Int) + 1) % 128 ≥ (sk.llc.npta : Int)
    · simp only [hcond, if_true]
      cases alloc <;>
        simp [llc_conn_ac_send_rr_rsp_f_set_ackpf, llc_conn_ac_inc_npta_value, llc_conn_send_pdu,
          rr_rsp_frame] <;> (repeat' split) <;> simp
    · simp only [hcond, if_false]
      simp
  · simp only [h0, if_false, batch_first, batch_ack_pf] at hc ⊢
    rw [hc]
    by_cases hcond : ((sk.llc.vR : Int) - (sk.llc.first_pdu_Ns : Int) + 1) % 128 ≥ (sk.llc.npta : Int)
    · simp only [hcond, if_true]
      cases alloc <;>
        simp [llc_conn_ac_send_rr_rsp_f_set_ackpf, llc_conn_ac_inc_npta_value, llc_conn_send_pdu,
          rr_rsp_frame] <;> (repeat' split) <;> simp
    · simp only [hcond, if_false]
      simp [h0]

/-- C4 (amended) on a control block with an open batch of two PDUs and npta = 3. -/
theorem send_ack_if_needed_flush_iff_witness :
    (({ llc := { npta := 3, vR := 7, first_pdu_Ns := 5, ack_must_be_send := 1 } } : sock).llc.vR
        ≤ 127 ∧
      ({ llc := { npta := 3, vR := 7, first_pdu_Ns := 5, ack_must_be_send := 1 } }
        : sock).llc.first_pdu_Ns ≤ 127) ∧
    ((llc_conn_ac_send_ack_if_needed true
        { llc := { npta := 3, vR := 7, first_pdu_Ns := 5, ack_must_be_send := 1 } }
        {}).2.llc.ack_must_be_send = 0 ↔
      (((({ llc := { npta := 3, vR := 7, first_pdu_Ns := 5, ack_must_be_send := 1 } }
          : sock).llc.vR : Int) -
        (batch_first ({ llc := { npta := 3, vR := 7, first_pdu_Ns := 5, ack_must_be_send := 1 } }
          : sock).llc : Int) + 1) % 128 ≥
        (({ llc := { npta := 3, vR := 7, first_pdu_Ns := 5, ack_must_be_send := 1 } }
          : sock).llc.npta : Int))) :=
  ⟨by decide, (send_ack_if_needed_flush_iff true _ {} (by decide) (by decide)).2.1⟩

theorem rx_i_pdu_eq (alloc : Bool) (sk : sock) (skb : sk_buff) :
    rx_i_pdu alloc sk skb =
      (llc_conn_ac_send_ack_if_needed alloc
        { sk with llc := { sk.llc with vR := PDU_GET_NEXT_Vr sk.llc.vR } } skb).2 := rfl

theorem count_after_one (v : Nat) :
    Int.tmod ((PDU_GET_NEXT_Vr v : Int) - (PDU_GET_NEXT_Vr v : Int) + 129) 128 = 1 := by
  rw [tmod_count _ _ (next_vr_le v) (next_vr_le v)]
  omega

theorem count_after_two (v : Nat) (hv : v ≤ 127) :
    Int.tmod ((PDU_GET_NEXT_Vr v : Int) - (v : Int) + 129) 128 = 2 := by
  rw [tmod_count _ _ (next_vr_le v) hv]
  unfold PDU_GET_NEXT_Vr to_u8
  omega

theorem count_after_three (v : Nat) (hv : v ≤ 127) :
    Int.tmod ((PDU_GET_NEXT_Vr (PDU_GET_NEXT_Vr v) : Int) - (v : Int) + 129) 128 = 3 := by
  rw [tmod_count _ _ (next_vr_le _) hv]
  unfold PDU_GET_NEXT_Vr to_u8
  omega

theorem rx_first (sk : sock) (skb : sk_buff) (hn : 2 ≤ sk.llc.npta)
    (h0 : sk.llc.ack_must_be_send = 0) (hp : llc_pdu_decode_pf_bit skb.pdu = 0) :
    rx_i_pdu true sk skb =
      { sk with llc := { sk.llc with
          vR := PDU_GET_NEXT_Vr sk.llc.vR, ack_pf := 0,
          first_pdu_Ns := PDU_GET_NEXT_Vr sk.llc.vR, ack_must_be_send := 1 } } := by
  rw [rx_i_pdu_eq, send_ack_if_needed_keep]
  · simp [batch_first, batch_ack_pf, h0, hp]
  · simp only [batch_first, h0, if_true, count_after_one]
    omega

theorem inc_npta_value_keeps (llc : llc_opt) :
    (llc_conn_ac_inc_npta_value llc).2.ack_must_be_send = llc.ack_must_be_send ∧
    (llc_conn_ac_inc_npta_value llc).2.ack_pf = llc.ack_pf ∧
    (llc_conn_ac_inc_npta_value llc).2.vR = llc.vR ∧
    (llc_conn_ac_inc_npta_value llc).2.dev = llc.dev ∧
    (llc_conn_ac_inc_npta_value llc).2.sap = llc.sap ∧
    (llc_conn_ac_inc_npta_value llc).2.daddr = llc.daddr := by
  simp only [llc_conn_ac_inc_npta_value]
  (repeat' split) <;> simp

theorem inc_npta_value_npta_ge (llc : llc_opt) (h : llc.npta ≤ 127) :
    llc.npta ≤ (llc_conn_ac_inc_npta_value llc).2.npta := by
  simp only [llc_conn_ac_inc_npta_value, to_u8]
  (repeat' split) <;> dsimp only <;> omega

theorem rr_rsp_frame_inc_npta_value (llc : llc_opt) (f : Nat) :
    rr_rsp_frame (llc_conn_ac_inc_npta_value llc).2 f = rr_rsp_frame llc f := by
  obtain ⟨_, _, h3, h4, h5, h6⟩ := inc_npta_value_keeps llc
  simp only [rr_rsp_frame, h3, h4, h5, h6]

/-- C5 as stated fails: from the zero control block with npta = 3, three
I-PDUs with P = 0 already make the third call emit the RR response, and the
fourth call emits nothing. -/
theorem third_i_pdu_flushes_batch :
    llc_pdu_decode_pf_bit ({} : sk_buff).pdu = 0 ∧
    (rx_i_pdus true { llc := { npta := 3 } } [{}, {}]).tx = [] ∧
    (rx_i_pdus true { llc := { npta := 3 } } [{}, {}, {}]).tx ≠ [] ∧
    (rx_i_pdus true { llc := { npta := 3 } } [{}, {}, {}, {}]).tx =
      (rx_i_pdus true { llc := { npta := 3 } } [{}, {}, {}]).tx := by
  decide

/-- C5 (amended): with npta = 3, no batch open and frame allocation succeeding,
of four successive inbound I-PDUs with P = 0, each processed as
`llc_conn_ac_inc_vr_by_1` then `llc_conn_ac_send_ack_if_needed`, the first two
calls emit no PDU and leave the batch open, the third call emits an RR response
with F = 0 and N(R) = vR and resets the batch (ack_must_be_send = 0, ack_pf = 0),
and the fourth call emits no PDU and opens a new batch. -/
theorem rx_i_pdus_flush_on_third (sk : sock) (p1 p2 p3 p4 : sk_buff)
    (hn : sk.llc.npta = 3) (h0 : sk.llc.ack_must_be_send = 0)
    (h1 : llc_pdu_decode_pf_bit p1.pdu = 0) (h2 : llc_pdu_decode_pf_bit p2.pdu = 0)
    (h3 : llc_pdu_decode_pf_bit p3.pdu = 0) (h4 : llc_pdu_decode_pf_bit p4.pdu = 0) :
    ((rx_i_pdus true sk [p1]).tx = sk.tx ∧ (rx_i_pdus true sk [p1]).llc.ack_must_be_send ≠ 0) ∧
    ((rx_i_pdus true sk [p1, p2]).tx = sk.tx ∧
      (rx_i_pdus true sk [p1, p2]).llc.ack_must_be_send ≠ 0) ∧
    ((rx_i_pdus true sk [p1, p2, p3]).tx =
        sk.tx ++ [rr_rsp_frame (rx_i_pdus true sk [p1, p2, p3]).llc 0] ∧
      (rx_i_pdus true sk [p1, p2, p3]).llc.ack_must_be_send = 0 ∧
      (rx_i_pdus true sk [p1, p2, p3]).llc.ack_pf = 0) ∧
    ((rx_i_pdus true sk [p1, p2, p3, p4]).tx = (rx_i_pdus true sk [p1, p2, p3]).tx ∧
      (rx_i_pdus true sk [p1, p2, p3, p4]).llc.ack_must_be_send ≠ 0) := by
  have e1 := rx_first sk p1 (by omega) h0 h1
  have e2 : rx_i_pdu true (rx_i_pdu true sk p1) p2 =
      { sk with llc := { sk.llc with
          vR := PDU_GET_NEXT_Vr (PDU_GET_NEXT_Vr sk.llc.vR), ack_pf := 0,
          first_pdu_Ns := PDU_GET_NEXT_Vr sk.llc.vR, ack_must_be_send := 1 } } := by
    rw [e1, rx_i_pdu_eq, send_ack_if_needed_keep]
    · simp [batch_first, batch_ack_pf, h2]
    · simp only [batch_first, hn]
      simp only [one_ne_zero, if_false]
      rw [count_after_two _ (next_vr_le _)]
      omega
  have e3 : rx_i_pdu true (rx_i_pdu true (rx_i_pdu true sk p1) p2) p3 =
      { sk with
        tx := sk.tx ++ [rr_rsp_frame { sk.llc with
          vR := PDU_GET_NEXT_Vr (PDU_GET_NEXT_Vr (PDU_GET_NEXT_Vr sk.llc.vR)) } 0],
        llc := (llc_conn_ac_inc_npta_value { sk.llc with
          vR := PDU_GET_NEXT_Vr (PDU_GET_NEXT_Vr (PDU_GET_NEXT_Vr sk.llc.vR)), ack_pf := 0,
          first_pdu_Ns := PDU_GET_NEXT_Vr sk.llc.vR, ack_must_be_send := 0 }).2 } := by
    rw [e2, rx_i_pdu_eq, send_ack_if_needed_flush]
    · simp [batch_first, batch_ack_pf, h3, rr_rsp_frame]
    · simp only [batch_first, hn]
      simp only [one_ne_zero, if_false]
      rw [count_after_three _ (next_vr_le _)]
      omega
  have k3 := inc_npta_value_keeps { sk.llc with
          vR := PDU_GET_NEXT_Vr (PDU_GET_NEXT_Vr (PDU_GET_NEXT_Vr sk.llc.vR)), ack_pf := 0,
          first_pdu_Ns := PDU_GET_NEXT_Vr sk.llc.vR, ack_must_be_send := 0 }
  have n3 := inc_npta_value_npta_ge { sk.llc with
          vR := PDU_GET_NEXT_Vr (PDU_GET_NEXT_Vr (PDU_GET_NEXT_Vr sk.llc.vR)), ack_pf := 0,
          first_pdu_Ns := PDU_GET_NEXT_Vr sk.llc.vR, ack_must_be_send := 0 } (by simp [hn])
  have e4 := rx_first (rx_i_pdu true (rx_i_pdu true (rx_i_pdu true sk p1) p2) p3) p4
    (by rw [e3]; exact le_trans (show 2 ≤ sk.llc.npta by omega) n3)
    (by rw [e3]; exact k3.1) h4
  simp only [rx_i_pdus, List.foldl]
  refine ⟨⟨?_, ?_⟩, ⟨?_, ?_⟩, ⟨?_, ?_, ?_⟩, ?_, ?_⟩
  · rw [e1]
  · rw [e1]; simp
  · rw [e2]
  · rw [e2]; simp
  · rw [e3]
    simp only [rr_rsp_frame_inc_npta_value]
    simp [rr_rsp_frame]
  · rw [e3]; exact k3.1
  · rw [e3]; exact k3.2.1
  · rw [e4]
  · rw [e4]; simp

/-- C5 (amended) on the zero control block with npta = 3 and four empty I-PDUs. -/
theorem rx_i_pdus_flush_on_third_witness :
    (({ llc := { npta := 3 } } : sock).llc.npta = 3 ∧
      ({ llc := { npta := 3 } } : sock).llc.ack_must_be_send = 0 ∧
      llc_pdu_decode_pf_bit ({} : sk_buff).pdu = 0) ∧
    ((rx_i_pdus true { llc := { npta := 3 } } [{}, {}, {}]).tx =
        [] ++ [rr_rsp_frame (rx_i_pdus true { llc := { npta := 3 } } [{}, {}, {}]).llc 0] ∧
      (rx_i_pdus true { llc := { npta := 3 } } [{}, {}, {}]).llc.ack_must_be_send = 0 ∧
      (rx_i_pdus true { llc := { npta := 3 } } [{}, {}, {}]).llc.ack_pf = 0) :=
  ⟨by decide,
    (rx_i_pdus_flush_on_third { llc := { npta := 3 } } {} {} {} {} (by decide) (by decide)
      (by decide) (by decide) (by decide) (by decide)).2.2.1⟩

theorem remove_acked_pdus_shape (llc : llc_opt) (nr : Nat) :
    ∃ n : Nat, llc_conn_remove_acked_pdus llc nr =
      ((n : Int), to_u16 (skb_queue_len (llc.pdu_unack_q.drop n)),
        { llc with pdu_unack_q := llc.pdu_unack_q.drop n }) := by
  unfold llc_conn_remove_acked_pdus
  split
  · next h =>
    refine ⟨0, ?_⟩
    simp [h, to_u16, skb_queue_len]
    cases llc
    simp_all
  · next ns rest h =>
    refine ⟨min ((nr + 1 + 128 - ns % 128) % 128) (ns :: rest).length, ?_⟩
    simp only [h]

theorem to_u16_queue_ne_zero (q : List Nat) (n : Nat) (hq : q.length < 65536) :
    to_u16 (skb_queue_len (q.drop n)) ≠ 0 ↔ q.drop n ≠ [] := by
  have h1 : (q.drop n).length ≤ q.length := by simp [List.length_drop]
  unfold to_u16 skb_queue_len
  rw [← List.length_pos, Nat.pos_iff_ne_zero]
  omega

theorem upd_nr_received_acked_general (bits jiffies HZ : Nat) (sk : sock) (skb : sk_buff)
    (hq : sk.llc.pdu_unack_q.length < 65536) :
    (llc_conn_ac_upd_nr_received bits jiffies HZ sk skb).1 = 0 ∧
    (llc_conn_ac_upd_nr_received bits jiffies HZ sk skb).2.1.llc.last_nr = PDU_SUPV_GET_Nr skb.pdu ∧
    (llc_conn_ac_upd_nr_received bits jiffies HZ sk skb).2.1.llc.pdu_unack_q =
      (llc_conn_remove_acked_pdus { sk.llc with last_nr := PDU_SUPV_GET_Nr skb.pdu }
        (PDU_SUPV_GET_Nr skb.pdu)).2.2.pdu_unack_q ∧
    ((llc_conn_remove_acked_pdus { sk.llc with last_nr := PDU_SUPV_GET_Nr skb.pdu }
        (PDU_SUPV_GET_Nr skb.pdu)).1 > 0 →
      (llc_conn_ac_upd_nr_received bits jiffies HZ sk skb).2.1.llc.retry_count = 0 ∧
      ((llc_conn_ac_upd_nr_received bits jiffies HZ sk skb).2.1.llc.ack_timer.running = 1 ↔
        (llc_conn_ac_upd_nr_received bits jiffies HZ sk skb).2.1.llc.pdu_unack_q ≠ []) ∧
      ((llc_conn_ac_upd_nr_received bits jiffies HZ sk skb).2.1.llc.ack_timer.running = 0 ↔
        (llc_conn_ac_upd_nr_received bits jiffies HZ sk skb).2.1.llc.pdu_unack_q = []) ∧
      ((llc_conn_ac_upd_nr_received bits jiffies HZ sk skb).2.1.llc.ack_timer.timer.pending = true ↔
        (llc_conn_ac_upd_nr_received bits jiffies HZ sk skb).2.1.llc.pdu_unack_q ≠ [])) := by
  obtain ⟨n, hrm⟩ := remove_acked_pdus_shape
    { sk.llc with last_nr := PDU_SUPV_GET_Nr skb.pdu } (PDU_SUPV_GET_Nr skb.pdu)
  have hu := to_u16_queue_ne_zero sk.llc.pdu_unack_q n hq
  simp only [llc_conn_ac_upd_nr_received, hrm]
  by_cases hu0 : to_u16 (skb_queue_len (sk.llc.pdu_unack_q.drop n)) = 0
  · have hd : sk.llc.pdu_unack_q.drop n = [] := by
      by_contra hne
      exact (hu.mpr hne) hu0
    refine ⟨?_, ?_, ?_, ?_⟩
    · (repeat' split) <;> rfl
    · (repeat' split) <;> rfl
    · (repeat' split) <;> rfl
    · intro hpos
      have hz : to_u16 ((skb_queue_len ([] : List Nat) : Nat) : Int) = 0 := by decide
      simp [hpos, hd, hz, del_timer]
      (repeat' split) <;> simp
  · have hd : sk.llc.pdu_unack_q.drop n ≠ [] := hu.mp hu0
    refine ⟨?_, ?_, ?_, ?_⟩
    · (repeat' split) <;> rfl
    · (repeat' split) <;> rfl
    · (repeat' split) <;> rfl
    · intro hpos
      simp [hpos, hu0, hd, add_timer]
      (repeat' split) <;> simp [hd]

/-- C6: for every control block (its queue length fitting the 16-bit count)
and received PDU, `llc_conn_ac_upd_nr_received` returns 0, sets last_nr to the
N(R) of the PDU, leaves the queue as `llc_conn_remove_acked_pdus` left it and,
whenever that removal removed at least one entry, resets retry_count to 0 and
leaves the ack timer running (and armed) if and only if entries remain; with
queue 10,11,12,13 and N(R) = 12 the entries 10,11,12 are removed, 13 stays,
retry_count is 0 and the ack timer runs. -/
theorem upd_nr_received_progress (bits jiffies HZ : Nat) (sk : sock) (skb : sk_buff)
    (hq : sk.llc.pdu_unack_q.length < 65536) :
    (llc_conn_ac_upd_nr_received bits jiffies HZ sk skb).1 = 0 ∧
    (llc_conn_ac_upd_nr_received bits jiffies HZ sk skb).2.1.llc.last_nr = PDU_SUPV_GET_Nr skb.pdu ∧
    (llc_conn_ac_upd_nr_received bits jiffies HZ sk skb).2.1.llc.pdu_unack_q =
      (llc_conn_remove_acked_pdus { sk.llc with last_nr := PDU_SUPV_GET_Nr skb.pdu }
        (PDU_SUPV_GET_Nr skb.pdu)).2.2.pdu_unack_q ∧
    ((llc_conn_remove_acked_pdus { sk.llc with last_nr := PDU_SUPV_GET_Nr skb.pdu }
        (PDU_SUPV_GET_Nr skb.pdu)).1 > 0 →
      (llc_conn_ac_upd_nr_received bits jiffies HZ sk skb).2.1.llc.retry_count = 0 ∧
      ((llc_conn_ac_upd_nr_received bits jiffies HZ sk skb).2.1.llc.ack_timer.running = 1 ↔
        (llc_conn_ac_upd_nr_received bits jiffies HZ sk skb).2.1.llc.pdu_unack_q ≠ []) ∧
      ((llc_conn_ac_upd_nr_received bits jiffies HZ sk skb).2.1.llc.ack_timer.running = 0 ↔
        (llc_conn_ac_upd_nr_received bits jiffies HZ sk skb).2.1.llc.pdu_unack_q = []) ∧
      ((llc_conn_ac_upd_nr_received bits jiffies HZ sk skb).2.1.llc.ack_timer.timer.pending = true ↔
        (llc_conn_ac_upd_nr_received bits jiffies HZ sk skb).2.1.llc.pdu_unack_q ≠ [])) ∧
    (PDU_SUPV_GET_Nr ({ pdu := { ctrl_2 := 24 } } : sk_buff).pdu = 12 ∧
      (llc_conn_ac_upd_nr_received 64 1000 100
        { llc := { pdu_unack_q := [10, 11, 12, 13], retry_count := 4 } }
        { pdu := { ctrl_2 := 24 } }).2.1.llc.pdu_unack_q = [13] ∧
      (llc_conn_ac_upd_nr_received 64 1000 100
        { llc := { pdu_unack_q := [10, 11, 12, 13], retry_count := 4 } }
        { pdu := { ctrl_2 := 24 } }).2.1.llc.retry_count = 0 ∧
      (llc_conn_ac_upd_nr_received 64 1000 100
        { llc := { pdu_unack_q := [10, 11, 12, 13], retry_count := 4 } }
        { pdu := { ctrl_2 := 24 } }).2.1.llc.ack_timer.running = 1) := by
  have h := upd_nr_received_acked_general bits jiffies HZ sk skb hq
  exact ⟨h.1, h.2.1, h.2.2.1, h.2.2.2, by decide⟩

/-- C6 on the queue 10,11,12,13 with N(R) = 12 and retry_count = 4. -/
theorem upd_nr_received_progress_witness :
    ({ llc := { pdu_unack_q := [10, 11, 12, 13], retry_count := 4 } } : sock).llc.pdu_unack_q.length
      < 65536 ∧
    (llc_conn_ac_upd_nr_received 64 1000 100
      { llc := { pdu_unack_q := [10, 11, 12, 13], retry_count := 4 } }
      { pdu := { ctrl_2 := 24 } }).2.1.llc.last_nr =
        PDU_SUPV_GET_Nr ({ pdu := { ctrl_2 := 24 } } : sk_buff).pdu :=
  ⟨by decide, (upd_nr_received_progress 64 1000 100 _ _ (by decide)).2.1⟩

theorem remove_acked_pdus_none (llc : llc_opt) (nr : Nat)
    (h : (llc_conn_remove_acked_pdus llc nr).1 ≤ 0) :
    (llc_conn_remove_acked_pdus llc nr).2.2 = llc := by
  unfold llc_conn_remove_acked_pdus at h ⊢
  split at h
  · next hq => simp [hq]
  · next ns rest hq =>
    simp only [hq] at h ⊢
    have h0 : min ((nr + 1 + 128 - ns % 128) % 128) (ns :: rest).length = 0 := by omega
    rw [h0]
    cases llc
    simp_all

/-- C7: in `llc_conn_ac_upd_nr_received`, when the removal removes no entry and
the device is not a loopback: with failed_data_req set and the P/F bit of the
PDU equal to 1 the data-confirm is attached to the event (`ev->flag` becomes
LLC_DATA_PRIM + 1 and `ev->cfm_prim` the marker `(void *)1`, nothing else in
the event changes) and failed_data_req is cleared; with failed_data_req set and
the P/F bit not 1 the event is untouched and failed_data_req stays; so with
failed_data_req set, failed_data_req is cleared if and only if the P/F bit is
1, and an event that came without the confirm marker (without the confirm
flag) carries it afterwards if and only if the P/F bit is 1; with
failed_data_req clear nothing but last_nr changes and the event is untouched;
in the whole branch retry_count and the ack timer are unchanged. -/
theorem upd_nr_received_no_progress (bits jiffies HZ : Nat) (sk : sock) (skb : sk_buff)
    (hnone : (llc_conn_remove_acked_pdus { sk.llc with last_nr := PDU_SUPV_GET_Nr skb.pdu }
        (PDU_SUPV_GET_Nr skb.pdu)).1 ≤ 0)
    (hdev : sk.llc.dev.flags &&& IFF_LOOPBACK = 0) :
    (sk.llc.failed_data_req ≠ 0 → llc_pdu_decode_pf_bit skb.pdu = 1 →
      llc_conn_ac_upd_nr_received bits jiffies HZ sk skb =
        (0, { sk with llc := { sk.llc with
            last_nr := PDU_SUPV_GET_Nr skb.pdu, failed_data_req := 0 } },
          { skb with ev := { skb.ev with
            flag := LLC_DATA_PRIM + 1, cfm_prim := prim_ptr.one } })) ∧
    (sk.llc.failed_data_req ≠ 0 → llc_pdu_decode_pf_bit skb.pdu ≠ 1 →
      llc_conn_ac_upd_nr_received bits jiffies HZ sk skb =
        (0, { sk with llc := { sk.llc with last_nr := PDU_SUPV_GET_Nr skb.pdu } }, skb)) ∧
    (sk.llc.failed_data_req ≠ 0 →
      ((llc_conn_ac_upd_nr_received bits jiffies HZ sk skb).2.1.llc.failed_data_req = 0 ↔
        llc_pdu_decode_pf_bit skb.pdu = 1)) ∧
    (sk.llc.failed_data_req ≠ 0 → skb.ev.cfm_prim ≠ prim_ptr.one →
      ((llc_conn_ac_upd_nr_received bits jiffies HZ sk skb).2.2.ev.cfm_prim = prim_ptr.one ↔
        llc_pdu_decode_pf_bit skb.pdu = 1)) ∧
    (sk.llc.failed_data_req ≠ 0 → skb.ev.flag ≠ LLC_DATA_PRIM + 1 →
      ((llc_conn_ac_upd_nr_received bits jiffies HZ sk skb).2.2.ev.flag = LLC_DATA_PRIM + 1 ↔
        llc_pdu_decode_pf_bit skb.pdu = 1)) ∧
    (sk.llc.failed_data_req = 0 →
      llc_conn_ac_upd_nr_received bits jiffies HZ sk skb =
        (0, { sk with llc := { sk.llc with last_nr := PDU_SUPV_GET_Nr skb.pdu } }, skb)) ∧
    (llc_conn_ac_upd_nr_received bits jiffies HZ sk skb).2.1.llc.retry_count =
      sk.llc.retry_count ∧
    (llc_conn_ac_upd_nr_received bits jiffies HZ sk skb).2.1.llc.ack_timer = sk.llc.ack_timer := by
  have hrm := remove_acked_pdus_none _ _ hnone
  have hcond : ¬ ((llc_conn_remove_acked_pdus { sk.llc with last_nr := PDU_SUPV_GET_Nr skb.pdu }
        (PDU_SUPV_GET_Nr skb.pdu)).1 > 0 ∨ (sk.llc.dev.flags &&& IFF_LOOPBACK) ≠ 0) := by
    rintro (h | h)
    · omega
    · exact h hdev
  have e1 : sk.llc.failed_data_req ≠ 0 → llc_pdu_decode_pf_bit skb.pdu = 1 →
      llc_conn_ac_upd_nr_received bits jiffies HZ sk skb =
        (0, { sk with llc := { sk.llc with
            last_nr := PDU_SUPV_GET_Nr skb.pdu, failed_data_req := 0 } },
          { skb with ev := { skb.ev with
            flag := LLC_DATA_PRIM + 1, cfm_prim := prim_ptr.one } }) := by
    intro hf hp
    simp only [llc_conn_ac_upd_nr_received, hrm, llc_conn_ac_data_confirm]
    rw [if_neg hcond, if_pos hf, if_pos hp]
  have e2 : sk.llc.failed_data_req ≠ 0 → llc_pdu_decode_pf_bit skb.pdu ≠ 1 →
      llc_conn_ac_upd_nr_received bits jiffies HZ sk skb =
        (0, { sk with llc := { sk.llc with last_nr := PDU_SUPV_GET_Nr skb.pdu } }, skb) := by
    intro hf hp
    simp only [llc_conn_ac_upd_nr_received, hrm]
    rw [if_neg hcond, if_pos hf, if_neg hp]
  refine ⟨e1, e2, ?_, ?_, ?_, ?_, ?_, ?_⟩
  · intro hf
    by_cases hp : llc_pdu_decode_pf_bit skb.pdu = 1
    · rw [e1 hf hp]; exact ⟨fun _ => hp, fun _ => rfl⟩
    · rw [e2 hf hp]; exact ⟨fun h => absurd h hf, fun h => absurd h hp⟩
  · intro hf hc
    by_cases hp : llc_pdu_decode_pf_bit skb.pdu = 1
    · rw [e1 hf hp]; exact ⟨fun _ => hp, fun _ => rfl⟩
    · rw [e2 hf hp]; exact ⟨fun h => absurd h hc, fun h => absurd h hp⟩
  · intro hf hc
    by_cases hp : llc_pdu_decode_pf_bit skb.pdu = 1
    · rw [e1 hf hp]; exact ⟨fun _ => hp, fun _ => rfl⟩
    · rw [e2 hf hp]; exact ⟨fun h => absurd h hc, fun h => absurd h hp⟩
  · intro hf
    simp only [llc_conn_ac_upd_nr_received, hrm]
    rw [if_neg hcond, if_neg (by simpa using hf)]
  · simp only [llc_conn_ac_upd_nr_received, hrm]
    rw [if_neg hcond]
    (repeat' split) <;> rfl
  · simp only [llc_conn_ac_upd_nr_received, hrm]
    rw [if_neg hcond]
    (repeat' split) <;> rfl

/-- C7 on a control block with an empty queue, a failed send and a PDU with
F = 1: the event leaves with the confirm marker. -/
theorem upd_nr_received_no_progress_witness :
    ((llc_conn_remove_acked_pdus
        { ({ llc := { failed_data_req := 1, retry_count := 3 } } : sock).llc with
          last_nr := PDU_SUPV_GET_Nr ({ pdu := { ctrl_1 := 1, ctrl_2 := 1 } } : sk_buff).pdu }
        (PDU_SUPV_GET_Nr ({ pdu := { ctrl_1 := 1, ctrl_2 := 1 } } : sk_buff).pdu)).1 ≤ 0 ∧
      ({ llc := { failed_data_req := 1, retry_count := 3 } } : sock).llc.dev.flags &&&
        IFF_LOOPBACK = 0) ∧
    (llc_conn_ac_upd_nr_received 64 1000 100 { llc := { failed_data_req := 1, retry_count := 3 } }
        { pdu := { ctrl_1 := 1, ctrl_2 := 1 } }).2.2.ev.cfm_prim = prim_ptr.one :=
  ⟨by decide, ((upd_nr_received_no_progress 64 1000 100
      { llc := { failed_data_req := 1, retry_count := 3 } }
      { pdu := { ctrl_1 := 1, ctrl_2 := 1 } } (by decide) (by decide)).2.2.2.1
    (by decide) (by decide)).mpr (by decide)⟩

theorem event_types_distinct :
    LLC_CONN_EV_TYPE_PDU ≠ LLC_CONN_EV_TYPE_ACK_TMR ∧
    LLC_CONN_EV_TYPE_PDU ≠ LLC_CONN_EV_TYPE_P_TMR ∧
    LLC_CONN_EV_TYPE_PDU ≠ LLC_CONN_EV_TYPE_REJ_TMR ∧
    LLC_CONN_EV_TYPE_PDU ≠ LLC_CONN_EV_TYPE_BUSY_TMR := by decide

/-- C9: `llc_conn_ac_disc_ind` returns 0 and attaches a disconnect-indication
primitive (prim = LLC_DISC_PRIM, ev->flag = 1) in exactly three cases, each with
its own reason: a PDU event carrying a U-format DM response, a PDU event
carrying a U-format DISC command, and an ack-timer event; the three reasons are
pairwise distinct; for every other event it returns 1 and leaves connection and
event unchanged. -/
theorem disc_ind_cases (sk : sock) (skb : sk_buff) :
    (is_u_rsp_event skb LLC_2_PDU_RSP_DM →
      carries_ind (llc_conn_ac_disc_ind sk skb) LLC_DISC_PRIM
        (llc_u_prim_data.disc LLC_DISC_REASON_RX_DM_RSP_PDU sk.llc.link)) ∧
    (is_u_cmd_event skb LLC_2_PDU_CMD_DISC →
      carries_ind (llc_conn_ac_disc_ind sk skb) LLC_DISC_PRIM
        (llc_u_prim_data.disc LLC_DISC_REASON_RX_DISC_CMD_PDU sk.llc.link)) ∧
    (skb.ev.type = LLC_CONN_EV_TYPE_ACK_TMR →
      carries_ind (llc_conn_ac_disc_ind sk skb) LLC_DISC_PRIM
        (llc_u_prim_data.disc LLC_DISC_REASON_ACK_TMR_EXP sk.llc.link)) ∧
    (LLC_DISC_REASON_RX_DM_RSP_PDU ≠ LLC_DISC_REASON_RX_DISC_CMD_PDU ∧
      LLC_DISC_REASON_RX_DM_RSP_PDU ≠ LLC_DISC_REASON_ACK_TMR_EXP ∧
      LLC_DISC_REASON_RX_DISC_CMD_PDU ≠ LLC_DISC_REASON_ACK_TMR_EXP) ∧
    (¬ is_u_rsp_event skb LLC_2_PDU_RSP_DM → ¬ is_u_cmd_event skb LLC_2_PDU_CMD_DISC →
      skb.ev.type ≠ LLC_CONN_EV_TYPE_ACK_TMR →
      llc_conn_ac_disc_ind sk skb = (1, sk, skb)) ∧
    ((llc_conn_ac_disc_ind sk skb).1 = 0 ↔
      (is_u_rsp_event skb LLC_2_PDU_RSP_DM ∨ is_u_cmd_event skb LLC_2_PDU_CMD_DISC ∨
        skb.ev.type = LLC_CONN_EV_TYPE_ACK_TMR)) := by
  have hd := event_types_distinct.1
  have hd2 : LLC_CONN_EV_TYPE_ACK_TMR ≠ LLC_CONN_EV_TYPE_PDU := by decide
  have k1 : LLC_2_PDU_RSP_DM ≠ LLC_2_PDU_CMD_DISC := by decide
  have k2 : LLC_2_PDU_CMD_DISC ≠ LLC_2_PDU_RSP_DM := by decide
  have r1 : LLC_DISC_REASON_RX_DM_RSP_PDU ≠ LLC_DISC_REASON_RX_DISC_CMD_PDU := by decide
  have r2 : LLC_DISC_REASON_RX_DM_RSP_PDU ≠ LLC_DISC_REASON_ACK_TMR_EXP := by decide
  have r3 : LLC_DISC_REASON_RX_DISC_CMD_PDU ≠ LLC_DISC_REASON_ACK_TMR_EXP := by decide
  simp only [is_u_rsp_event, is_u_cmd_event, carries_ind, llc_conn_ac_disc_ind, attach_ind_prim,
    LLC_PDU_IS_RSP, LLC_PDU_IS_CMD, LLC_PDU_TYPE_IS_U, LLC_U_PDU_RSP, LLC_U_PDU_CMD]
  by_cases ht : skb.ev.type = LLC_CONN_EV_TYPE_PDU
  · have ht2 : skb.ev.type ≠ LLC_CONN_EV_TYPE_ACK_TMR := by rw [ht]; exact hd
    by_cases hr : pdu_is_rsp skb.pdu = true <;> by_cases hu : pdu_is_u skb.pdu = true <;>
      by_cases hc1 : skb.pdu.ctrl_1 &&& LLC_U_PDU_CMD_MASK = LLC_2_PDU_RSP_DM <;>
      by_cases hc2 : skb.pdu.ctrl_1 &&& LLC_U_PDU_CMD_MASK = LLC_2_PDU_CMD_DISC <;>
      simp [ht, ht2, hr, hu, hc1, hc2, hd, hd2, k1, k2, r1, r2, r3]
  · by_cases ha : skb.ev.type = LLC_CONN_EV_TYPE_ACK_TMR
    · simp [ht, ha, hd, hd2, k1, k2, r1, r2, r3]
    · simp [ht, ha, hd, hd2, k1, k2, r1, r2, r3]

/-- C10: `llc_conn_ac_rst_ind` returns 0 and attaches a reset-indication
primitive exactly when the event is a PDU carrying a U-format FRMR response
(reason LLC_RESET_REASON_LOCAL), a PDU carrying a U-format SABME command
(reason LLC_RESET_REASON_REMOTE), or one of the four timer events with
retry_count > n2 (reason LLC_RESET_REASON_LOCAL); in every other case, a timer
event with retry_count <= n2 and any other event type included, it returns 1
and leaves connection and event unchanged. -/
theorem rst_ind_cases (sk : sock) (skb : sk_buff) :
    (is_u_rsp_event skb LLC_2_PDU_RSP_FRMR →
      carries_ind (llc_conn_ac_rst_ind sk skb) LLC_RESET_PRIM
        (llc_u_prim_data.res LLC_RESET_REASON_LOCAL sk.llc.link)) ∧
    (is_u_cmd_event skb LLC_2_PDU_CMD_SABME →
      carries_ind (llc_conn_ac_rst_ind sk skb) LLC_RESET_PRIM
        (llc_u_prim_data.res LLC_RESET_REASON_REMOTE sk.llc.link)) ∧
    (is_tmr_event skb → sk.llc.retry_count > sk.llc.n2 →
      carries_ind (llc_conn_ac_rst_ind sk skb) LLC_RESET_PRIM
        (llc_u_prim_data.res LLC_RESET_REASON_LOCAL sk.llc.link)) ∧
    (is_tmr_event skb → sk.llc.retry_count ≤ sk.llc.n2 →
      llc_conn_ac_rst_ind sk skb = (1, sk, skb)) ∧
    (¬ is_u_rsp_event skb LLC_2_PDU_RSP_FRMR → ¬ is_u_cmd_event skb LLC_2_PDU_CMD_SABME →
      ¬ is_tmr_event skb → llc_conn_ac_rst_ind sk skb = (1, sk, skb)) ∧
    ((llc_conn_ac_rst_ind sk skb).1 = 0 ↔
      (is_u_rsp_event skb LLC_2_PDU_RSP_FRMR ∨ is_u_cmd_event skb LLC_2_PDU_CMD_SABME ∨
        (is_tmr_event skb ∧ sk.llc.retry_count > sk.llc.n2))) ∧
    ((llc_conn_ac_rst_ind sk skb).1 ≠ 0 → llc_conn_ac_rst_ind sk skb = (1, sk, skb)) := by
  obtain ⟨d1, d2, d3, d4⟩ := event_types_distinct
  have k1 : LLC_2_PDU_RSP_FRMR ≠ LLC_2_PDU_CMD_SABME := by decide
  have k2 : LLC_2_PDU_CMD_SABME ≠ LLC_2_PDU_RSP_FRMR := by decide
  simp only [is_u_rsp_event, is_u_cmd_event, is_tmr_event, carries_ind, llc_conn_ac_rst_ind,
    attach_ind_prim, LLC_PDU_IS_RSP, LLC_PDU_IS_CMD, LLC_PDU_TYPE_IS_U, LLC_U_PDU_RSP,
    LLC_U_PDU_CMD]
  by_cases ht : skb.ev.type = LLC_CONN_EV_TYPE_PDU
  · by_cases hr : pdu_is_rsp skb.pdu = true <;> by_cases hu : pdu_is_u skb.pdu = true <;>
      by_cases hc1 : skb.pdu.ctrl_1 &&& LLC_U_PDU_CMD_MASK = LLC_2_PDU_RSP_FRMR <;>
      by_cases hc2 : skb.pdu.ctrl_1 &&& LLC_U_PDU_CMD_MASK = LLC_2_PDU_CMD_SABME <;>
      simp [ht, hr, hu, hc1, hc2, d1, d2, d3, d4, k1, k2]
  · by_cases hm : skb.ev.type = LLC_CONN_EV_TYPE_ACK_TMR ∨
        skb.ev.type = LLC_CONN_EV_TYPE_P_TMR ∨ skb.ev.type = LLC_CONN_EV_TYPE_REJ_TMR ∨
        skb.ev.type = LLC_CONN_EV_TYPE_BUSY_TMR
    · by_cases hn : sk.llc.retry_count > sk.llc.n2
      · simp [ht, hm, hn]
      · simp [ht, hm, hn]
    · simp [ht, hm]

/-- C11: for every timer expiry event handed to `llc_process_tmr_ev`: in state
out-of-service the event is discarded (released, neither dispatched nor
queued); otherwise, with the connection lock held (`lock.users` non-zero) it is
appended to the backlog queue and not dispatched; otherwise it is dispatched to
the state machine and not queued; exactly one of the three outcomes happens. -/
theorem process_tmr_ev_outcomes (sk : sock) (skb : sk_buff) :
    (sk.llc.state = LLC_CONN_OUT_OF_SVC → tmr_ev_discarded sk skb) ∧
    (sk.llc.state ≠ LLC_CONN_OUT_OF_SVC → sk.lock_users ≠ 0 → tmr_ev_queued sk skb) ∧
    (sk.llc.state ≠ LLC_CONN_OUT_OF_SVC → sk.lock_users = 0 → tmr_ev_dispatched sk skb) ∧
    ((tmr_ev_discarded sk skb ∧ ¬ tmr_ev_queued sk skb ∧ ¬ tmr_ev_dispatched sk skb) ∨
      (¬ tmr_ev_discarded sk skb ∧ tmr_ev_queued sk skb ∧ ¬ tmr_ev_dispatched sk skb) ∨
      (¬ tmr_ev_discarded sk skb ∧ ¬ tmr_ev_queued sk skb ∧ tmr_ev_dispatched sk skb)) := by
  unfold tmr_ev_discarded tmr_ev_queued tmr_ev_dispatched llc_process_tmr_ev
  by_cases hs : sk.llc.state = LLC_CONN_OUT_OF_SVC
  · simp [hs]
  · by_cases hl : sk.lock_users = 0
    · simp [hs, hl]
    · simp [hs, hl]

theorem inc_vs_times_vS (n : Nat) (llc : llc_opt) (h : llc.vS ≤ 127) :
    inc_vs_times n llc = { llc with vS := (llc.vS + n) % 128 } := by
  induction n with
  | zero =>
    simp only [inc_vs_times, Function.iterate_zero, id_eq, Nat.add_zero]
    rw [Nat.mod_eq_of_lt (by omega)]
  | succ n ih =>
    simp only [inc_vs_times] at ih ⊢
    rw [Function.iterate_succ_apply', ih]
    simp only [llc_conn_ac_inc_vs_by_1, to_u8]
    congr 1
    rw [Int.tmod_eq_emod (by omega) (by omega)]
    omega

/-- C12: for every vS in [0,127], 128 applications of `llc_conn_ac_inc_vs_by_1`
bring vS (and the whole control block) back, no smaller positive number of
applications does, and one application yields (vS + 1) mod 128 and returns 0. -/
theorem inc_vs_by_1_period (llc : llc_opt) (h : llc.vS ≤ 127) :
    (inc_vs_times 128 llc).vS = llc.vS ∧ inc_vs_times 128 llc = llc ∧
    (∀ n, 0 < n → n < 128 → (inc_vs_times n llc).vS ≠ llc.vS) ∧
    (llc_conn_ac_inc_vs_by_1 llc).2.vS = (llc.vS + 1) % 128 ∧
    (llc_conn_ac_inc_vs_by_1 llc).1 = 0 := by
  have h1 := inc_vs_times_vS 1 llc h
  refine ⟨?_, ?_, ?_, ?_, rfl⟩
  · rw [inc_vs_times_vS 128 llc h]
    show (llc.vS + 128) % 128 = llc.vS
    omega
  · rw [inc_vs_times_vS 128 llc h]
    have : (llc.vS + 128) % 128 = llc.vS := by omega
    rw [this]
  · intro n h0 hn
    rw [inc_vs_times_vS n llc h]
    show (llc.vS + n) % 128 ≠ llc.vS
    omega
  · have h2 : (inc_vs_times 1 llc).vS = (llc.vS + 1) % 128 := by rw [h1]
    exact h2

/-- C12 at vS = 127, the wraparound. -/
theorem inc_vs_by_1_period_witness :
    ({ vS := 127 } : llc_opt).vS ≤ 127 ∧
    (llc_conn_ac_inc_vs_by_1 { vS := 127 }).2.vS = (({ vS := 127 } : llc_opt).vS + 1) % 128 :=
  ⟨by decide, (inc_vs_by_1_period { vS := 127 } (by decide)).2.2.2.1⟩

theorem inc_vs_by_1_vS (llc : llc_opt) (h : llc.vS ≤ 127) :
    (llc_conn_ac_inc_vs_by_1 llc).2 = { llc with vS := (llc.vS + 1) % 128 } := by
  simp only [llc_conn_ac_inc_vs_by_1, to_u8]
  congr 1
  rw [Int.tmod_eq_emod (by omega) (by omega)]
  omega

/-- C16: for each I-format send action (`send_i_cmd_p_set_1`, `send_i_cmd_p_set_0`,
`send_i_xxx_x_set_0`, `send_i_rsp_f_set_ackpf`) and every control block with vS in
[0,127]: the action returns 0, hands exactly one frame to transmission, an
I-format frame carrying N(S) = vS before the call and N(R) = vR, and afterwards
vS = (old vS + 1) mod 128 and vR is unchanged. -/
theorem send_i_actions (e : kenv) (a : action) (sk : sock) (skb : sk_buff)
    (ha : a = action.send_i_cmd_p_set_1 ∨ a = action.send_i_cmd_p_set_0 ∨
      a = action.send_i_xxx_x_set_0 ∨ a = action.send_i_rsp_f_set_ackpf)
    (hvS : sk.llc.vS ≤ 127) :
    (run_action e a sk skb).rc = 0 ∧
    (∃ f : frame, (run_action e a sk skb).sk.tx = sk.tx ++ [f] ∧
      f.hdr_type = LLC_PDU_TYPE_I ∧ pdu_ns f.body = some sk.llc.vS ∧
      pdu_nr f.body = some sk.llc.vR) ∧
    (run_action e a sk skb).sk.llc.vS = (sk.llc.vS + 1) % 128 ∧
    (run_action e a sk skb).sk.llc.vR = sk.llc.vR := by
  have hv := inc_vs_by_1_vS sk.llc hvS
  rcases ha with rfl | rfl | rfl | rfl <;>
    simp only [run_action, of_sk, llc_conn_ac_send_i_cmd_p_set_1, llc_conn_ac_send_i_cmd_p_set_0,
      llc_conn_ac_send_i_xxx_x_set_0, llc_conn_ac_send_i_rsp_f_set_ackpf, llc_conn_send_pdu, hv] <;>
    simp [mk_i_frame, pdu_ns, pdu_nr]

/-- C16 on `send_i_cmd_p_set_1` with vS = 127 and vR = 9. -/
theorem send_i_actions_witness :
    (action.send_i_cmd_p_set_1 = action.send_i_cmd_p_set_1 ∧
      ({ llc := { vS := 127, vR := 9 } } : sock).llc.vS ≤ 127) ∧
    (run_action {} action.send_i_cmd_p_set_1 { llc := { vS := 127, vR := 9 } } {}).sk.llc.vS =
      (({ llc := { vS := 127, vR := 9 } } : sock).llc.vS + 1) % 128 :=
  ⟨by decide, (send_i_actions {} action.send_i_cmd_p_set_1 { llc := { vS := 127, vR := 9 } } {}
    (Or.inl rfl) (by decide)).2.2.1⟩

/-- C17: each of the three FRMR actions, when the frame is allocated, returns 0
and hands to transmission exactly one frame: its header is initialised with the
U-format type and the response role, on the device and addresses of the
connection, and its FRMR payload is built from a rejected-PDU header (the saved
`rx_pdu_hdr` for `resend_frmr_rsp_f_set_0`, the header of the event for the
other two), the F bit of the action, the current vS, the current vR and the
reason 0, which is `INCORRECT`; when the frame is not allocated nothing is sent;
in both cases vS and vR are unchanged. -/
theorem frmr_actions (e : kenv) (a : action) (sk : sock) (skb : sk_buff)
    (ha : a = action.send_frmr_rsp_f_set_x ∨ a = action.resend_frmr_rsp_f_set_0 ∨
      a = action.resend_frmr_rsp_f_set_p) :
    (e.alloc = true →
      (run_action e a sk skb).rc = 0 ∧
      (run_action e a sk skb).sk.tx = sk.tx ++
        [{ dev := sk.llc.dev, hdr_type := LLC_PDU_TYPE_U, ssap := sk.llc.sap.laddr.lsap,
           dsap := sk.llc.daddr.lsap, cr := LLC_PDU_RSP,
           body := pdu_init.frmr_rsp (frmr_rejected_hdr a sk skb) (frmr_f_bit a skb)
             sk.llc.vS sk.llc.vR 0,
           sa := sk.llc.dev.dev_addr, da := sk.llc.daddr.mac }]) ∧
    (e.alloc = false → (run_action e a sk skb).sk.tx = sk.tx) ∧
    INCORRECT = 0 ∧
    (run_action e a sk skb).sk.llc.vS = sk.llc.vS ∧
    (run_action e a sk skb).sk.llc.vR = sk.llc.vR := by
  rcases ha with rfl | rfl | rfl <;>
    cases hal : e.alloc <;>
    simp [run_action, of_sk, llc_conn_ac_send_frmr_rsp_f_set_x,
      llc_conn_ac_resend_frmr_rsp_f_set_0, llc_conn_ac_resend_frmr_rsp_f_set_p,
      llc_conn_send_pdu, mk_frame, frmr_rejected_hdr, frmr_f_bit, LLC_PDU_IS_CMD, hal, INCORRECT]
  split <;> simp_all

/-- C17 on `resend_frmr_rsp_f_set_0` with a saved header and vS = 3, vR = 4: the
one frame sent is the U-format response echoing the saved header with F = 0. -/
theorem frmr_actions_witness :
    action.resend_frmr_rsp_f_set_0 = action.resend_frmr_rsp_f_set_0 ∧
    (run_action {} action.resend_frmr_rsp_f_set_0
        { llc := { vS := 3, vR := 4, rx_pdu_hdr := { ctrl_1 := 1, ctrl_2 := 2 } } } {}).sk.tx =
      [{ hdr_type := LLC_PDU_TYPE_U, cr := LLC_PDU_RSP,
         body := pdu_init.frmr_rsp { ctrl_1 := 1, ctrl_2 := 2 } 0 3 4 0 }] :=
  ⟨rfl, ((frmr_actions {} action.resend_frmr_rsp_f_set_0
    { llc := { vS := 3, vR := 4, rx_pdu_hdr := { ctrl_1 := 1, ctrl_2 := 2 } } } {}
    (Or.inr (Or.inl rfl))).1 rfl).2⟩

theorem inc_npta_three_calls (llc : llc_opt) (hi : llc.inc_cntr = 2) (hn : llc.npta ≤ 127) :
    inc_npta_times 1 llc = { llc with inc_cntr := 1 } ∧
    inc_npta_times 2 llc = { llc with inc_cntr := 0 } ∧
    inc_npta_times 3 llc =
      { llc with dec_step := 0, inc_cntr := 2, dec_cntr := 2, npta := min 127 (llc.npta + 1) } := by
  have e1 : inc_npta_times 1 llc = { llc with inc_cntr := 1 } := by
    simp [inc_npta_times, llc_conn_ac_inc_npta_value, hi, to_u8]
  have e2 : inc_npta_times 2 llc = { llc with inc_cntr := 0 } := by
    show (llc_conn_ac_inc_npta_value (inc_npta_times 1 llc)).2 = _
    rw [e1]
    simp [llc_conn_ac_inc_npta_value, to_u8]
  refine ⟨e1, e2, ?_⟩
  show (llc_conn_ac_inc_npta_value (inc_npta_times 2 llc)).2 = _
  rw [e2]
  simp only [llc_conn_ac_inc_npta_value, to_u8]
  by_cases h127 : llc.npta = 127
  · simp [h127]
  · have h1 : ((llc.npta : Int) + 1) % 256 = ((llc.npta + 1 : Nat) : Int) := by omega
    have h2 : ¬ (llc.npta + 1 > 127) := by omega
    have h3 : min 127 (llc.npta + 1) = llc.npta + 1 := by omega
    simp [h1, h2, h3]

theorem inc_npta_times_three (n : Nat) (llc : llc_opt) (hi : llc.inc_cntr = 2)
    (hd : llc.dec_cntr = 2) (hn : llc.npta ≤ 127) :
    (inc_npta_times (3 * n) llc).npta = min 127 (llc.npta + n) ∧
    (inc_npta_times (3 * n) llc).inc_cntr = 2 ∧
    (inc_npta_times (3 * n) llc).dec_cntr = 2 := by
  induction n with
  | zero =>
    simp only [inc_npta_times, Nat.mul_zero, Function.iterate_zero, id_eq, Nat.add_zero]
    exact ⟨by omega, hi, hd⟩
  | succ n ih =>
    obtain ⟨i1, i2, i3⟩ := ih
    have hs : inc_npta_times (3 * (n + 1)) llc = inc_npta_times 3 (inc_npta_times (3 * n) llc) := by
      simp only [inc_npta_times]
      rw [← Function.iterate_add_apply]
      congr 1
      omega
    have hle : (inc_npta_times (3 * n) llc).npta ≤ 127 := by rw [i1]; omega
    rw [hs, (inc_npta_three_calls _ i2 hle).2.2]
    refine ⟨?_, rfl, rfl⟩
    show min 127 ((inc_npta_times (3 * n) llc).npta + 1) = _
    rw [i1]
    omega

/-- C18 as stated fails: from inc_cntr = dec_cntr = 2 and npta = 5 the second
following call of `llc_conn_ac_inc_npta_value` still leaves npta = 5 (inc_cntr
has only reached 0); npta becomes 6 at the third call. -/
theorem inc_npta_value_second_call_keeps_npta :
    (inc_npta_times 2 { inc_cntr := 2, dec_cntr := 2, npta := 5 }).npta = 5 ∧
    (inc_npta_times 2 { inc_cntr := 2, dec_cntr := 2, npta := 5 }).inc_cntr = 0 ∧
    (inc_npta_times 3 { inc_cntr := 2, dec_cntr := 2, npta := 5 }).npta = 6 ∧
    (inc_npta_times 4 { inc_cntr := 2, dec_cntr := 2, npta := 5 }).npta = 6 := by
  decide

/-- C18 (amended): from a control block in which npta has just been increased
(inc_cntr = dec_cntr = 2, npta at most 127), the first two following calls of
`llc_conn_ac_inc_npta_value` leave npta unchanged (inc_cntr goes 2, 1, 0) and
the third increases npta by exactly 1, capped at 127, and resets inc_cntr and
dec_cntr to 2; so over any run of 3n consecutive calls from such a state npta
increases by exactly n, capped at 127. -/
theorem inc_npta_value_every_third_call (llc : llc_opt) (hi : llc.inc_cntr = 2)
    (hd : llc.dec_cntr = 2) (hn : llc.npta ≤ 127) :
    (inc_npta_times 1 llc).npta = llc.npta ∧ (inc_npta_times 1 llc).inc_cntr = 1 ∧
    (inc_npta_times 2 llc).npta = llc.npta ∧ (inc_npta_times 2 llc).inc_cntr = 0 ∧
    (inc_npta_times 3 llc).npta = min 127 (llc.npta + 1) ∧
    (inc_npta_times 3 llc).inc_cntr = 2 ∧ (inc_npta_times 3 llc).dec_cntr = 2 ∧
    (∀ n, (inc_npta_times (3 * n) llc).npta = min 127 (llc.npta + n) ∧
      (inc_npta_times (3 * n) llc).inc_cntr = 2 ∧ (inc_npta_times (3 * n) llc).dec_cntr = 2) := by
  obtain ⟨e1, e2, e3⟩ := inc_npta_three_calls llc hi hn
  refine ⟨by rw [e1], by rw [e1], by rw [e2], by rw [e2], by rw [e3], by rw [e3], by rw [e3], ?_⟩
  intro n
  exact inc_npta_times_three n llc hi hd hn

/-- C18 (amended) from npta = 126, where the cap is reached after six calls. -/
theorem inc_npta_value_every_third_call_witness :
    (({ inc_cntr := 2, dec_cntr := 2, npta := 126 } : llc_opt).inc_cntr = 2 ∧
      ({ inc_cntr := 2, dec_cntr := 2, npta := 126 } : llc_opt).dec_cntr = 2 ∧
      ({ inc_cntr := 2, dec_cntr := 2, npta := 126 } : llc_opt).npta ≤ 127) ∧
    (inc_npta_times (3 * 2) { inc_cntr := 2, dec_cntr := 2, npta := 126 }).npta =
      min 127 (({ inc_cntr := 2, dec_cntr := 2, npta := 126 } : llc_opt).npta + 2) :=
  ⟨by decide, ((inc_npta_value_every_third_call _ (by decide) (by decide) (by decide)).2.2.2.2.2.2.2
    2).1⟩

theorem dec_tx_win_size_cases (llc : llc_opt) (hk : 2 ≤ llc.k ∧ llc.k ≤ 128) :
    (llc_conn_ac_dec_tx_win_size llc).1 = 0 ∧
    (llc_conn_ac_dec_tx_win_size llc).2 = { llc with k := (llc_conn_ac_dec_tx_win_size llc).2.k } ∧
    (llc.pdu_unack_q.length % 256 ≤ llc.k →
      ((llc_conn_ac_dec_tx_win_size llc).2.k : Int) =
        max 2 ((llc.k : Int) - (llc.pdu_unack_q.length % 256 : Nat))) ∧
    (llc.k < llc.pdu_unack_q.length % 256 →
      (llc_conn_ac_dec_tx_win_size llc).2.k = 256 + llc.k - llc.pdu_unack_q.length % 256) := by
  refine ⟨rfl, ?_, ?_, ?_⟩
  · simp only [llc_conn_ac_dec_tx_win_size]
    split <;> rfl
  · intro h
    simp only [llc_conn_ac_dec_tx_win_size, to_u8, skb_queue_len]
    split <;> dsimp only at * <;> omega
  · intro h
    simp only [llc_conn_ac_dec_tx_win_size, to_u8, skb_queue_len]
    split <;> dsimp only at * <;> omega

/-- C19 (the code departs from max(2, k - u)): with k = 2 and u = 3 outstanding
PDUs `llc_conn_ac_dec_tx_win_size` returns 0 and changes only k, but leaves
k = 255, where max(2, 2 - 3) over the integers is 2. -/
theorem dec_tx_win_size_not_integer_max :
    (2 ≤ ({ k := 2, pdu_unack_q := [0, 1, 2] } : llc_opt).k ∧
      ({ k := 2, pdu_unack_q := [0, 1, 2] } : llc_opt).k ≤ 128) ∧
    max (2 : Int) ((({ k := 2, pdu_unack_q := [0, 1, 2] } : llc_opt).k : Int) -
      (skb_queue_len ({ k := 2, pdu_unack_q := [0, 1, 2] } : llc_opt).pdu_unack_q : Int)) = 2 ∧
    (llc_conn_ac_dec_tx_win_size { k := 2, pdu_unack_q := [0, 1, 2] }).2.k = 255 ∧
    (llc_conn_ac_dec_tx_win_size { k := 2, pdu_unack_q := [0, 1, 2] }) =
      (0, { k := 255, pdu_unack_q := [0, 1, 2] }) := by
  decide

theorem supv_nr_le (pdu : llc_pdu_sn) : PDU_SUPV_GET_Nr pdu ≤ 127 := by
  unfold PDU_SUPV_GET_Nr
  have h : pdu.ctrl_2 &&& 0xFE ≤ 0xFE := Nat.and_le_right
  rw [Nat.shiftRight_eq_div_pow]
  omega

theorem inc_npta_value_seq (llc : llc_opt) :
    (llc_conn_ac_inc_npta_value llc).2.vS = llc.vS ∧
    (llc_conn_ac_inc_npta_value llc).2.vR = llc.vR ∧
    (llc_conn_ac_inc_npta_value llc).2.last_nr = llc.last_nr := by
  simp only [llc_conn_ac_inc_npta_value]
  (repeat' split) <;> simp

theorem send_ack_if_needed_seq (alloc : Bool) (sk : sock) (skb : sk_buff) :
    (llc_conn_ac_send_ack_if_needed alloc sk skb).2.llc.vS = sk.llc.vS ∧
    (llc_conn_ac_send_ack_if_needed alloc sk skb).2.llc.vR = sk.llc.vR ∧
    (llc_conn_ac_send_ack_if_needed alloc sk skb).2.llc.last_nr = sk.llc.last_nr := by
  by_cases h : Int.tmod ((sk.llc.vR : Int) - (batch_first sk.llc : Int) + 129) 128 ≥
      (sk.llc.npta : Int)
  · rw [send_ack_if_needed_flush alloc sk skb h]
    exact inc_npta_value_seq _
  · rw [send_ack_if_needed_keep alloc sk skb h]
    exact ⟨rfl, rfl, rfl⟩

theorem upd_nr_received_seq (bits jiffies HZ : Nat) (sk : sock) (skb : sk_buff) :
    (llc_conn_ac_upd_nr_received bits jiffies HZ sk skb).2.1.llc.vS = sk.llc.vS ∧
    (llc_conn_ac_upd_nr_received bits jiffies HZ sk skb).2.1.llc.vR = sk.llc.vR ∧
    (llc_conn_ac_upd_nr_received bits jiffies HZ sk skb).2.1.llc.last_nr = PDU_SUPV_GET_Nr skb.pdu := by
  obtain ⟨n, hrm⟩ := remove_acked_pdus_shape
    { sk.llc with last_nr := PDU_SUPV_GET_Nr skb.pdu } (PDU_SUPV_GET_Nr skb.pdu)
  simp only [llc_conn_ac_upd_nr_received, hrm]
  refine ⟨?_, ?_, ?_⟩ <;> (repeat' split) <;> rfl

theorem run_action_seq_in_range (e : kenv) (a : action) (sk : sock) (skb : sk_buff)
    (h : seq_in_range sk.llc) : seq_in_range (run_action e a sk skb).sk.llc := by
  obtain ⟨h1, h2, h3⟩ := h
  have hnr := supv_nr_le skb.pdu
  have hack := send_ack_if_needed_seq e.alloc sk skb
  have hupd := upd_nr_received_seq e.BITS_PER_LONG e.jiffies e.HZ sk skb
  have hnext := next_vr_le sk.llc.vR
  have hvs : to_u8 (Int.tmod ((sk.llc.vS : Int) + 1) 128) ≤ 127 := by
    unfold to_u8
    rw [Int.tmod_eq_emod (by omega) (by omega)]
    omega
  cases a
  case send_ack_if_needed =>
    simp only [run_action, of_sk, seq_in_range]
    rw [hack.1, hack.2.1, hack.2.2]
    exact ⟨h1, h2, h3⟩
  case upd_nr_received =>
    simp only [run_action, of_sk_skb, seq_in_range]
    rw [hupd.1, hupd.2.1, hupd.2.2]
    exact ⟨h1, h2, hnr⟩
  all_goals
    simp only [run_action, of_llc, of_llc_calls, of_sk, of_sk_calls, of_sk_skb, of_skb,
      seq_in_range]
    first
    | exact ⟨h1, h2, h3⟩
    | (simp only [llc_conn_ac_dec_tx_win_size, llc_conn_ac_inc_tx_win_size, llc_conn_ac_inc_npta_value, llc_conn_ac_adjust_npta_by_rr, llc_conn_ac_adjust_npta_by_rnr, llc_conn_ac_inc_vr_by_1, llc_conn_ac_send_rr_rsp_f_set_ackpf, llc_conn_ac_data_confirm, llc_conn_ac_disc_ind, llc_conn_ac_rst_ind, llc_conn_ac_set_s_flag_0, llc_conn_ac_set_s_flag_1, llc_conn_ac_rst_sendack_flag, llc_conn_ac_set_data_flag_2, llc_conn_ac_set_data_flag_0, llc_conn_ac_set_data_flag_1, llc_conn_ac_set_data_flag_1_if_data_flag_eq_0, llc_conn_ac_set_p_flag_0, llc_conn_ac_set_p_flag_1, llc_conn_ac_set_remote_busy_0, llc_conn_ac_set_cause_flag_0, llc_conn_ac_set_cause_flag_1, llc_conn_ac_set_retry_cnt_0, llc_conn_ac_inc_retry_cnt_by_1, llc_conn_ac_set_vr_0, llc_conn_ac_set_vs_0, llc_conn_ac_set_vs_nr, llc_conn_ac_inc_vs_by_1, llc_conn_ac_set_f_flag_p, llc_conn_ac_rst_vs, llc_conn_ac_upd_vs, llc_conn_ac_report_status, llc_conn_disc, llc_conn_reset, llc_conn_ac_start_p_timer, llc_conn_ac_stop_all_timers, llc_conn_ac_stop_other_timers, llc_conn_ac_start_ack_timer, llc_conn_ac_start_rej_timer, llc_conn_ac_start_ack_tmr_if_not_running, llc_conn_ac_stop_ack_timer, llc_conn_ac_stop_p_timer, llc_conn_ac_stop_rej_timer, llc_conn_ac_stop_rej_tmr_if_data_flag_eq_2, llc_conn_ac_set_remote_busy, llc_conn_ac_clear_remote_busy, llc_conn_ac_clear_remote_busy_if_f_eq_1, llc_conn_ac_upd_p_flag, llc_conn_ac_conn_ind, llc_conn_ac_conn_confirm, llc_conn_ac_data_ind, llc_conn_ac_disc_confirm, llc_conn_ac_rst_confirm, llc_conn_ac_send_disc_cmd_p_set_x, llc_conn_ac_send_dm_rsp_f_set_p, llc_conn_ac_send_dm_rsp_f_set_1, llc_conn_ac_send_dm_rsp_f_set_f_flag, llc_conn_ac_send_frmr_rsp_f_set_x, llc_conn_ac_resend_frmr_rsp_f_set_0, llc_conn_ac_resend_frmr_rsp_f_set_p, llc_conn_ac_send_sabme_cmd_p_set_x, llc_conn_ac_send_ua_rsp_f_set_f_flag, llc_conn_ac_send_ua_rsp_f_set_p, llc_conn_ac_send_rej_cmd_p_set_1, llc_conn_ac_send_rej_rsp_f_set_1, llc_conn_ac_send_rej_xxx_x_set_0, llc_conn_ac_send_rnr_cmd_p_set_1, llc_conn_ac_send_rnr_rsp_f_set_1, llc_conn_ac_send_rnr_xxx_x_set_0, llc_conn_ac_opt_send_rnr_xxx_x_set_0, llc_conn_ac_send_rr_cmd_p_set_1, llc_conn_ac_send_ack_cmd_p_set_1, llc_conn_ac_send_rr_rsp_f_set_1, llc_conn_ac_send_ack_rsp_f_set_1, llc_conn_ac_send_rr_xxx_x_set_0, llc_conn_ac_send_ack_xxx_x_set_0, llc_conn_ac_send_i_cmd_p_set_1, llc_conn_ac_send_i_cmd_p_set_0, llc_conn_ac_send_i_xxx_x_set_0, llc_conn_ac_send_i_rsp_f_set_ackpf, llc_conn_ac_send_i_as_ack, llc_conn_ac_resend_i_cmd_p_set_1, llc_conn_ac_resend_i_cmd_p_set_1_or_send_rr, llc_conn_ac_resend_i_xxx_x_set_0, llc_conn_ac_resend_i_xxx_x_set_0_or_send_rr, llc_conn_ac_resend_i_rsp_f_set_1, llc_conn_send_pdu, attach_ind_prim, attach_cfm_prim]
       (repeat' split) <;> (try dsimp only) <;>
         first | exact ⟨h1, h2, h3⟩ | omega)

/-- C13: if vS, vR and last_nr are all in [0,127], they are again all in
[0,127] after any single action of the library applied with any event and any
allocation outcome, and hence after any finite sequence of actions. -/
theorem seq_range_invariant (sk : sock) (h : seq_in_range sk.llc) :
    (∀ (e : kenv) (a : action) (skb : sk_buff), seq_in_range (run_action e a sk skb).sk.llc) ∧
    (∀ steps : List (kenv × action × sk_buff), seq_in_range (run_actions sk steps).llc) := by
  refine ⟨fun e a skb => run_action_seq_in_range e a sk skb h, ?_⟩
  intro steps
  induction steps generalizing sk with
  | nil => exact h
  | cons st steps ih =>
    exact ih (run_action st.1 st.2.1 sk st.2.2).sk (run_action_seq_in_range _ _ _ _ h)

/-- C13 on a control block at the top of the range and a run of three actions. -/
theorem seq_range_invariant_witness :
    seq_in_range ({ llc := { vS := 127, vR := 127, last_nr := 127 } } : sock).llc ∧
    seq_in_range (run_actions { llc := { vS := 127, vR := 127, last_nr := 127 } }
      [({}, action.inc_vs_by_1, {}), ({}, action.inc_vr_by_1, {}),
        ({}, action.upd_nr_received, { pdu := { ctrl_2 := 255 } })]).llc :=
  ⟨by simp [seq_in_range], (seq_range_invariant _ (by simp [seq_in_range])).2 _⟩

theorem send_ack_if_needed_failed_alloc (sk : sock) (skb : sk_buff) :
    (llc_conn_ac_send_ack_if_needed false sk skb).1 = 0 ∧
    (llc_conn_ac_send_ack_if_needed false sk skb).2.tx = sk.tx ∧
    (llc_conn_ac_send_ack_if_needed false sk skb).2.llc =
      llc_after_failed_alloc action.send_ack_if_needed sk skb := by
  simp only [llc_after_failed_alloc]
  by_cases h : Int.tmod ((sk.llc.vR : Int) - (batch_first sk.llc : Int) + 129) 128 ≥
      (sk.llc.npta : Int)
  · rw [send_ack_if_needed_flush false sk skb h]
    simp only [Bool.false_eq_true, reduceIte, List.append_nil, llc_conn_ac_inc_npta_value]
    (repeat' split) <;> simp
  · rw [send_ack_if_needed_keep false sk skb h]
    simp

theorem failed_alloc_effect (e : kenv) (a : action) (sk : sock) (skb : sk_buff)
    (ha : allocates a = true) (he : e.alloc = false) :
    (run_action e a sk skb).sk.tx = sk.tx ∧
    (run_action e a sk skb).sk.llc = llc_after_failed_alloc a sk skb ∧
    (run_action e a sk skb).calls = calls_after_failed_alloc a skb ∧
    (run_action e a sk skb).skb = skb := by
  have hack := send_ack_if_needed_failed_alloc sk skb
  cases a <;> first | exact absurd ha (by decide) | skip
  case send_ack_if_needed =>
    rw [show run_action e action.send_ack_if_needed sk skb =
      of_sk skb (llc_conn_ac_send_ack_if_needed false sk skb) by simp only [run_action, he]]
    exact ⟨hack.2.1, hack.2.2, rfl, rfl⟩
  all_goals
    simp [run_action, of_sk, of_sk_calls, he, llc_after_failed_alloc, calls_after_failed_alloc,
      llc_conn_ac_dec_tx_win_size, llc_conn_ac_inc_tx_win_size, llc_conn_ac_inc_npta_value, llc_conn_ac_adjust_npta_by_rr, llc_conn_ac_adjust_npta_by_rnr, llc_conn_ac_inc_vr_by_1, llc_conn_ac_send_rr_rsp_f_set_ackpf, llc_conn_ac_data_confirm, llc_conn_ac_disc_ind, llc_conn_ac_rst_ind, llc_conn_ac_set_s_flag_0, llc_conn_ac_set_s_flag_1, llc_conn_ac_rst_sendack_flag, llc_conn_ac_set_data_flag_2, llc_conn_ac_set_data_flag_0, llc_conn_ac_set_data_flag_1, llc_conn_ac_set_data_flag_1_if_data_flag_eq_0, llc_conn_ac_set_p_flag_0, llc_conn_ac_set_p_flag_1, llc_conn_ac_set_remote_busy_0, llc_conn_ac_set_cause_flag_0, llc_conn_ac_set_cause_flag_1, llc_conn_ac_set_retry_cnt_0, llc_conn_ac_inc_retry_cnt_by_1, llc_conn_ac_set_vr_0, llc_conn_ac_set_vs_0, llc_conn_ac_set_vs_nr, llc_conn_ac_inc_vs_by_1, llc_conn_ac_set_f_flag_p, llc_conn_ac_rst_vs, llc_conn_ac_upd_vs, llc_conn_ac_report_status, llc_conn_disc, llc_conn_reset, llc_conn_ac_start_p_timer, llc_conn_ac_stop_all_timers, llc_conn_ac_stop_other_timers, llc_conn_ac_start_ack_timer, llc_conn_ac_start_rej_timer, llc_conn_ac_start_ack_tmr_if_not_running, llc_conn_ac_stop_ack_timer, llc_conn_ac_stop_p_timer, llc_conn_ac_stop_rej_timer, llc_conn_ac_stop_rej_tmr_if_data_flag_eq_2, llc_conn_ac_set_remote_busy, llc_conn_ac_clear_remote_busy, llc_conn_ac_clear_remote_busy_if_f_eq_1, llc_conn_ac_upd_p_flag, llc_conn_ac_conn_ind, llc_conn_ac_conn_confirm, llc_conn_ac_data_ind, llc_conn_ac_disc_confirm, llc_conn_ac_rst_confirm, llc_conn_ac_send_disc_cmd_p_set_x, llc_conn_ac_send_dm_rsp_f_set_p, llc_conn_ac_send_dm_rsp_f_set_1, llc_conn_ac_send_dm_rsp_f_set_f_flag, llc_conn_ac_send_frmr_rsp_f_set_x, llc_conn_ac_resend_frmr_rsp_f_set_0, llc_conn_ac_resend_frmr_rsp_f_set_p, llc_conn_ac_send_sabme_cmd_p_set_x, llc_conn_ac_send_ua_rsp_f_set_f_flag, llc_conn_ac_send_ua_rsp_f_set_p, llc_conn_ac_send_rej_cmd_p_set_1, llc_conn_ac_send_rej_rsp_f_set_1, llc_conn_ac_send_rej_xxx_x_set_0, llc_conn_ac_send_rnr_cmd_p_set_1, llc_conn_ac_send_rnr_rsp_f_set_1, llc_conn_ac_send_rnr_xxx_x_set_0, llc_conn_ac_opt_send_rnr_xxx_x_set_0, llc_conn_ac_send_rr_cmd_p_set_1, llc_conn_ac_send_ack_cmd_p_set_1, llc_conn_ac_send_rr_rsp_f_set_1, llc_conn_ac_send_ack_rsp_f_set_1, llc_conn_ac_send_rr_xxx_x_set_0, llc_conn_ac_send_ack_xxx_x_set_0, llc_conn_ac_send_i_cmd_p_set_1, llc_conn_ac_send_i_cmd_p_set_0, llc_conn_ac_send_i_xxx_x_set_0, llc_conn_ac_send_i_rsp_f_set_ackpf, llc_conn_ac_send_i_as_ack, llc_conn_ac_resend_i_cmd_p_set_1, llc_conn_ac_resend_i_cmd_p_set_1_or_send_rr, llc_conn_ac_resend_i_xxx_x_set_0, llc_conn_ac_resend_i_xxx_x_set_0_or_send_rr, llc_conn_ac_resend_i_rsp_f_set_1]

/-- C14 as stated fails: when no frame can be allocated,
`llc_conn_ac_send_frmr_rsp_f_set_x` sends nothing but has already saved the
header of the rejected PDU in `rx_pdu_hdr`, so the control block is changed. -/
theorem send_frmr_failed_alloc_saves_header :
    allocates action.send_frmr_rsp_f_set_x = true ∧
    (run_action { alloc := false } action.send_frmr_rsp_f_set_x {}
      { pdu := { ctrl_1 := 3 } }).sk.tx = [] ∧
    (run_action { alloc := false } action.send_frmr_rsp_f_set_x {}
      { pdu := { ctrl_1 := 3 } }).sk.llc.rx_pdu_hdr = { ctrl_1 := 3 } ∧
    (run_action { alloc := false } action.send_frmr_rsp_f_set_x {}
      { pdu := { ctrl_1 := 3 } }).sk.llc ≠ ({} : sock).llc := by
  decide

/-- C14 (amended): for every action that allocates an outgoing frame, directly
or through another action, when the allocation fails no frame is handed to
transmission, the event is untouched and the control block is unchanged, with
these exceptions: `send_disc_cmd_p_set_x` and `send_sabme_cmd_p_set_x` still set
p_flag = 1; `send_frmr_rsp_f_set_x` still saves the rejected header in
rx_pdu_hdr; `send_ack_if_needed` still changes ack_pf, first_pdu_Ns,
ack_must_be_send, npta, inc_cntr, dec_cntr and dec_step;
`resend_i_xxx_x_set_0_or_send_rr` leaves the block unchanged and calls the resend
of the unacknowledged I-PDUs; none of them changes anything else. -/
theorem failed_alloc_leaves_ccb (e : kenv) (a : action) (sk : sock) (skb : sk_buff)
    (ha : allocates a = true) (he : e.alloc = false) :
    (run_action e a sk skb).sk.tx = sk.tx ∧ (run_action e a sk skb).skb = skb ∧
    (a = action.send_disc_cmd_p_set_x ∨ a = action.send_sabme_cmd_p_set_x →
      (run_action e a sk skb).sk.llc = { sk.llc with p_flag := 1 } ∧
      (run_action e a sk skb).calls = []) ∧
    (a = action.send_frmr_rsp_f_set_x →
      (run_action e a sk skb).sk.llc = { sk.llc with rx_pdu_hdr := skb.pdu } ∧
      (run_action e a sk skb).calls = []) ∧
    (a = action.send_ack_if_needed →
      (run_action e a sk skb).sk.llc = { sk.llc with
        ack_pf := (run_action e a sk skb).sk.llc.ack_pf,
        first_pdu_Ns := (run_action e a sk skb).sk.llc.first_pdu_Ns,
        ack_must_be_send := (run_action e a sk skb).sk.llc.ack_must_be_send,
        npta := (run_action e a sk skb).sk.llc.npta,
        inc_cntr := (run_action e a sk skb).sk.llc.inc_cntr,
        dec_cntr := (run_action e a sk skb).sk.llc.dec_cntr,
        dec_step := (run_action e a sk skb).sk.llc.dec_step } ∧
      (run_action e a sk skb).calls = []) ∧
    (a = action.resend_i_xxx_x_set_0_or_send_rr →
      (run_action e a sk skb).sk.llc = sk.llc ∧
      (run_action e a sk skb).calls =
        [ext_call.llc_conn_resend_i_pdu_as_cmd (LLC_I_GET_NR skb.pdu) 0]) ∧
    (a ≠ action.send_disc_cmd_p_set_x → a ≠ action.send_sabme_cmd_p_set_x →
      a ≠ action.send_frmr_rsp_f_set_x → a ≠ action.send_ack_if_needed →
      a ≠ action.resend_i_xxx_x_set_0_or_send_rr →
      (run_action e a sk skb).sk.llc = sk.llc ∧ (run_action e a sk skb).calls = []) := by
  obtain ⟨h1, h2, h3, h4⟩ := failed_alloc_effect e a sk skb ha he
  refine ⟨h1, h4, ?_, ?_, ?_, ?_, ?_⟩
  · rintro (rfl | rfl) <;> exact ⟨h2, h3⟩
  · rintro rfl
    exact ⟨h2, h3⟩
  · rintro rfl
    refine ⟨?_, h3⟩
    have hr : (run_action e action.send_ack_if_needed sk skb).sk.llc =
        (llc_conn_ac_send_ack_if_needed false sk skb).2.llc := by
      simp only [run_action, of_sk, he]
    rw [hr]
    rw [hr] at h2
    exact h2
  · rintro rfl
    exact ⟨h2, h3⟩
  · intro n1 n2 n3 n4 n5
    rw [h2, h3]
    clear h1 h2 h3 h4
    cases a <;> simp_all [llc_after_failed_alloc, calls_after_failed_alloc, allocates]

/-- C14 (amended) on `send_rr_cmd_p_set_1` with a failing allocation. -/
theorem failed_alloc_leaves_ccb_witness :
    (allocates action.send_rr_cmd_p_set_1 = true ∧ ({ alloc := false } : kenv).alloc = false) ∧
    (run_action { alloc := false } action.send_rr_cmd_p_set_1 { llc := { vR := 5 } } {}).sk.tx =
      ({ llc := { vR := 5 } } : sock).tx :=
  ⟨by decide, (failed_alloc_leaves_ccb { alloc := false } action.send_rr_cmd_p_set_1
    { llc := { vR := 5 } } {} (by decide) (by decide)).1⟩

/-- C15 as stated fails: with the allocation failing, `send_ack_if_needed` (a
call that reaches the allocation: with a frame available it sends the RR
response) and `resend_i_xxx_x_set_0_or_send_rr` both return 0, not 1. -/
theorem failed_alloc_returns_zero :
    allocates action.send_ack_if_needed = true ∧
    (run_action { alloc := true } action.send_ack_if_needed {} {}).sk.tx ≠ [] ∧
    (run_action { alloc := false } action.send_ack_if_needed {} {}).sk.tx = [] ∧
    (run_action { alloc := false } action.send_ack_if_needed {} {}).rc = 0 ∧
    allocates action.resend_i_xxx_x_set_0_or_send_rr = true ∧
    (run_action { alloc := false } action.resend_i_xxx_x_set_0_or_send_rr {} {}).sk.tx = [] ∧
    (run_action { alloc := false } action.resend_i_xxx_x_set_0_or_send_rr {} {}).rc = 0 := by
  decide

theorem send_ack_if_needed_rc (alloc : Bool) (sk : sock) (skb : sk_buff) :
    (llc_conn_ac_send_ack_if_needed alloc sk skb).1 = 0 := by
  simp only [llc_conn_ac_send_ack_if_needed]
  (repeat' split) <;> rfl

theorem upd_nr_received_rc (bits jiffies HZ : Nat) (sk : sock) (skb : sk_buff) :
    (llc_conn_ac_upd_nr_received bits jiffies HZ sk skb).1 = 0 := by
  simp only [llc_conn_ac_upd_nr_received]
  (repeat' split) <;> rfl

/-- C15 (amended): every action of the library returns either 0 or 1, and every
action that allocates an outgoing frame, directly or through another action,
returns 1 when the allocation fails and 0 when it succeeds, except
`resend_i_xxx_x_set_0_or_send_rr` (on failure it resends the I-PDUs and resets
its return code) and `send_ack_if_needed` (it discards the result of the RR
send), which return 0 whether or not a frame could be allocated. -/
theorem action_return_codes (e : kenv) (a : action) (sk : sock) (skb : sk_buff) :
    ((run_action e a sk skb).rc = 0 ∨ (run_action e a sk skb).rc = 1) ∧
    (allocates a = true → a ≠ action.resend_i_xxx_x_set_0_or_send_rr →
      a ≠ action.send_ack_if_needed →
      (e.alloc = false → (run_action e a sk skb).rc = 1) ∧
      (e.alloc = true → (run_action e a sk skb).rc = 0)) ∧
    (a = action.resend_i_xxx_x_set_0_or_send_rr ∨ a = action.send_ack_if_needed →
      (run_action e a sk skb).rc = 0) := by
  have hack := send_ack_if_needed_rc e.alloc sk skb
  have hupd := upd_nr_received_rc e.BITS_PER_LONG e.jiffies e.HZ sk skb
  cases a
  case send_ack_if_needed => simp [run_action, of_sk, hack]
  case upd_nr_received => simp [run_action, of_sk_skb, hupd, allocates]
  all_goals
    simp only [run_action, of_llc, of_llc_calls, of_sk, of_sk_calls, of_sk_skb, of_skb, allocates,
      llc_conn_ac_dec_tx_win_size, llc_conn_ac_inc_tx_win_size, llc_conn_ac_inc_npta_value, llc_conn_ac_adjust_npta_by_rr, llc_conn_ac_adjust_npta_by_rnr, llc_conn_ac_inc_vr_by_1, llc_conn_ac_send_rr_rsp_f_set_ackpf, llc_conn_ac_data_confirm, llc_conn_ac_disc_ind, llc_conn_ac_rst_ind, llc_conn_ac_set_s_flag_0, llc_conn_ac_set_s_flag_1, llc_conn_ac_rst_sendack_flag, llc_conn_ac_set_data_flag_2, llc_conn_ac_set_data_flag_0, llc_conn_ac_set_data_flag_1, llc_conn_ac_set_data_flag_1_if_data_flag_eq_0, llc_conn_ac_set_p_flag_0, llc_conn_ac_set_p_flag_1, llc_conn_ac_set_remote_busy_0, llc_conn_ac_set_cause_flag_0, llc_conn_ac_set_cause_flag_1, llc_conn_ac_set_retry_cnt_0, llc_conn_ac_inc_retry_cnt_by_1, llc_conn_ac_set_vr_0, llc_conn_ac_set_vs_0, llc_conn_ac_set_vs_nr, llc_conn_ac_inc_vs_by_1, llc_conn_ac_set_f_flag_p, llc_conn_ac_rst_vs, llc_conn_ac_upd_vs, llc_conn_ac_report_status, llc_conn_disc, llc_conn_reset, llc_conn_ac_start_p_timer, llc_conn_ac_stop_all_timers, llc_conn_ac_stop_other_timers, llc_conn_ac_start_ack_timer, llc_conn_ac_start_rej_timer, llc_conn_ac_start_ack_tmr_if_not_running, llc_conn_ac_stop_ack_timer, llc_conn_ac_stop_p_timer, llc_conn_ac_stop_rej_timer, llc_conn_ac_stop_rej_tmr_if_data_flag_eq_2, llc_conn_ac_set_remote_busy, llc_conn_ac_clear_remote_busy, llc_conn_ac_clear_remote_busy_if_f_eq_1, llc_conn_ac_upd_p_flag, llc_conn_ac_conn_ind, llc_conn_ac_conn_confirm, llc_conn_ac_data_ind, llc_conn_ac_disc_confirm, llc_conn_ac_rst_confirm, llc_conn_ac_send_disc_cmd_p_set_x, llc_conn_ac_send_dm_rsp_f_set_p, llc_conn_ac_send_dm_rsp_f_set_1, llc_conn_ac_send_dm_rsp_f_set_f_flag, llc_conn_ac_send_frmr_rsp_f_set_x, llc_conn_ac_resend_frmr_rsp_f_set_0, llc_conn_ac_resend_frmr_rsp_f_set_p, llc_conn_ac_send_sabme_cmd_p_set_x, llc_conn_ac_send_ua_rsp_f_set_f_flag, llc_conn_ac_send_ua_rsp_f_set_p, llc_conn_ac_send_rej_cmd_p_set_1, llc_conn_ac_send_rej_rsp_f_set_1, llc_conn_ac_send_rej_xxx_x_set_0, llc_conn_ac_send_rnr_cmd_p_set_1, llc_conn_ac_send_rnr_rsp_f_set_1, llc_conn_ac_send_rnr_xxx_x_set_0, llc_conn_ac_opt_send_rnr_xxx_x_set_0, llc_conn_ac_send_rr_cmd_p_set_1, llc_conn_ac_send_ack_cmd_p_set_1, llc_conn_ac_send_rr_rsp_f_set_1, llc_conn_ac_send_ack_rsp_f_set_1, llc_conn_ac_send_rr_xxx_x_set_0, llc_conn_ac_send_ack_xxx_x_set_0, llc_conn_ac_send_i_cmd_p_set_1, llc_conn_ac_send_i_cmd_p_set_0, llc_conn_ac_send_i_xxx_x_set_0, llc_conn_ac_send_i_rsp_f_set_ackpf, llc_conn_ac_send_i_as_ack, llc_conn_ac_resend_i_cmd_p_set_1, llc_conn_ac_resend_i_cmd_p_set_1_or_send_rr, llc_conn_ac_resend_i_xxx_x_set_0, llc_conn_ac_resend_i_xxx_x_set_0_or_send_rr, llc_conn_ac_resend_i_rsp_f_set_1]
    cases e.alloc <;> (repeat' split) <;> simp_all

theorem allocates_iff_alloc_matters (a : action) :
    allocates a = true ↔
      ∃ (e : kenv) (sk : sock) (skb : sk_buff),
        run_action { e with alloc := true } a sk skb ≠
          run_action { e with alloc := false } a sk skb := by
  constructor
  · intro h
    refine ⟨{}, {}, {}, ?_⟩
    cases a <;> first | exact absurd h (by decide) | decide
  · rintro ⟨e, sk, skb, hne⟩
    cases a <;> first | rfl | exact absurd rfl hne

theorem su_send_allocates (a : action) (h : su_send a = true) : allocates a = true := by
  cases a <;> first | rfl | exact absurd h (by decide)

/-- C20: every supervisory or unnumbered send action, when its frame is
allocated, returns 0 and hands exactly one frame to transmission; the frame has
the command/response role and the P/F bit its name announces (`*_cmd_p_set_1` and
`*_cmd_p_set_x`: command, P = 1; `*_rsp_f_set_1`: response, F = 1; `*_xxx_x_set_0`:
response, F = 0; `*_rsp_f_set_p`: response, F = P/F bit of the triggering PDU;
`*_rsp_f_set_f_flag`: response, F = f_flag; `send_rr_rsp_f_set_ackpf`: response,
F = ack_pf), and when it is an RR, RNR or REJ frame it carries N(R) = vR; the RR
frames of `resend_i_cmd_p_set_1_or_send_rr`, `resend_i_xxx_x_set_0_or_send_rr` and
`send_ack_if_needed` carry N(R) = vR as well. -/
theorem su_send_role_and_pf (e : kenv) (a : action) (sk : sock) (skb : sk_buff)
    (he : e.alloc = true) :
    (su_send a = true →
      (run_action e a sk skb).rc = 0 ∧
      ∃ f : frame, (run_action e a sk skb).sk.tx = sk.tx ++ [f] ∧
        f.cr = named_role a ∧
        (∀ p, named_pf a sk.llc skb = some p → pdu_pf f.body = p) ∧
        (is_supervisory f.body = true → pdu_nr f.body = some sk.llc.vR)) ∧
    (a = action.resend_i_cmd_p_set_1_or_send_rr ∨ a = action.resend_i_xxx_x_set_0_or_send_rr →
      ∃ f : frame, (run_action e a sk skb).sk.tx = sk.tx ++ [f] ∧
        is_supervisory f.body = true ∧ pdu_nr f.body = some sk.llc.vR) ∧
    (a = action.send_ack_if_needed →
      ∀ f ∈ (run_action e a sk skb).sk.tx, f ∉ sk.tx →
        is_supervisory f.body = true ∧ pdu_nr f.body = some sk.llc.vR ∧ f.cr = LLC_PDU_RSP) := by
  refine ⟨?_, ?_, ?_⟩
  · intro h
    cases a <;> first
      | exact absurd h (by decide)
      | simp [run_action, of_sk, he, named_role, named_pf, pdu_pf, pdu_nr, is_supervisory,
          mk_frame, llc_conn_send_pdu, llc_conn_ac_set_p_flag_1, llc_conn_ac_send_disc_cmd_p_set_x, llc_conn_ac_send_dm_rsp_f_set_p, llc_conn_ac_send_dm_rsp_f_set_1, llc_conn_ac_send_dm_rsp_f_set_f_flag, llc_conn_ac_send_frmr_rsp_f_set_x, llc_conn_ac_resend_frmr_rsp_f_set_0, llc_conn_ac_resend_frmr_rsp_f_set_p, llc_conn_ac_send_rej_cmd_p_set_1, llc_conn_ac_send_rej_rsp_f_set_1, llc_conn_ac_send_rej_xxx_x_set_0, llc_conn_ac_send_rnr_cmd_p_set_1, llc_conn_ac_send_rnr_rsp_f_set_1, llc_conn_ac_send_rnr_xxx_x_set_0, llc_conn_ac_opt_send_rnr_xxx_x_set_0, llc_conn_ac_send_rr_cmd_p_set_1, llc_conn_ac_send_ack_cmd_p_set_1, llc_conn_ac_send_rr_rsp_f_set_1, llc_conn_ac_send_ack_rsp_f_set_1, llc_conn_ac_send_rr_xxx_x_set_0, llc_conn_ac_send_ack_xxx_x_set_0, llc_conn_ac_send_sabme_cmd_p_set_x, llc_conn_ac_send_ua_rsp_f_set_f_flag, llc_conn_ac_send_ua_rsp_f_set_p, llc_conn_ac_send_rr_rsp_f_set_ackpf]
  · rintro (rfl | rfl) <;>
      simp [run_action, of_sk_calls, he, pdu_nr, is_supervisory, mk_frame, llc_conn_send_pdu,
        llc_conn_ac_resend_i_cmd_p_set_1_or_send_rr, llc_conn_ac_resend_i_xxx_x_set_0_or_send_rr,
        llc_conn_ac_send_rr_cmd_p_set_1]
  · rintro rfl f hf hnf
    simp only [run_action, of_sk, he] at hf
    by_cases h : Int.tmod ((sk.llc.vR : Int) - (batch_first sk.llc : Int) + 129) 128 ≥
        (sk.llc.npta : Int)
    · rw [send_ack_if_needed_flush true sk skb h] at hf
      simp only [reduceIte, List.mem_append, List.mem_singleton] at hf
      rcases hf with hf | rfl
      · exact absurd hf hnf
      · simp [rr_rsp_frame, is_supervisory, pdu_nr]
    · rw [send_ack_if_needed_keep true sk skb h] at hf
      exact absurd hf hnf

/-- C20 on `send_rej_rsp_f_set_1` with vR = 6 and a frame available. -/
theorem su_send_role_and_pf_witness :
    ({} : kenv).alloc = true ∧
    (run_action {} action.send_rej_rsp_f_set_1 { llc := { vR := 6 } } {}).rc = 0 :=
  ⟨rfl, ((su_send_role_and_pf {} action.send_rej_rsp_f_set_1 { llc := { vR := 6 } } {} rfl).1
    (by decide)).1⟩

theorem send_ack_if_needed_timers (alloc : Bool) (sk : sock) (skb : sk_buff) (t : timer_id) :
    get_timer (llc_conn_ac_send_ack_if_needed alloc sk skb).2.llc t = get_timer sk.llc t := by
  simp only [llc_conn_ac_send_ack_if_needed, llc_conn_ac_send_rr_rsp_f_set_ackpf,
    llc_conn_ac_inc_npta_value, llc_conn_send_pdu]
  cases t <;> (repeat' split) <;> rfl

theorem upd_nr_received_timers (bits jiffies HZ : Nat) (sk : sock) (skb : sk_buff) (t : timer_id) :
    get_timer (llc_conn_ac_upd_nr_received bits jiffies HZ sk skb).2.1.llc t = get_timer sk.llc t ∨
    ((get_timer (llc_conn_ac_upd_nr_received bits jiffies HZ sk skb).2.1.llc t).timer.pending = true ∧
      (get_timer (llc_conn_ac_upd_nr_received bits jiffies HZ sk skb).2.1.llc t).running = 1) ∨
    ((get_timer (llc_conn_ac_upd_nr_received bits jiffies HZ sk skb).2.1.llc t).timer.pending = false ∧
      (get_timer (llc_conn_ac_upd_nr_received bits jiffies HZ sk skb).2.1.llc t).running = 0) := by
  have hs := remove_acked_pdus_shape { sk.llc with last_nr := PDU_SUPV_GET_Nr skb.pdu }
    (PDU_SUPV_GET_Nr skb.pdu)
  obtain ⟨n, hn⟩ := hs
  simp only [llc_conn_ac_upd_nr_received, hn, add_timer, del_timer, llc_conn_ac_data_confirm]
  cases t <;> (repeat' split) <;> simp [get_timer]

theorem run_action_timer_cases (e : kenv) (a : action) (sk : sock) (skb : sk_buff)
    (t : timer_id) :
    get_timer (run_action e a sk skb).sk.llc t = get_timer sk.llc t ∨
    ((get_timer (run_action e a sk skb).sk.llc t).timer.pending = true ∧
      (get_timer (run_action e a sk skb).sk.llc t).running = 1) ∨
    ((get_timer (run_action e a sk skb).sk.llc t).timer.pending = false ∧
      (get_timer (run_action e a sk skb).sk.llc t).running = 0) := by
  cases a
  case send_ack_if_needed =>
    left
    simp only [run_action, of_sk]
    exact send_ack_if_needed_timers e.alloc sk skb t
  case upd_nr_received =>
    simp only [run_action, of_sk_skb]
    exact upd_nr_received_timers e.BITS_PER_LONG e.jiffies e.HZ sk skb t
  all_goals
    simp only [run_action, of_llc, of_llc_calls, of_sk, of_sk_calls, of_sk_skb, of_skb,
      arm_timer, stop_timer, add_timer, del_timer, attach_ind_prim, attach_cfm_prim,
      llc_conn_send_pdu, llc_conn_ac_dec_tx_win_size, llc_conn_ac_inc_tx_win_size, llc_conn_ac_inc_npta_value, llc_conn_ac_adjust_npta_by_rr, llc_conn_ac_adjust_npta_by_rnr, llc_conn_ac_inc_vr_by_1, llc_conn_ac_send_rr_rsp_f_set_ackpf, llc_conn_ac_data_confirm, llc_conn_ac_disc_ind, llc_conn_ac_rst_ind, llc_conn_ac_set_s_flag_0, llc_conn_ac_set_s_flag_1, llc_conn_ac_rst_sendack_flag, llc_conn_ac_set_data_flag_2, llc_conn_ac_set_data_flag_0, llc_conn_ac_set_data_flag_1, llc_conn_ac_set_data_flag_1_if_data_flag_eq_0, llc_conn_ac_set_p_flag_0, llc_conn_ac_set_p_flag_1, llc_conn_ac_set_remote_busy_0, llc_conn_ac_set_cause_flag_0, llc_conn_ac_set_cause_flag_1, llc_conn_ac_set_retry_cnt_0, llc_conn_ac_inc_retry_cnt_by_1, llc_conn_ac_set_vr_0, llc_conn_ac_set_vs_0, llc_conn_ac_set_vs_nr, llc_conn_ac_inc_vs_by_1, llc_conn_ac_set_f_flag_p, llc_conn_ac_rst_vs, llc_conn_ac_upd_vs, llc_conn_ac_report_status, llc_conn_disc, llc_conn_reset, llc_conn_ac_start_p_timer, llc_conn_ac_stop_all_timers, llc_conn_ac_stop_other_timers, llc_conn_ac_start_ack_timer, llc_conn_ac_start_rej_timer, llc_conn_ac_start_ack_tmr_if_not_running, llc_conn_ac_stop_ack_timer, llc_conn_ac_stop_p_timer, llc_conn_ac_stop_rej_timer, llc_conn_ac_stop_rej_tmr_if_data_flag_eq_2, llc_conn_ac_set_remote_busy, llc_conn_ac_clear_remote_busy, llc_conn_ac_clear_remote_busy_if_f_eq_1, llc_conn_ac_upd_p_flag, llc_conn_ac_conn_ind, llc_conn_ac_conn_confirm, llc_conn_ac_data_ind, llc_conn_ac_disc_confirm, llc_conn_ac_rst_confirm, llc_conn_ac_send_disc_cmd_p_set_x, llc_conn_ac_send_dm_rsp_f_set_p, llc_conn_ac_send_dm_rsp_f_set_1, llc_conn_ac_send_dm_rsp_f_set_f_flag, llc_conn_ac_send_frmr_rsp_f_set_x, llc_conn_ac_resend_frmr_rsp_f_set_0, llc_conn_ac_resend_frmr_rsp_f_set_p, llc_conn_ac_send_sabme_cmd_p_set_x, llc_conn_ac_send_ua_rsp_f_set_f_flag, llc_conn_ac_send_ua_rsp_f_set_p, llc_conn_ac_send_rej_cmd_p_set_1, llc_conn_ac_send_rej_rsp_f_set_1, llc_conn_ac_send_rej_xxx_x_set_0, llc_conn_ac_send_rnr_cmd_p_set_1, llc_conn_ac_send_rnr_rsp_f_set_1, llc_conn_ac_send_rnr_xxx_x_set_0, llc_conn_ac_opt_send_rnr_xxx_x_set_0, llc_conn_ac_send_rr_cmd_p_set_1, llc_conn_ac_send_ack_cmd_p_set_1, llc_conn_ac_send_rr_rsp_f_set_1, llc_conn_ac_send_ack_rsp_f_set_1, llc_conn_ac_send_rr_xxx_x_set_0, llc_conn_ac_send_ack_xxx_x_set_0, llc_conn_ac_send_i_cmd_p_set_1, llc_conn_ac_send_i_cmd_p_set_0, llc_conn_ac_send_i_xxx_x_set_0, llc_conn_ac_send_i_rsp_f_set_ackpf, llc_conn_ac_send_i_as_ack, llc_conn_ac_resend_i_cmd_p_set_1, llc_conn_ac_resend_i_cmd_p_set_1_or_send_rr, llc_conn_ac_resend_i_xxx_x_set_0, llc_conn_ac_resend_i_xxx_x_set_0_or_send_rr, llc_conn_ac_resend_i_rsp_f_set_1]
    cases t <;> (repeat' split) <;> simp [get_timer]

set_option maxHeartbeats 4000000 in
theorem timer_calls_pending (e : kenv) (a : action) (sk : sock) (skb : sk_buff) :
    pending (run_action e a sk skb).sk.llc =
      (timer_calls a sk skb).foldl timer_call_effect (pending sk.llc) := by
  funext t
  cases a
  case send_ack_if_needed =>
    simp only [run_action, of_sk, timer_calls, List.foldl_nil, pending]
    rw [send_ack_if_needed_timers]
  case upd_nr_received =>
    obtain ⟨n, hn⟩ := remove_acked_pdus_shape { sk.llc with last_nr := PDU_SUPV_GET_Nr skb.pdu }
      (PDU_SUPV_GET_Nr skb.pdu)
    simp only [run_action, of_sk_skb, timer_calls, llc_conn_ac_upd_nr_received, hn, add_timer,
      del_timer, llc_conn_ac_data_confirm]
    cases t <;> (repeat' split) <;>
      simp_all [pending, get_timer, timer_call_effect]
  all_goals
    simp only [run_action, of_llc, of_llc_calls, of_sk, of_sk_calls, of_sk_skb, of_skb,
      arm_timer, stop_timer, add_timer, del_timer, attach_ind_prim, attach_cfm_prim,
      llc_conn_send_pdu, timer_calls, llc_conn_ac_dec_tx_win_size, llc_conn_ac_inc_tx_win_size, llc_conn_ac_inc_npta_value, llc_conn_ac_adjust_npta_by_rr, llc_conn_ac_adjust_npta_by_rnr, llc_conn_ac_inc_vr_by_1, llc_conn_ac_send_rr_rsp_f_set_ackpf, llc_conn_ac_data_confirm, llc_conn_ac_disc_ind, llc_conn_ac_rst_ind, llc_conn_ac_set_s_flag_0, llc_conn_ac_set_s_flag_1, llc_conn_ac_rst_sendack_flag, llc_conn_ac_set_data_flag_2, llc_conn_ac_set_data_flag_0, llc_conn_ac_set_data_flag_1, llc_conn_ac_set_data_flag_1_if_data_flag_eq_0, llc_conn_ac_set_p_flag_0, llc_conn_ac_set_p_flag_1, llc_conn_ac_set_remote_busy_0, llc_conn_ac_set_cause_flag_0, llc_conn_ac_set_cause_flag_1, llc_conn_ac_set_retry_cnt_0, llc_conn_ac_inc_retry_cnt_by_1, llc_conn_ac_set_vr_0, llc_conn_ac_set_vs_0, llc_conn_ac_set_vs_nr, llc_conn_ac_inc_vs_by_1, llc_conn_ac_set_f_flag_p, llc_conn_ac_rst_vs, llc_conn_ac_upd_vs, llc_conn_ac_report_status, llc_conn_disc, llc_conn_reset, llc_conn_ac_start_p_timer, llc_conn_ac_stop_all_timers, llc_conn_ac_stop_other_timers, llc_conn_ac_start_ack_timer, llc_conn_ac_start_rej_timer, llc_conn_ac_start_ack_tmr_if_not_running, llc_conn_ac_stop_ack_timer, llc_conn_ac_stop_p_timer, llc_conn_ac_stop_rej_timer, llc_conn_ac_stop_rej_tmr_if_data_flag_eq_2, llc_conn_ac_set_remote_busy, llc_conn_ac_clear_remote_busy, llc_conn_ac_clear_remote_busy_if_f_eq_1, llc_conn_ac_upd_p_flag, llc_conn_ac_conn_ind, llc_conn_ac_conn_confirm, llc_conn_ac_data_ind, llc_conn_ac_disc_confirm, llc_conn_ac_rst_confirm, llc_conn_ac_send_disc_cmd_p_set_x, llc_conn_ac_send_dm_rsp_f_set_p, llc_conn_ac_send_dm_rsp_f_set_1, llc_conn_ac_send_dm_rsp_f_set_f_flag, llc_conn_ac_send_frmr_rsp_f_set_x, llc_conn_ac_resend_frmr_rsp_f_set_0, llc_conn_ac_resend_frmr_rsp_f_set_p, llc_conn_ac_send_sabme_cmd_p_set_x, llc_conn_ac_send_ua_rsp_f_set_f_flag, llc_conn_ac_send_ua_rsp_f_set_p, llc_conn_ac_send_rej_cmd_p_set_1, llc_conn_ac_send_rej_rsp_f_set_1, llc_conn_ac_send_rej_xxx_x_set_0, llc_conn_ac_send_rnr_cmd_p_set_1, llc_conn_ac_send_rnr_rsp_f_set_1, llc_conn_ac_send_rnr_xxx_x_set_0, llc_conn_ac_opt_send_rnr_xxx_x_set_0, llc_conn_ac_send_rr_cmd_p_set_1, llc_conn_ac_send_ack_cmd_p_set_1, llc_conn_ac_send_rr_rsp_f_set_1, llc_conn_ac_send_ack_rsp_f_set_1, llc_conn_ac_send_rr_xxx_x_set_0, llc_conn_ac_send_ack_xxx_x_set_0, llc_conn_ac_send_i_cmd_p_set_1, llc_conn_ac_send_i_cmd_p_set_0, llc_conn_ac_send_i_xxx_x_set_0, llc_conn_ac_send_i_rsp_f_set_ackpf, llc_conn_ac_send_i_as_ack, llc_conn_ac_resend_i_cmd_p_set_1, llc_conn_ac_resend_i_cmd_p_set_1_or_send_rr, llc_conn_ac_resend_i_xxx_x_set_0, llc_conn_ac_resend_i_xxx_x_set_0_or_send_rr, llc_conn_ac_resend_i_rsp_f_set_1]
    cases t <;> (repeat' split) <;> simp_all [pending, get_timer, timer_call_effect]

theorem conn_step_run_keeps_pending_eq_running (sk : sock) (s : conn_step)
    (h : pending_eq_running sk.llc) : pending_eq_running (conn_step_run sk s).llc := by
  intro t
  cases s with
  | act e a skb =>
    have ht := h t
    simp only [pending] at ht ⊢
    simp only [conn_step_run]
    rcases run_action_timer_cases e a sk skb t with h1 | ⟨h1, h2⟩ | ⟨h1, h2⟩
    · rw [h1]; exact ht
    · rw [h1, h2]; decide
    · rw [h1, h2]; decide
  | expiry u alloc_skb =>
    have ht := h t
    simp only [pending] at ht ⊢
    simp only [conn_step_run, pending]
    split
    · cases u <;> cases t <;> cases alloc_skb <;>
        simp only [timer_cb, llc_conn_pf_cycle_tmr_cb, llc_conn_busy_tmr_cb, llc_conn_ack_tmr_cb,
          llc_conn_rej_tmr_cb, tmr_cb_dispatch, llc_process_tmr_ev, clear_pending, get_timer] at ht ⊢ <;>
        (repeat' split) <;> simp_all [get_timer]
    · exact ht

theorem step_double_adds_busy (sk : sock) (s : conn_step) (h : pending_eq_running sk.llc) :
    ∀ t ∈ step_double_adds sk s, t = timer_id.busy_state_timer := by
  cases s with
  | expiry u alloc_skb => simp [step_double_adds]
  | act e a skb =>
    have hack := h timer_id.ack_timer
    simp only [pending, get_timer] at hack
    cases a <;> simp only [step_double_adds, timer_calls] <;> (repeat' split) <;>
      simp_all [double_adds, timer_call_effect, pending, get_timer]

theorem run_double_adds_busy (steps : List conn_step) :
    ∀ sk : sock, pending_eq_running sk.llc →
      pending_eq_running (conn_run sk steps).llc ∧
      ∀ t ∈ run_double_adds sk steps, t = timer_id.busy_state_timer := by
  induction steps with
  | nil => intro sk h; exact ⟨h, by simp [run_double_adds]⟩
  | cons s r ih =>
    intro sk h
    have h1 := conn_step_run_keeps_pending_eq_running sk s h
    obtain ⟨i1, i2⟩ := ih (conn_step_run sk s) h1
    refine ⟨by simpa [conn_run] using i1, ?_⟩
    intro t ht
    simp only [run_double_adds, List.mem_append] at ht
    rcases ht with ht | ht
    · exact step_double_adds_busy sk s h t ht
    · exact i2 t ht

/-- C21: when the running flag of the ack timer is set,
`llc_conn_ac_start_ack_tmr_if_not_running` leaves the whole control block, the
ack timer with its pending state and expiry included, unchanged and makes no
`add_timer` call; when the flag is clear it calls `add_timer` once, leaving the
ack timer pending with callback `llc_conn_ack_tmr_cb` and with expiry
jiffies + expire * HZ as `unsigned long` arithmetic gives it, that is the sum
modulo 2^bits, which is the sum itself whenever it fits (with 64 bits,
jiffies = 2^64 - 1, expire = 1 and HZ = 100 the expiry is 99), and sets
running = 1, changing nothing else; it always returns 0, and a second call right
after the first (at any later clock value) gives the result of the first call
alone. -/
theorem start_ack_tmr_if_not_running_once (bits jiffies HZ jiffies2 HZ2 : Nat) (sk : sock)
    (skb : sk_buff) :
    (sk.llc.ack_timer.running ≠ 0 →
      llc_conn_ac_start_ack_tmr_if_not_running bits jiffies HZ sk.llc = (0, sk.llc) ∧
      timer_calls action.start_ack_tmr_if_not_running sk skb = []) ∧
    (sk.llc.ack_timer.running = 0 →
      (llc_conn_ac_start_ack_tmr_if_not_running bits jiffies HZ sk.llc).2 =
        { sk.llc with ack_timer :=
          { timer := { pending := true,
                       expires := (jiffies + sk.llc.ack_timer.expire * HZ) % 2 ^ bits,
                       function := timer_fn.llc_conn_ack_tmr_cb },
            expire := sk.llc.ack_timer.expire, running := 1 } } ∧
      timer_calls action.start_ack_tmr_if_not_running sk skb =
        [timer_call.add_timer timer_id.ack_timer]) ∧
    (sk.llc.ack_timer.running = 0 → jiffies + sk.llc.ack_timer.expire * HZ < 2 ^ bits →
      (llc_conn_ac_start_ack_tmr_if_not_running bits jiffies HZ sk.llc).2.ack_timer.timer.expires =
        jiffies + sk.llc.ack_timer.expire * HZ) ∧
    (llc_conn_ac_start_ack_tmr_if_not_running 64 (2 ^ 64 - 1) 100
      { ack_timer := { expire := 1 } }).2.ack_timer.timer.expires = 99 ∧
    (llc_conn_ac_start_ack_tmr_if_not_running bits jiffies HZ sk.llc).1 = 0 ∧
    (run_action { BITS_PER_LONG := bits, jiffies := jiffies, HZ := HZ }
        action.start_ack_tmr_if_not_running sk skb).sk.llc =
      (llc_conn_ac_start_ack_tmr_if_not_running bits jiffies HZ sk.llc).2 ∧
    llc_conn_ac_start_ack_tmr_if_not_running bits jiffies2 HZ2
        (llc_conn_ac_start_ack_tmr_if_not_running bits jiffies HZ sk.llc).2 =
      llc_conn_ac_start_ack_tmr_if_not_running bits jiffies HZ sk.llc := by
  have h99 : (llc_conn_ac_start_ack_tmr_if_not_running 64 (2 ^ 64 - 1) 100
      { ack_timer := { expire := 1 } }).2.ack_timer.timer.expires = 99 := by
    simp [llc_conn_ac_start_ack_tmr_if_not_running, arm_timer, add_timer, to_ulong]
  by_cases h : sk.llc.ack_timer.running = 0
  · refine ⟨fun hn => absurd h hn, fun _ => ?_, fun _ hlt => ?_, h99, ?_, ?_, ?_⟩
    · simp [llc_conn_ac_start_ack_tmr_if_not_running, timer_calls, arm_timer, add_timer, h,
        to_ulong]
    · simp [llc_conn_ac_start_ack_tmr_if_not_running, arm_timer, add_timer, h, to_ulong,
        Nat.mod_eq_of_lt hlt]
    · simp [llc_conn_ac_start_ack_tmr_if_not_running, h]
    · simp [run_action, of_llc]
    · simp [llc_conn_ac_start_ack_tmr_if_not_running, arm_timer, add_timer, h]
  · refine ⟨fun _ => ?_, fun h0 => absurd h0 h, fun h0 => absurd h0 h, h99, ?_, ?_, ?_⟩
    · simp [llc_conn_ac_start_ack_tmr_if_not_running, timer_calls, h]
    · simp [llc_conn_ac_start_ack_tmr_if_not_running, h]
    · simp [run_action, of_llc]
    · simp [llc_conn_ac_start_ack_tmr_if_not_running, h]

/-- C22 (the code double-arms the busy timer): from the zero control block,
where every pending bit equals its running flag, the sequence
`llc_conn_ac_set_remote_busy`, `llc_conn_ac_set_remote_busy_0`,
`llc_conn_ac_set_remote_busy` calls `add_timer` on the busy timer while it is
still pending: the second action clears remote_busy_flag without stopping the
timer, so the third arms it again.  From any control block where every pending
bit equals its running flag, every sequence of actions and timer expiries keeps
that equality, and the busy timer is the only timer ever armed while pending. -/
theorem busy_timer_double_armed :
    pending_eq_running ({} : sock).llc ∧
    run_double_adds {} [conn_step.act {} action.set_remote_busy {},
      conn_step.act {} action.set_remote_busy_0 {},
      conn_step.act {} action.set_remote_busy {}] = [timer_id.busy_state_timer] ∧
    (conn_run {} [conn_step.act {} action.set_remote_busy {},
      conn_step.act {} action.set_remote_busy_0 {}]).llc.remote_busy_flag = 0 ∧
    pending (conn_run {} [conn_step.act {} action.set_remote_busy {},
      conn_step.act {} action.set_remote_busy_0 {}]).llc timer_id.busy_state_timer = true ∧
    (∀ (sk : sock) (steps : List conn_step), pending_eq_running sk.llc →
      pending_eq_running (conn_run sk steps).llc ∧
      ∀ t ∈ run_double_adds sk steps, t = timer_id.busy_state_timer) := by
  refine ⟨?_, by decide, by decide, by decide, fun sk steps h => run_double_adds_busy steps sk h⟩
  intro t
  cases t <;> decide

/-- C23 as stated fails: with vS = 0, X = 5 and a PDU whose N(R) = 5 equals X,
N(R) is not strictly between vS and X, yet `llc_conn_ac_upd_vs` moves vS to 5;
and with a stored last_nr = 9 and a PDU whose N(R) = 3 lies between vS = 0 and
X = 5, vS becomes 9, the stored value, not the N(R) of the PDU. -/
theorem upd_vs_end_of_arc_and_stale_last_nr :
    (PDU_SUPV_GET_Nr ({ pdu := { ctrl_2 := 10 } } : sk_buff).pdu = 5 ∧
      ¬ strictly_between 0 5 5 ∧
      (llc_conn_ac_upd_vs { vS := 0, X := 5, last_nr := 5 } { pdu := { ctrl_2 := 10 } }).2.vS = 5) ∧
    (PDU_SUPV_GET_Nr ({ pdu := { ctrl_2 := 6 } } : sk_buff).pdu = 3 ∧
      strictly_between 0 3 5 ∧
      (llc_conn_ac_upd_vs { vS := 0, X := 5, last_nr := 9 } { pdu := { ctrl_2 := 6 } }).2.vS = 9) := by
  refine ⟨⟨by decide, ?_, by decide⟩, by decide, ?_, by decide⟩
  · simp [strictly_between]
  · simp [strictly_between]

/-- C23 (amended): for vS and X in [0,127] and every received PDU,
`llc_conn_ac_upd_vs` returns 0 and sets vS to the stored last_nr exactly when
the N(R) of the PDU being processed lies on the forward arc of the ring from
the current vS to the snapshot X, both ends included; otherwise it leaves vS
unchanged; it never changes X or any other field. -/
theorem upd_vs_sets_last_nr (llc : llc_opt) (skb : sk_buff)
    (hvS : llc.vS < 128) (hX : llc.X < 128) :
    (llc_conn_ac_upd_vs llc skb).1 = 0 ∧
    (PDU_SUPV_GET_Nr skb.pdu ∈ forward_arc llc.vS llc.X →
      (llc_conn_ac_upd_vs llc skb).2 = { llc with vS := llc.last_nr }) ∧
    (PDU_SUPV_GET_Nr skb.pdu ∉ forward_arc llc.vS llc.X →
      (llc_conn_ac_upd_vs llc skb).2 = llc) ∧
    (llc_conn_ac_upd_vs llc skb).2 = { llc with vS := (llc_conn_ac_upd_vs llc skb).2.vS } := by
  have hnr : PDU_SUPV_GET_Nr skb.pdu < 128 := Nat.lt_succ_of_le (supv_nr_le skb.pdu)
  have h1 := circular_between_iff llc.vS (PDU_SUPV_GET_Nr skb.pdu) llc.X hvS hnr hX
  have h2 := mem_forward_arc llc.vS (PDU_SUPV_GET_Nr skb.pdu) llc.X hvS hnr hX
  have h0 := circular_between_zero_iff llc.vS (PDU_SUPV_GET_Nr skb.pdu) llc.X
  simp only [llc_conn_ac_upd_vs, llc_conn_ac_set_vs_nr]
  by_cases hb : llc_circular_between llc.vS (PDU_SUPV_GET_Nr skb.pdu) llc.X = 1
  · have hm := h2.2 (h1.1 hb)
    have hne : llc_circular_between llc.vS (PDU_SUPV_GET_Nr skb.pdu) llc.X ≠ 0 := by omega
    simp [hne, hm]
  · have hz := h0.2 hb
    have hm : PDU_SUPV_GET_Nr skb.pdu ∉ forward_arc llc.vS llc.X := fun hm => hb (h1.2 (h2.1 hm))
    simp [hz, hm]

/-- C23 (amended) on vS = 0, X = 5, last_nr = 9 and a PDU with N(R) = 5. -/
theorem upd_vs_sets_last_nr_witness :
    (({ vS := 0, X := 5, last_nr := 9 } : llc_opt).vS < 128 ∧
      ({ vS := 0, X := 5, last_nr := 9 } : llc_opt).X < 128) ∧
    (llc_conn_ac_upd_vs { vS := 0, X := 5, last_nr := 9 } { pdu := { ctrl_2 := 10 } }).1 = 0 :=
  ⟨by decide, (upd_vs_sets_last_nr { vS := 0, X := 5, last_nr := 9 } { pdu := { ctrl_2 := 10 } }
    (by decide) (by decide)).1⟩

/-- C24: let control block `a` enable `llc_conn_ac_adjust_npta_by_rr`
(connect_step = 0 and remote_busy_flag = 0) and control block `b` enable
`llc_conn_ac_adjust_npta_by_rnr` (remote_busy_flag set), with the same 8-bit
npta, dec_cntr, inc_cntr and dec_step.  Then both actions return 0 and leave the
same (npta, dec_cntr, inc_cntr), namely the update of `npta_decrease`: nothing if
dec_step is non-zero; dec_cntr decremented by 1 if it is non-zero; otherwise
inc_cntr = dec_cntr = 2 and npta decreased by 1 with floor 0; neither changes
any other field.  With remote_busy_flag clear `llc_conn_ac_adjust_npta_by_rnr`
changes nothing. -/
theorem adjust_npta_rr_rnr_symmetric (a b : llc_opt)
    (ha : a.connect_step = 0 ∧ a.remote_busy_flag = 0) (hb : b.remote_busy_flag ≠ 0)
    (hn : a.npta = b.npta) (hd : a.dec_cntr = b.dec_cntr) (hi : a.inc_cntr = b.inc_cntr)
    (hs : a.dec_step = b.dec_step) (hu : a.npta ≤ 255 ∧ a.dec_cntr ≤ 255) :
    (llc_conn_ac_adjust_npta_by_rr a).1 = 0 ∧ (llc_conn_ac_adjust_npta_by_rnr b).1 = 0 ∧
    ((llc_conn_ac_adjust_npta_by_rr a).2.npta, (llc_conn_ac_adjust_npta_by_rr a).2.dec_cntr,
      (llc_conn_ac_adjust_npta_by_rr a).2.inc_cntr) =
      npta_decrease a.npta a.dec_cntr a.inc_cntr a.dec_step ∧
    ((llc_conn_ac_adjust_npta_by_rnr b).2.npta, (llc_conn_ac_adjust_npta_by_rnr b).2.dec_cntr,
      (llc_conn_ac_adjust_npta_by_rnr b).2.inc_cntr) =
      npta_decrease a.npta a.dec_cntr a.inc_cntr a.dec_step ∧
    (llc_conn_ac_adjust_npta_by_rr a).2 =
      { a with npta := (llc_conn_ac_adjust_npta_by_rr a).2.npta,
               dec_cntr := (llc_conn_ac_adjust_npta_by_rr a).2.dec_cntr,
               inc_cntr := (llc_conn_ac_adjust_npta_by_rr a).2.inc_cntr } ∧
    (llc_conn_ac_adjust_npta_by_rnr b).2 =
      { b with npta := (llc_conn_ac_adjust_npta_by_rnr b).2.npta,
               dec_cntr := (llc_conn_ac_adjust_npta_by_rnr b).2.dec_cntr,
               inc_cntr := (llc_conn_ac_adjust_npta_by_rnr b).2.inc_cntr } ∧
    (∀ c : llc_opt, c.remote_busy_flag = 0 → llc_conn_ac_adjust_npta_by_rnr c = (0, c)) := by
  obtain ⟨ha1, ha2⟩ := ha
  obtain ⟨hu1, hu2⟩ := hu
  have hb1 : b.npta ≤ 255 := hn ▸ hu1
  have hb2 : b.dec_cntr ≤ 255 := hd ▸ hu2
  refine ⟨?_, ?_, ?_, ?_, ?_, ?_, ?_⟩
  · simp only [llc_conn_ac_adjust_npta_by_rr]; (repeat' split) <;> rfl
  · simp only [llc_conn_ac_adjust_npta_by_rnr]; (repeat' split) <;> rfl
  · simp only [llc_conn_ac_adjust_npta_by_rr, npta_decrease, to_u8, ha1, ha2, and_self, if_true]
    by_cases h1 : a.dec_step = 0
    · by_cases h2 : a.dec_cntr = 0
      · by_cases h3 : a.npta > 0
        · simp only [h1, h2, h3, if_true, ne_eq, not_true_eq_false, if_false, Prod.mk.injEq,
            and_true]
          omega
        · simp only [h1, h2, h3, if_true, ne_eq, not_true_eq_false, if_false, Prod.mk.injEq,
            and_true]
          omega
      · simp only [h1, h2, if_true, ne_eq, not_true_eq_false, if_false, not_false_eq_true,
          Prod.mk.injEq, and_true, true_and]
        omega
    · simp only [h1, if_false, ne_eq, not_false_eq_true, if_true]
  · rw [hn, hd, hi, hs]
    simp only [llc_conn_ac_adjust_npta_by_rnr, npta_decrease, to_u8, hb, if_true, ne_eq,
      not_false_eq_true]
    by_cases h1 : b.dec_step = 0
    · by_cases h2 : b.dec_cntr = 0
      · by_cases h3 : b.npta > 0
        · simp only [h1, h2, h3, if_true, ne_eq, not_true_eq_false, if_false, Prod.mk.injEq,
            and_true]
          omega
        · simp only [h1, h2, h3, if_true, ne_eq, not_true_eq_false, if_false, Prod.mk.injEq,
            and_true]
          omega
      · simp only [h1, h2, if_true, ne_eq, not_true_eq_false, if_false, not_false_eq_true,
          Prod.mk.injEq, and_true, true_and]
        omega
    · simp only [h1, if_false, ne_eq, not_false_eq_true, if_true]
  · simp only [llc_conn_ac_adjust_npta_by_rr]
    rw [if_pos ⟨ha1, ha2⟩]
    (repeat' split) <;> rfl
  · simp only [llc_conn_ac_adjust_npta_by_rnr]; (repeat' split) <;> rfl
  · intro c hc
    simp [llc_conn_ac_adjust_npta_by_rnr, hc]

/-- C24 on two control blocks with npta = 5 and exhausted dec_cntr: both
actions leave npta = 4 and both counters at 2. -/
theorem adjust_npta_rr_rnr_symmetric_witness :
    ((llc_conn_ac_adjust_npta_by_rr { npta := 5 }).2.npta,
      (llc_conn_ac_adjust_npta_by_rr { npta := 5 }).2.dec_cntr,
      (llc_conn_ac_adjust_npta_by_rr { npta := 5 }).2.inc_cntr) = (4, 2, 2) ∧
    ((llc_conn_ac_adjust_npta_by_rnr { npta := 5, remote_busy_flag := 1 }).2.npta,
      (llc_conn_ac_adjust_npta_by_rnr { npta := 5, remote_busy_flag := 1 }).2.dec_cntr,
      (llc_conn_ac_adjust_npta_by_rnr { npta := 5, remote_busy_flag := 1 }).2.inc_cntr) =
      (4, 2, 2) :=
  ⟨(adjust_npta_rr_rnr_symmetric { npta := 5 } { npta := 5, remote_busy_flag := 1 }
      (by decide) (by decide) rfl rfl rfl rfl (by decide)).2.2.1,
    (adjust_npta_rr_rnr_symmetric { npta := 5 } { npta := 5, remote_busy_flag := 1 }
      (by decide) (by decide) rfl rfl rfl rfl (by decide)).2.2.2.1⟩

theorem decode_pf_bit_le_one (pdu : llc_pdu_sn) : llc_pdu_decode_pf_bit pdu ≤ 1 := by
  unfold llc_pdu_decode_pf_bit
  split
  · have h : pdu.ctrl_1 &&& 0x10 ≤ 0x10 := Nat.and_le_right
    rw [Nat.shiftRight_eq_div_pow]
    omega
  · exact Nat.and_le_right

theorem and_one_of_le_one (p : Nat) (h : p ≤ 1) : p &&& 1 = p := by
  interval_cases p <;> rfl

theorem lor_le_one (a b : Nat) (ha : a ≤ 1) (hb : b ≤ 1) : a ||| b ≤ 1 := by
  interval_cases a <;> interval_cases b <;> decide

theorem or_p_bits_le_one (cs : List ack_call) : or_p_bits cs ≤ 1 := by
  induction cs with
  | nil => simp [or_p_bits]
  | cons c r ih => exact lor_le_one _ _ (decode_pf_bit_le_one _) ih

theorem or_p_bits_append (cs : List ack_call) (c : ack_call) :
    or_p_bits (cs ++ [c]) = or_p_bits cs ||| llc_pdu_decode_pf_bit c.skb.pdu := by
  induction cs with
  | nil => simp [or_p_bits]
  | cons d r ih =>
    show llc_pdu_decode_pf_bit d.skb.pdu ||| or_p_bits (r ++ [c]) = _
    rw [ih, or_p_bits, Nat.lor_assoc]

theorem ack_call_run_keep (sk : sock) (c : ack_call) (hk : keeps_batch c)
    (hf : flush_due (c.other sk).llc = false) :
    (ack_call_run sk c).llc.ack_must_be_send ≠ 0 ∧
    (ack_call_run sk c).llc.ack_pf =
      (if sk.llc.ack_must_be_send = 0 then llc_pdu_decode_pf_bit c.skb.pdu
       else sk.llc.ack_pf ||| llc_pdu_decode_pf_bit c.skb.pdu) := by
  have hf1 : ¬ (Int.tmod (((c.other sk).llc.vR : Int) - (batch_first (c.other sk).llc : Int) + 129)
      128 ≥ ((c.other sk).llc.npta : Int)) := by
    simpa [flush_due] using hf
  obtain ⟨k1, k2⟩ := hk sk
  have hp := and_one_of_le_one _ (decode_pf_bit_le_one c.skb.pdu)
  simp only [ack_call_run]
  rw [send_ack_if_needed_keep c.alloc (c.other sk) c.skb hf1]
  simp only [batch_ack_pf, k1, k2, hp]
  constructor
  · split <;> simp_all
  · trivial

theorem ack_calls_run_open (cs : List ack_call) :
    ∀ sk : sock, sk.llc.ack_must_be_send ≠ 0 → (∀ d ∈ cs, keeps_batch d) → none_flushes sk cs →
      (ack_calls_run sk cs).llc.ack_must_be_send ≠ 0 ∧
      (ack_calls_run sk cs).llc.ack_pf = sk.llc.ack_pf ||| or_p_bits cs := by
  induction cs with
  | nil => intro sk h _ _; exact ⟨h, by simp [ack_calls_run, or_p_bits]⟩
  | cons c r ih =>
    intro sk h hk hn
    obtain ⟨n1, n2⟩ := hn
    obtain ⟨s1, s2⟩ := ack_call_run_keep sk c (hk c (List.mem_cons_self _ _)) n1
    rw [if_neg h] at s2
    obtain ⟨i1, i2⟩ := ih (ack_call_run sk c) s1 (fun d hd => hk d (List.mem_cons_of_mem _ hd)) n2
    refine ⟨by simpa [ack_calls_run] using i1, ?_⟩
    simp only [ack_calls_run, List.foldl_cons] at i2 ⊢
    rw [i2, s2, or_p_bits, Nat.lor_assoc]

/-- C25: take a run of consecutive `llc_conn_ac_send_ack_if_needed` calls that
starts with no batch open, in which the actions between the calls change
neither ack_pf nor ack_must_be_send, none of the calls `cs` flushes and the
next call `c` does.  Then call `c` emits, when its frame is allocated, exactly
the RR response whose F bit is the logical OR of the P bits of the PDUs of all
the calls of the run, the one that opened the batch included, with N(R) = vR,
whatever ack_pf held before the run; after it ack_pf = 0 and
ack_must_be_send = 0. -/
theorem ack_batch_f_bit (sk : sock) (cs : List ack_call) (c : ack_call)
    (h0 : sk.llc.ack_must_be_send = 0)
    (hk : ∀ d ∈ cs ++ [c], keeps_batch d)
    (hn : none_flushes sk cs)
    (hf : flush_due (c.other (ack_calls_run sk cs)).llc = true) :
    (ack_calls_run sk (cs ++ [c])).tx =
      (c.other (ack_calls_run sk cs)).tx ++
        (if c.alloc then
          [rr_rsp_frame (c.other (ack_calls_run sk cs)).llc (or_p_bits (cs ++ [c]))]
         else []) ∧
    (ack_calls_run sk (cs ++ [c])).llc.ack_pf = 0 ∧
    (ack_calls_run sk (cs ++ [c])).llc.ack_must_be_send = 0 := by
  have hf1 : Int.tmod (((c.other (ack_calls_run sk cs)).llc.vR : Int) -
      (batch_first (c.other (ack_calls_run sk cs)).llc : Int) + 129) 128 ≥
      ((c.other (ack_calls_run sk cs)).llc.npta : Int) := by
    simpa [flush_due] using hf
  have hrun : ack_calls_run sk (cs ++ [c]) = ack_call_run (ack_calls_run sk cs) c := by
    simp [ack_calls_run, List.foldl_append]
  obtain ⟨k1, k2⟩ := hk c (by simp) (ack_calls_run sk cs)
  have hp := and_one_of_le_one _ (decode_pf_bit_le_one c.skb.pdu)
  have hacc : batch_ack_pf (c.other (ack_calls_run sk cs)).llc c.skb = or_p_bits (cs ++ [c]) := by
    rw [or_p_bits_append]
    simp only [batch_ack_pf, k1, k2, hp]
    cases cs with
    | nil => simp [ack_calls_run, h0, or_p_bits]
    | cons d r =>
      obtain ⟨n1, n2⟩ := hn
      obtain ⟨s1, s2⟩ := ack_call_run_keep sk d (hk d (by simp)) n1
      rw [if_pos h0] at s2
      obtain ⟨i1, i2⟩ := ack_calls_run_open r (ack_call_run sk d) s1
        (fun x hx => hk x (by simp [hx])) n2
      have e : ack_calls_run sk (d :: r) = ack_calls_run (ack_call_run sk d) r := by
        simp [ack_calls_run]
      rw [e, if_neg i1, i2, s2, or_p_bits]
  obtain ⟨q1, q2, _⟩ := inc_npta_value_keeps
    { (c.other (ack_calls_run sk cs)).llc with
      first_pdu_Ns := batch_first (c.other (ack_calls_run sk cs)).llc,
      ack_must_be_send := 0, ack_pf := 0 }
  rw [hrun]
  simp only [ack_call_run]
  rw [send_ack_if_needed_flush c.alloc (c.other (ack_calls_run sk cs)) c.skb hf1, hacc]
  exact ⟨rfl, q2, q1⟩

/-- C25 on a run of two I-PDUs with npta = 2 and a stale ack_pf = 1: the first
PDU has P = 0, the second P = 1, `llc_conn_ac_inc_vr_by_1` runs before each
call, and the second call emits the RR response with F = 1. -/
theorem ack_batch_f_bit_witness :
    (ack_calls_run { llc := { npta := 2, ack_pf := 1 } }
      ([{ other := fun s => (llc_conn_ac_inc_vr_by_1 s).2, alloc := true, skb := {} }] ++
        [{ other := fun s => (llc_conn_ac_inc_vr_by_1 s).2, alloc := true,
           skb := { pdu := { ctrl_2 := 1 } } }])).tx = [rr_rsp_frame { vR := 2 } 1] :=
  (ack_batch_f_bit { llc := { npta := 2, ack_pf := 1 } }
    [{ other := fun s => (llc_conn_ac_inc_vr_by_1 s).2, alloc := true, skb := {} }]
    { other := fun s => (llc_conn_ac_inc_vr_by_1 s).2, alloc := true,
      skb := { pdu := { ctrl_2 := 1 } } }
    rfl
    (by
      intro d hd
      simp only [List.mem_append, List.mem_singleton] at hd
      rcases hd with rfl | rfl <;> intro s <;> exact ⟨rfl, rfl⟩)
    ⟨by decide, trivial⟩
    (by decide)).1

theorem upd_nr_received_tx (bits jiffies HZ : Nat) (sk : sock) (skb : sk_buff) :
    (llc_conn_ac_upd_nr_received bits jiffies HZ sk skb).2.1.tx = sk.tx := by
  simp only [llc_conn_ac_upd_nr_received]
  (repeat' split) <;> rfl

set_option maxHeartbeats 4000000 in
theorem run_action_frame_header (e : kenv) (a : action) (sk : sock) (skb : sk_buff) :
    (run_action e a sk skb).sk.tx = sk.tx ∨
    ∃ f : frame, (run_action e a sk skb).sk.tx = sk.tx ++ [f] ∧
      (is_unnumbered f.body = true → f.hdr_type = LLC_PDU_TYPE_U) ∧
      (is_supervisory f.body = true →
        (f.hdr_type = LLC_PDU_TYPE_S ↔ a ≠ action.resend_i_xxx_x_set_0_or_send_rr)) := by
  have hus : LLC_PDU_TYPE_U ≠ LLC_PDU_TYPE_S := by decide
  cases a
  case send_ack_if_needed =>
    simp only [run_action, of_sk]
    by_cases h : Int.tmod ((sk.llc.vR : Int) - (batch_first sk.llc : Int) + 129) 128 ≥
        (sk.llc.npta : Int)
    · rw [send_ack_if_needed_flush e.alloc sk skb h]
      cases e.alloc
      · left; simp
      · right
        exact ⟨_, rfl, by simp [rr_rsp_frame, is_unnumbered], by simp [rr_rsp_frame]⟩
    · rw [send_ack_if_needed_keep e.alloc sk skb h]
      left; rfl
  case upd_nr_received =>
    left
    simp only [run_action, of_sk_skb]
    exact upd_nr_received_tx e.BITS_PER_LONG e.jiffies e.HZ sk skb
  all_goals
    simp only [run_action, of_llc, of_llc_calls, of_sk, of_sk_calls, of_sk_skb, of_skb,
      attach_ind_prim, attach_cfm_prim, mk_frame, mk_i_frame, llc_conn_send_pdu, llc_conn_ac_dec_tx_win_size, llc_conn_ac_inc_tx_win_size, llc_conn_ac_inc_npta_value, llc_conn_ac_adjust_npta_by_rr, llc_conn_ac_adjust_npta_by_rnr, llc_conn_ac_inc_vr_by_1, llc_conn_ac_send_rr_rsp_f_set_ackpf, llc_conn_ac_data_confirm, llc_conn_ac_disc_ind, llc_conn_ac_rst_ind, llc_conn_ac_set_s_flag_0, llc_conn_ac_set_s_flag_1, llc_conn_ac_rst_sendack_flag, llc_conn_ac_set_data_flag_2, llc_conn_ac_set_data_flag_0, llc_conn_ac_set_data_flag_1, llc_conn_ac_set_data_flag_1_if_data_flag_eq_0, llc_conn_ac_set_p_flag_0, llc_conn_ac_set_p_flag_1, llc_conn_ac_set_remote_busy_0, llc_conn_ac_set_cause_flag_0, llc_conn_ac_set_cause_flag_1, llc_conn_ac_set_retry_cnt_0, llc_conn_ac_inc_retry_cnt_by_1, llc_conn_ac_set_vr_0, llc_conn_ac_set_vs_0, llc_conn_ac_set_vs_nr, llc_conn_ac_inc_vs_by_1, llc_conn_ac_set_f_flag_p, llc_conn_ac_rst_vs, llc_conn_ac_upd_vs, llc_conn_ac_report_status, llc_conn_disc, llc_conn_reset, llc_conn_ac_start_p_timer, llc_conn_ac_stop_all_timers, llc_conn_ac_stop_other_timers, llc_conn_ac_start_ack_timer, llc_conn_ac_start_rej_timer, llc_conn_ac_start_ack_tmr_if_not_running, llc_conn_ac_stop_ack_timer, llc_conn_ac_stop_p_timer, llc_conn_ac_stop_rej_timer, llc_conn_ac_stop_rej_tmr_if_data_flag_eq_2, llc_conn_ac_set_remote_busy, llc_conn_ac_clear_remote_busy, llc_conn_ac_clear_remote_busy_if_f_eq_1, llc_conn_ac_upd_p_flag, llc_conn_ac_conn_ind, llc_conn_ac_conn_confirm, llc_conn_ac_data_ind, llc_conn_ac_disc_confirm, llc_conn_ac_rst_confirm, llc_conn_ac_send_disc_cmd_p_set_x, llc_conn_ac_send_dm_rsp_f_set_p, llc_conn_ac_send_dm_rsp_f_set_1, llc_conn_ac_send_dm_rsp_f_set_f_flag, llc_conn_ac_send_frmr_rsp_f_set_x, llc_conn_ac_resend_frmr_rsp_f_set_0, llc_conn_ac_resend_frmr_rsp_f_set_p, llc_conn_ac_send_sabme_cmd_p_set_x, llc_conn_ac_send_ua_rsp_f_set_f_flag, llc_conn_ac_send_ua_rsp_f_set_p, llc_conn_ac_send_rej_cmd_p_set_1, llc_conn_ac_send_rej_rsp_f_set_1, llc_conn_ac_send_rej_xxx_x_set_0, llc_conn_ac_send_rnr_cmd_p_set_1, llc_conn_ac_send_rnr_rsp_f_set_1, llc_conn_ac_send_rnr_xxx_x_set_0, llc_conn_ac_opt_send_rnr_xxx_x_set_0, llc_conn_ac_send_rr_cmd_p_set_1, llc_conn_ac_send_ack_cmd_p_set_1, llc_conn_ac_send_rr_rsp_f_set_1, llc_conn_ac_send_ack_rsp_f_set_1, llc_conn_ac_send_rr_xxx_x_set_0, llc_conn_ac_send_ack_xxx_x_set_0, llc_conn_ac_send_i_cmd_p_set_1, llc_conn_ac_send_i_cmd_p_set_0, llc_conn_ac_send_i_xxx_x_set_0, llc_conn_ac_send_i_rsp_f_set_ackpf, llc_conn_ac_send_i_as_ack, llc_conn_ac_resend_i_cmd_p_set_1, llc_conn_ac_resend_i_cmd_p_set_1_or_send_rr, llc_conn_ac_resend_i_xxx_x_set_0, llc_conn_ac_resend_i_xxx_x_set_0_or_send_rr, llc_conn_ac_resend_i_rsp_f_set_1]
    cases e.alloc <;> (repeat' split) <;>
      simp [is_unnumbered, is_supervisory, hus]

/-- C26 (the code builds one RR on a U-format header): with a frame available,
`llc_conn_ac_resend_i_xxx_x_set_0_or_send_rr` hands to transmission an RR response
whose header was initialised with `LLC_PDU_TYPE_U`, not `LLC_PDU_TYPE_S`.  Every
action emits at most one frame per call; a SABME, DISC, UA, DM or FRMR frame
always has the U-format type, and an RR, RNR or REJ frame has the S-format type
in every action but this one. -/
theorem rr_built_on_u_format_header :
    (run_action {} action.resend_i_xxx_x_set_0_or_send_rr {} {}).sk.tx =
      [mk_frame {} LLC_PDU_TYPE_U LLC_PDU_RSP (pdu_init.rr_rsp 0 0)] ∧
    is_supervisory (pdu_init.rr_rsp 0 0) = true ∧
    LLC_PDU_TYPE_U ≠ LLC_PDU_TYPE_S ∧
    (∀ (e : kenv) (a : action) (sk : sock) (skb : sk_buff),
      (run_action e a sk skb).sk.tx = sk.tx ∨
      ∃ f : frame, (run_action e a sk skb).sk.tx = sk.tx ++ [f] ∧
        (is_unnumbered f.body = true → f.hdr_type = LLC_PDU_TYPE_U) ∧
        (is_supervisory f.body = true →
          (f.hdr_type = LLC_PDU_TYPE_S ↔ a ≠ action.resend_i_xxx_x_set_0_or_send_rr))) :=
  ⟨by decide, by decide, by decide, run_action_frame_header⟩

/-- C27: `llc_conn_ac_send_i_as_ack` returns 0 and hands exactly one I-format
frame with N(S) = the old vS and N(R) = vR to transmission; with a batch open
(ack_must_be_send set) the frame is a response with F = ack_pf and the batch is
closed (ack_must_be_send = 0, ack_pf = 0); otherwise it is a command with P = 0
and the acknowledgment state is unchanged; in both cases vS becomes
(vS + 1) mod 128 and nothing else changes. -/
theorem send_i_as_ack_piggybacks (sk : sock) (skb : sk_buff) :
    (llc_conn_ac_send_i_as_ack sk skb).1 = 0 ∧
    (sk.llc.ack_must_be_send ≠ 0 →
      (llc_conn_ac_send_i_as_ack sk skb).2 =
        { sk with
          tx := sk.tx ++ [mk_i_frame sk.llc skb LLC_PDU_RSP sk.llc.ack_pf],
          llc := { sk.llc with vS := (sk.llc.vS + 1) % 128, ack_must_be_send := 0,
                               ack_pf := 0 } }) ∧
    (sk.llc.ack_must_be_send = 0 →
      (llc_conn_ac_send_i_as_ack sk skb).2 =
        { sk with
          tx := sk.tx ++ [mk_i_frame sk.llc skb LLC_PDU_CMD 0],
          llc := { sk.llc with vS := (sk.llc.vS + 1) % 128 } }) ∧
    (∀ cr p_bit : Nat,
      (mk_i_frame sk.llc skb cr p_bit).hdr_type = LLC_PDU_TYPE_I ∧
      (mk_i_frame sk.llc skb cr p_bit).cr = cr ∧
      pdu_pf (mk_i_frame sk.llc skb cr p_bit).body = p_bit ∧
      pdu_ns (mk_i_frame sk.llc skb cr p_bit).body = some sk.llc.vS ∧
      pdu_nr (mk_i_frame sk.llc skb cr p_bit).body = some sk.llc.vR) := by
  have hv : to_u8 (Int.tmod ((sk.llc.vS : Int) + 1) 128) = (sk.llc.vS + 1) % 128 := by
    unfold to_u8
    rw [Int.tmod_eq_emod (by omega) (by omega)]
    omega
  refine ⟨?_, ?_, ?_, ?_⟩
  · simp only [llc_conn_ac_send_i_as_ack]
    split <;> rfl
  · intro h
    simp only [llc_conn_ac_send_i_as_ack, llc_conn_ac_send_i_rsp_f_set_ackpf,
      llc_conn_ac_inc_vs_by_1, llc_conn_send_pdu]
    rw [if_pos h, hv]
  · intro h
    simp only [llc_conn_ac_send_i_as_ack, llc_conn_ac_send_i_cmd_p_set_0,
      llc_conn_ac_inc_vs_by_1, llc_conn_send_pdu]
    rw [if_neg (not_not.mpr h), hv]
  · intro cr p_bit
    simp [mk_i_frame, pdu_pf, pdu_ns, pdu_nr]

set_option maxHeartbeats 4000000 in
theorem run_action_keeps_rx_pdu_hdr (e : kenv) (a : action) (sk : sock) (skb : sk_buff)
    (ha : a ≠ action.send_frmr_rsp_f_set_x) :
    (run_action e a sk skb).sk.llc.rx_pdu_hdr = sk.llc.rx_pdu_hdr := by
  cases a
  case send_frmr_rsp_f_set_x => exact absurd rfl ha
  case send_ack_if_needed =>
    simp only [run_action, of_sk, llc_conn_ac_send_ack_if_needed,
      llc_conn_ac_send_rr_rsp_f_set_ackpf, llc_conn_ac_inc_npta_value, llc_conn_send_pdu]
    (repeat' split) <;> rfl
  case upd_nr_received =>
    obtain ⟨n, hn⟩ := remove_acked_pdus_shape { sk.llc with last_nr := PDU_SUPV_GET_Nr skb.pdu }
      (PDU_SUPV_GET_Nr skb.pdu)
    simp only [run_action, of_sk_skb, llc_conn_ac_upd_nr_received, hn]
    (repeat' split) <;> rfl
  all_goals
    simp only [run_action, of_llc, of_llc_calls, of_sk, of_sk_calls, of_sk_skb, of_skb,
      arm_timer, stop_timer, attach_ind_prim, attach_cfm_prim, llc_conn_send_pdu, llc_conn_ac_dec_tx_win_size, llc_conn_ac_inc_tx_win_size, llc_conn_ac_inc_npta_value, llc_conn_ac_adjust_npta_by_rr, llc_conn_ac_adjust_npta_by_rnr, llc_conn_ac_inc_vr_by_1, llc_conn_ac_send_rr_rsp_f_set_ackpf, llc_conn_ac_data_confirm, llc_conn_ac_disc_ind, llc_conn_ac_rst_ind, llc_conn_ac_set_s_flag_0, llc_conn_ac_set_s_flag_1, llc_conn_ac_rst_sendack_flag, llc_conn_ac_set_data_flag_2, llc_conn_ac_set_data_flag_0, llc_conn_ac_set_data_flag_1, llc_conn_ac_set_data_flag_1_if_data_flag_eq_0, llc_conn_ac_set_p_flag_0, llc_conn_ac_set_p_flag_1, llc_conn_ac_set_remote_busy_0, llc_conn_ac_set_cause_flag_0, llc_conn_ac_set_cause_flag_1, llc_conn_ac_set_retry_cnt_0, llc_conn_ac_inc_retry_cnt_by_1, llc_conn_ac_set_vr_0, llc_conn_ac_set_vs_0, llc_conn_ac_set_vs_nr, llc_conn_ac_inc_vs_by_1, llc_conn_ac_set_f_flag_p, llc_conn_ac_rst_vs, llc_conn_ac_upd_vs, llc_conn_ac_report_status, llc_conn_disc, llc_conn_reset, llc_conn_ac_start_p_timer, llc_conn_ac_stop_all_timers, llc_conn_ac_stop_other_timers, llc_conn_ac_start_ack_timer, llc_conn_ac_start_rej_timer, llc_conn_ac_start_ack_tmr_if_not_running, llc_conn_ac_stop_ack_timer, llc_conn_ac_stop_p_timer, llc_conn_ac_stop_rej_timer, llc_conn_ac_stop_rej_tmr_if_data_flag_eq_2, llc_conn_ac_set_remote_busy, llc_conn_ac_clear_remote_busy, llc_conn_ac_clear_remote_busy_if_f_eq_1, llc_conn_ac_upd_p_flag, llc_conn_ac_conn_ind, llc_conn_ac_conn_confirm, llc_conn_ac_data_ind, llc_conn_ac_disc_confirm, llc_conn_ac_rst_confirm, llc_conn_ac_send_disc_cmd_p_set_x, llc_conn_ac_send_dm_rsp_f_set_p, llc_conn_ac_send_dm_rsp_f_set_1, llc_conn_ac_send_dm_rsp_f_set_f_flag, llc_conn_ac_send_frmr_rsp_f_set_x, llc_conn_ac_resend_frmr_rsp_f_set_0, llc_conn_ac_resend_frmr_rsp_f_set_p, llc_conn_ac_send_sabme_cmd_p_set_x, llc_conn_ac_send_ua_rsp_f_set_f_flag, llc_conn_ac_send_ua_rsp_f_set_p, llc_conn_ac_send_rej_cmd_p_set_1, llc_conn_ac_send_rej_rsp_f_set_1, llc_conn_ac_send_rej_xxx_x_set_0, llc_conn_ac_send_rnr_cmd_p_set_1, llc_conn_ac_send_rnr_rsp_f_set_1, llc_conn_ac_send_rnr_xxx_x_set_0, llc_conn_ac_opt_send_rnr_xxx_x_set_0, llc_conn_ac_send_rr_cmd_p_set_1, llc_conn_ac_send_ack_cmd_p_set_1, llc_conn_ac_send_rr_rsp_f_set_1, llc_conn_ac_send_ack_rsp_f_set_1, llc_conn_ac_send_rr_xxx_x_set_0, llc_conn_ac_send_ack_xxx_x_set_0, llc_conn_ac_send_i_cmd_p_set_1, llc_conn_ac_send_i_cmd_p_set_0, llc_conn_ac_send_i_xxx_x_set_0, llc_conn_ac_send_i_rsp_f_set_ackpf, llc_conn_ac_send_i_as_ack, llc_conn_ac_resend_i_cmd_p_set_1, llc_conn_ac_resend_i_cmd_p_set_1_or_send_rr, llc_conn_ac_resend_i_xxx_x_set_0, llc_conn_ac_resend_i_xxx_x_set_0_or_send_rr, llc_conn_ac_resend_i_rsp_f_set_1] <;>
      (repeat' split) <;> rfl

theorem run_actions_keep_rx_pdu_hdr (steps : List (kenv × action × sk_buff)) :
    ∀ sk : sock, (∀ s ∈ steps, s.2.1 ≠ action.send_frmr_rsp_f_set_x) →
      (run_actions sk steps).llc.rx_pdu_hdr = sk.llc.rx_pdu_hdr := by
  induction steps with
  | nil => intro sk _; rfl
  | cons s r ih =>
    intro sk h
    have h1 := run_action_keeps_rx_pdu_hdr s.1 s.2.1 sk s.2.2 (h s (List.mem_cons_self _ _))
    have h2 := ih (run_action s.1 s.2.1 sk s.2.2).sk (fun x hx => h x (List.mem_cons_of_mem _ hx))
    simp only [run_actions, List.foldl_cons] at h2 ⊢
    rw [h2, h1]

/-- C28: let `S` be the connection after `llc_conn_ac_send_frmr_rsp_f_set_x` has
processed an event whose PDU has header h, whether or not its frame was
allocated, followed by any actions other than
`llc_conn_ac_send_frmr_rsp_f_set_x`.  Then the saved header of `S` is still h, and
`llc_conn_ac_resend_frmr_rsp_f_set_0` on any event returns 0 and hands to
transmission, when its frame is allocated, exactly one frame: the U-format
response on the device and addresses of the connection whose FRMR payload
echoes h with F = 0, the current vS and vR and reason 0, whatever the header of
the event it is given; `llc_conn_ac_resend_frmr_rsp_f_set_0` and
`llc_conn_ac_resend_frmr_rsp_f_set_p` never change the saved header. -/
theorem resend_frmr_echoes_saved_header (e1 e2 : kenv) (sk S : sock) (skb skb2 : sk_buff)
    (steps : List (kenv × action × sk_buff))
    (hs : ∀ s ∈ steps, s.2.1 ≠ action.send_frmr_rsp_f_set_x) (h2 : e2.alloc = true)
    (hS : S = run_actions (run_action e1 action.send_frmr_rsp_f_set_x sk skb).sk steps) :
    S.llc.rx_pdu_hdr = skb.pdu ∧
    (run_action e2 action.resend_frmr_rsp_f_set_0 S skb2).rc = 0 ∧
    (run_action e2 action.resend_frmr_rsp_f_set_0 S skb2).sk.tx = S.tx ++
      [{ dev := S.llc.dev, hdr_type := LLC_PDU_TYPE_U, ssap := S.llc.sap.laddr.lsap,
         dsap := S.llc.daddr.lsap, cr := LLC_PDU_RSP,
         body := pdu_init.frmr_rsp skb.pdu 0 S.llc.vS S.llc.vR 0,
         sa := S.llc.dev.dev_addr, da := S.llc.daddr.mac }] ∧
    (∀ (e : kenv) (s : sock) (b : sk_buff),
      (run_action e action.resend_frmr_rsp_f_set_0 s b).sk.llc.rx_pdu_hdr = s.llc.rx_pdu_hdr ∧
      (run_action e action.resend_frmr_rsp_f_set_p s b).sk.llc.rx_pdu_hdr = s.llc.rx_pdu_hdr) := by
  have hsave : (run_action e1 action.send_frmr_rsp_f_set_x sk skb).sk.llc.rx_pdu_hdr = skb.pdu := by
    simp only [run_action, of_sk, llc_conn_ac_send_frmr_rsp_f_set_x, llc_conn_send_pdu]
    split <;> rfl
  have hkeep := run_actions_keep_rx_pdu_hdr steps
    (run_action e1 action.send_frmr_rsp_f_set_x sk skb).sk hs
  rw [hsave, ← hS] at hkeep
  refine ⟨hkeep, ?_, ?_, ?_⟩
  · simp [run_action, of_sk, llc_conn_ac_resend_frmr_rsp_f_set_0, h2]
  · simp [run_action, of_sk, llc_conn_ac_resend_frmr_rsp_f_set_0, h2, llc_conn_send_pdu,
      mk_frame, INCORRECT, hkeep]
  · intro e s b
    exact ⟨run_action_keeps_rx_pdu_hdr e _ s b (by decide),
      run_action_keeps_rx_pdu_hdr e _ s b (by decide)⟩

/-- C28 on a rejected header with control bytes 3 and 7, a failed allocation in
`llc_conn_ac_send_frmr_rsp_f_set_x`, one `llc_conn_ac_resend_frmr_rsp_f_set_p`
without a frame in between and a resend on an event with another header: the
one frame sent echoes the control bytes 3 and 7 with F = 0. -/
theorem resend_frmr_echoes_saved_header_witness :
    (run_action {} action.resend_frmr_rsp_f_set_0
      (run_actions (run_action { alloc := false } action.send_frmr_rsp_f_set_x {}
          { pdu := { ctrl_1 := 3, ctrl_2 := 7 } }).sk
        [({ alloc := false }, action.resend_frmr_rsp_f_set_p, { pdu := { ctrl_1 := 1 } })])
      { pdu := { ctrl_1 := 9 } }).sk.tx =
      [{ hdr_type := LLC_PDU_TYPE_U, cr := LLC_PDU_RSP,
         body := pdu_init.frmr_rsp { ctrl_1 := 3, ctrl_2 := 7 } 0 0 0 0 }] :=
  (resend_frmr_echoes_saved_header { alloc := false } {} {} _
    { pdu := { ctrl_1 := 3, ctrl_2 := 7 } } { pdu := { ctrl_1 := 9 } }
    [({ alloc := false }, action.resend_frmr_rsp_f_set_p, { pdu := { ctrl_1 := 1 } })]
    (by decide) rfl rfl).2.2.1

/-- C29: when the flush test of `llc_conn_ac_send_ack_if_needed` holds and the
RR frame cannot be allocated, the action returns 0, hands no frame to
transmission, closes the batch (ack_must_be_send = 0, ack_pf = 0) and leaves
the control block that `llc_conn_ac_inc_npta_value` makes of the closed batch;
this is the control block the call leaves when the RR response is allocated and
sent. -/
theorem send_ack_if_needed_flush_without_frame (sk : sock) (skb : sk_buff)
    (hf : flush_due sk.llc = true) :
    (llc_conn_ac_send_ack_if_needed false sk skb).1 = 0 ∧
    (llc_conn_ac_send_ack_if_needed false sk skb).2.tx = sk.tx ∧
    (llc_conn_ac_send_ack_if_needed false sk skb).2.llc.ack_must_be_send = 0 ∧
    (llc_conn_ac_send_ack_if_needed false sk skb).2.llc.ack_pf = 0 ∧
    (llc_conn_ac_send_ack_if_needed false sk skb).2.llc =
      (llc_conn_ac_inc_npta_value { sk.llc with
        first_pdu_Ns := batch_first sk.llc, ack_must_be_send := 0, ack_pf := 0 }).2 ∧
    (llc_conn_ac_send_ack_if_needed false sk skb).2.llc =
      (llc_conn_ac_send_ack_if_needed true sk skb).2.llc ∧
    (llc_conn_ac_send_ack_if_needed true sk skb).2.tx =
      sk.tx ++ [rr_rsp_frame sk.llc (batch_ack_pf sk.llc skb)] := by
  have hf1 : Int.tmod ((sk.llc.vR : Int) - (batch_first sk.llc : Int) + 129) 128 ≥
      (sk.llc.npta : Int) := by
    simpa [flush_due] using hf
  obtain ⟨q1, q2, _⟩ := inc_npta_value_keeps
    { sk.llc with first_pdu_Ns := batch_first sk.llc, ack_must_be_send := 0, ack_pf := 0 }
  rw [send_ack_if_needed_flush false sk skb hf1, send_ack_if_needed_flush true sk skb hf1]
  exact ⟨rfl, by simp, q1, q2, rfl, rfl, rfl⟩

/-- C29 on an open batch of two PDUs with npta = 3: the flushing third call
without a frame sends nothing. -/
theorem send_ack_if_needed_flush_without_frame_witness :
    flush_due ({ llc := { npta := 3, vR := 7, first_pdu_Ns := 5, ack_must_be_send := 1 } }
      : sock).llc = true ∧
    (llc_conn_ac_send_ack_if_needed false
      { llc := { npta := 3, vR := 7, first_pdu_Ns := 5, ack_must_be_send := 1 } } {}).2.tx =
      ({ llc := { npta := 3, vR := 7, first_pdu_Ns := 5, ack_must_be_send := 1 } } : sock).tx :=
  ⟨by decide, (send_ack_if_needed_flush_without_frame
    { llc := { npta := 3, vR := 7, first_pdu_Ns := 5, ack_must_be_send := 1 } } {}
    (by decide)).2.1⟩

/-- C30: each of the four timer callbacks (`timer_cb` selects
`llc_conn_pf_cycle_tmr_cb`, `llc_conn_busy_tmr_cb`, `llc_conn_ack_tmr_cb` or
`llc_conn_rej_tmr_cb`) clears the running flag of its own timer and changes
nothing else in the control block, the other three timers included, whether or
not `alloc_skb` gave a buffer; when it gave none, no event is handed on, nothing
is called and the backlog queue is unchanged; when it gave one, exactly one
event, of the callback's own type (P_TMR, BUSY_TMR, ACK_TMR, REJ_TMR) and with
no timer-specific data, is handed to `llc_process_tmr_ev`, whose outcome on the
connection with the flag cleared is the outcome of the callback. -/
theorem timer_cb_clears_own_flag (t : timer_id) (alloc_skb : Bool) (sk : sock) :
    (timer_cb timer_id.pf_cycle_timer = llc_conn_pf_cycle_tmr_cb ∧
      timer_cb timer_id.busy_state_timer = llc_conn_busy_tmr_cb ∧
      timer_cb timer_id.ack_timer = llc_conn_ack_tmr_cb ∧
      timer_cb timer_id.rej_sent_timer = llc_conn_rej_tmr_cb) ∧
    (timer_ev_type timer_id.pf_cycle_timer = LLC_CONN_EV_TYPE_P_TMR ∧
      timer_ev_type timer_id.busy_state_timer = LLC_CONN_EV_TYPE_BUSY_TMR ∧
      timer_ev_type timer_id.ack_timer = LLC_CONN_EV_TYPE_ACK_TMR ∧
      timer_ev_type timer_id.rej_sent_timer = LLC_CONN_EV_TYPE_REJ_TMR) ∧
    get_timer (timer_cb t alloc_skb sk).sk.llc t = { get_timer sk.llc t with running := 0 } ∧
    (∀ u : timer_id, u ≠ t → get_timer (timer_cb t alloc_skb sk).sk.llc u = get_timer sk.llc u) ∧
    (timer_cb t alloc_skb sk).sk.llc = (timer_cb t false sk).sk.llc ∧
    (timer_cb t false sk).handed = [] ∧
    (timer_cb t false sk).calls = [] ∧
    (timer_cb t false sk).sk = { sk with llc := (timer_cb t false sk).sk.llc } ∧
    (timer_cb t true sk).handed = [tmr_cb_event (timer_ev_type t)] ∧
    (tmr_cb_event (timer_ev_type t)).ev.type = timer_ev_type t ∧
    (tmr_cb_event (timer_ev_type t)).ev.tmr_timer_specific = 0 ∧
    ((timer_cb t true sk).sk, (timer_cb t true sk).calls) =
      llc_process_tmr_ev (timer_cb t false sk).sk (tmr_cb_event (timer_ev_type t)) := by
  refine ⟨⟨rfl, rfl, rfl, rfl⟩, ⟨rfl, rfl, rfl, rfl⟩, ?_, ?_, ?_, ?_, ?_, ?_, ?_, rfl, rfl, ?_⟩
  · cases t <;> cases alloc_skb <;>
      simp only [timer_cb, llc_conn_pf_cycle_tmr_cb, llc_conn_busy_tmr_cb, llc_conn_ack_tmr_cb,
        llc_conn_rej_tmr_cb, tmr_cb_dispatch, llc_process_tmr_ev, get_timer] <;>
      (repeat' split) <;> rfl
  · intro u hu
    cases t <;> cases u <;> first
      | exact absurd rfl hu
      | (cases alloc_skb <;>
          simp only [timer_cb, llc_conn_pf_cycle_tmr_cb, llc_conn_busy_tmr_cb,
            llc_conn_ack_tmr_cb, llc_conn_rej_tmr_cb, tmr_cb_dispatch, llc_process_tmr_ev,
            get_timer] <;>
          (repeat' split) <;> rfl)
  · cases t <;> cases alloc_skb <;>
      simp only [timer_cb, llc_conn_pf_cycle_tmr_cb, llc_conn_busy_tmr_cb, llc_conn_ack_tmr_cb,
        llc_conn_rej_tmr_cb, tmr_cb_dispatch, llc_process_tmr_ev] <;>
      (repeat' split) <;> rfl
  · cases t <;> rfl
  · cases t <;> rfl
  · cases t <;> rfl
  · cases t <;> rfl
  · cases t <;> rfl

theorem upd_nr_received_expires (bits jiffies HZ : Nat) (sk : sock) (skb : sk_buff) :
    ((llc_conn_ac_upd_nr_received bits jiffies HZ sk skb).2.1.llc.ack_timer.running = 1 ∧
      sk.llc.ack_timer.running ≠ 1 →
      (llc_conn_ac_upd_nr_received bits jiffies HZ sk skb).2.1.llc.ack_timer.timer.expires =
        (jiffies + sk.llc.ack_timer.expire * HZ) % 2 ^ bits) ∧
    (llc_conn_ac_upd_nr_received bits jiffies HZ sk skb).2.1.llc.ack_timer.expire =
      sk.llc.ack_timer.expire := by
  obtain ⟨n, hn⟩ := remove_acked_pdus_shape { sk.llc with last_nr := PDU_SUPV_GET_Nr skb.pdu }
    (PDU_SUPV_GET_Nr skb.pdu)
  simp only [llc_conn_ac_upd_nr_received, hn, add_timer, del_timer, llc_conn_ac_data_confirm,
    to_ulong]
  constructor <;> (repeat' split) <;> simp_all

end LLC
